import Mathlib

/-! # Pointer interaction core of nbtk / mx

A shallow embedding of the drag-and-drop callbacks of `nbtk/nbtk-widget.c`
and of the progress accessors, the pointer handlers and the allocation of
`mx/mx-slider.c`, followed by theorems about them.

Conventions of the embedding:

* actors are identified by a natural number (the pointer identity); `none`
  is `NULL`;
* an actor *pointer that is walked upwards* is the list made of the actor
  followed by its ancestors, nearest first; the empty list is `NULL` and
  `clutter_actor_get_parent` is the tail of the list;
* `gint` values are integers, `gint` arithmetic wraps to 32 bits, and the
  conversion of a `gint` to `guint` is reduction modulo `2 ^ 32`;
* each callback returns the new state, its `gboolean` result and the list of
  nbtk signals it emitted, in emission order;
* reference counting is not modelled, weak references are;
* `gfloat` and `gdouble` values are rationals, the two infinities and
  not-a-number; every operation gives the value of its C type nearest to the
  exact result, ties to even (IEEE 754 binary32 for `gfloat`, binary64 for
  `gdouble`), each `gfloat` expression being evaluated in `gfloat`.
-/

namespace Nbtk

/-! ## Machine integers -/

/-- Result of a `gint` arithmetic expression: wrap to 32 bit two's complement. -/
def wrap_gint (v : Int) : Int := (v + 2147483648) % 4294967296 - 2147483648

/-- Conversion of a `gint` to `guint`, as done by the usual arithmetic
conversions when a `gint` is compared with a `guint`. -/
def gint_to_guint (v : Int) : Nat := (v % 4294967296).toNat

/-! ## Data model -/

/-- The nbtk signals of `actor_signals[]` that the drag-and-drop code emits. -/
inductive Signal where
  | DND_BEGIN
  | DND_MOTION
  | DND_END
  | DND_DROPPED
  | DND_ENTER
  | DND_LEAVE
  deriving DecidableEq, Repr

/-- One `g_signal_emit (target, actor_signals[signal], 0, dragged, icon, x, y)`. -/
structure Emission where
  target : Nat
  signal : Signal
  dragged : Option Nat
  icon : Option Nat
  x : Int
  y : Int
  deriving DecidableEq, Repr

/-- What the callbacks read of an actor met on a parent chain. -/
structure Actor where
  id : Nat
  /-- Value of `NBTK_IS_WIDGET (actor)`. -/
  is_widget : Bool
  /-- Value of `NBTK_WIDGET (actor)->priv->dnd_threshold`. -/
  dnd_threshold : Nat
  /-- Flag `dnd_disabled` of the child meta the actor has in its container. -/
  dnd_disabled : Bool
  deriving DecidableEq, Repr

inductive ClutterEventType where
  | CLUTTER_MOTION
  | CLUTTER_ENTER
  | CLUTTER_LEAVE
  | CLUTTER_BUTTON_PRESS
  | CLUTTER_BUTTON_RELEASE
  | CLUTTER_KEY_PRESS
  deriving DecidableEq, Repr

/-- The fields of `ClutterEvent` the callbacks read. `source` is the actor the
event originated on, with its parent chain. -/
structure ClutterEvent where
  type : ClutterEventType
  x : Int
  y : Int
  button : Nat
  click_count : Nat
  source : List Actor
  deriving DecidableEq, Repr

/-- The drag-and-drop fields of `struct _NbtkWidgetPrivate`. -/
structure NbtkWidgetPrivate where
  dnd_last_dest : Option Nat
  dnd_last_dest_data : Option Nat
  dnd_clone : Option Nat
  dnd_dragged : Option Nat
  dnd_icon : Option Nat
  dnd_threshold : Nat
  dnd_x : Int
  dnd_y : Int
  dnd_enter_cb_id : Nat
  dnd_motion : Bool
  dnd_grab : Bool
  deriving DecidableEq, Repr

/-- The four event callbacks of the drag-and-drop code. -/
inductive Callback where
  | press_cb
  | motion_cb
  | release_cb
  | enter_event_cb
  deriving DecidableEq, Repr

/-- A connected signal handler: `id = g_signal_connect (actor, ..., callback, data)`. -/
structure Handler where
  id : Nat
  actor : Nat
  callback : Callback
  data : Nat
  deriving DecidableEq, Repr

/-- Position, visibility and parenting of the proxy: the actor that
`priv->dnd_clone` points to or, when it is `NULL`, the one it pointed to last.
Clutter keeps the position as `gfloat`; the integers of the record are that
position exactly as long as the coordinates stay below `2 ^ 24` in magnitude. -/
structure ProxyActor where
  x : Int
  y : Int
  visible : Bool
  parented : Bool
  deriving DecidableEq, Repr

/-- State the callbacks act on: the private structure of the widget and the
parts of GLib and Clutter they change. -/
structure World where
  /-- the widget whose private structure `priv` is -/
  widget : Nat
  priv : NbtkWidgetPrivate
  /-- connected handlers, in connection order -/
  handlers : List Handler
  /-- the id the next `g_signal_connect` returns (ids are positive) -/
  next_handler_id : Nat
  /-- the actor holding the pointer grab -/
  pointer_grab : Option Nat
  /-- objects carrying a weak reference to `nbtk_widget_dnd_last_dest_weak_cb` -/
  weak_refs : List Nat
  /-- number of `g_warning` calls so far -/
  warnings : Nat
  proxy : ProxyActor
  /-- the actors that the drag-and-drop code has added to the stage and that are
  still children of it, in the order they were added -/
  stage : List Nat
  /-- number of calls of `clutter_clone_new` so far -/
  clones_made : Nat
  deriving DecidableEq, Repr

/-- Result of one callback. -/
structure Outcome where
  world : World
  /-- The `gboolean` the callback returns. -/
  handled : Bool
  /-- signals emitted, in order -/
  emitted : List Emission
  deriving DecidableEq, Repr

/-- What the callbacks take from their surroundings. -/
structure Env where
  /-- Result of `clutter_stage_get_actor_at_pos (stage, x, y)`, with the parent chain. -/
  actor_at_pos : Int → Int → List Actor
  /-- Actor returned by the call `clutter_clone_new (child)` made when the given
  number of clones has been created before: every call creates a new actor. -/
  clutter_clone_new : Nat → Nat → Nat

/-! ## GLib helpers -/

/-- Call `g_signal_connect (actor, ..., callback, data)`: returns the world with the
handler appended and the handler id. -/
def g_signal_connect (actor : Nat) (callback : Callback) (data : Nat) (w : World) :
    World × Nat :=
  ({ w with handlers := w.handlers ++ [⟨w.next_handler_id, actor, callback, data⟩],
            next_handler_id := w.next_handler_id + 1 }, w.next_handler_id)

/-- Call `g_signal_handler_disconnect (instance, id)`: the handler with that id
on that instance is disconnected; with a `NULL` instance the call returns at
its precondition check and disconnects nothing. -/
def g_signal_handler_disconnect (inst : Option Nat) (id : Nat) (w : World) : World :=
  match inst with
  | some a => { w with handlers := w.handlers.filter (fun h => !(h.actor == a && h.id == id)) }
  | none => w

/-- Call `g_signal_handlers_disconnect_by_func (actor, callback, data)`. -/
def g_signal_handlers_disconnect_by_func (actor : Nat) (callback : Callback) (data : Nat)
    (w : World) : World :=
  let other (h : Handler) : Bool :=
    !(h.actor == actor && h.callback == callback && h.data == data)
  { w with handlers := w.handlers.filter other }

/-- Call `g_object_weak_ref (obj, nbtk_widget_dnd_last_dest_weak_cb, data)`. -/
def g_object_weak_ref (obj : Nat) (w : World) : World :=
  { w with weak_refs := w.weak_refs ++ [obj] }

/-- Call `g_object_weak_unref (obj, nbtk_widget_dnd_last_dest_weak_cb, data)`. -/
def g_object_weak_unref (obj : Nat) (w : World) : World :=
  { w with weak_refs := w.weak_refs.erase obj }

/-! ## The callbacks of nbtk-widget.c -/

/-- Function `nbtk_widget_dnd_last_dest_weak_cb`: clears the last destination. -/
def nbtk_widget_dnd_last_dest_weak_cb (w : World) : World :=
  { w with priv := { w.priv with dnd_last_dest := none, dnd_last_dest_data := none } }

/-- Disposal of object `obj`: its weak references are dropped and each one
runs its callback. -/
def g_object_dispose (obj : Nat) (w : World) : World :=
  if obj ∈ w.weak_refs then
    nbtk_widget_dnd_last_dest_weak_cb { w with weak_refs := w.weak_refs.filter (fun o => o != obj) }
  else w

/-- The loop condition `!NBTK_IS_WIDGET (dest) || !NBTK_WIDGET (dest)->priv->dnd_threshold`. -/
def not_dnd_widget (a : Actor) : Bool := !a.is_widget || a.dnd_threshold == 0

/-- The loop `while (dest && (!NBTK_IS_WIDGET (dest) || !...->dnd_threshold))
dest = clutter_actor_get_parent (dest);`. -/
def walk_up : List Actor → List Actor
  | [] => []
  | a :: rest => if not_dnd_widget a then walk_up rest else a :: rest

/-- The test `dest && NBTK_IS_WIDGET (dest) && NBTK_WIDGET (dest)->priv->dnd_threshold`. -/
def is_dnd_widget : List Actor → Bool
  | [] => false
  | a :: _ => a.is_widget && a.dnd_threshold != 0

/-- Identity of the actor a pointer designates. -/
def actor_id : List Actor → Option Nat
  | [] => none
  | a :: _ => some a.id

/-- The block that emits `dnd-leave` to `priv->dnd_last_dest`, drops its weak
reference and clears it; used by the enter and release callbacks. -/
def leave_last_dest (x y : Int) (w : World) : World × List Emission :=
  match w.priv.dnd_last_dest with
  | some last =>
    let w1 := g_object_weak_unref last w
    ({ w1 with priv := { w1.priv with dnd_last_dest := none, dnd_last_dest_data := none } },
     [⟨last, Signal.DND_LEAVE, w.priv.dnd_dragged, w.priv.dnd_clone, x, y⟩])
  | none => (w, [])

/-- Function `nbtk_widget_dnd_enter_event_cb (actor, event, data)` with `data = widget`. -/
def nbtk_widget_dnd_enter_event_cb (widget : Nat) (event : ClutterEvent) (w : World) :
    Outcome :=
  let priv := w.priv
  let dest := walk_up event.source
  if is_dnd_widget dest then
    if actor_id dest != priv.dnd_last_dest then
      let leave : List Emission :=
        match priv.dnd_last_dest with
        | some last => [⟨last, Signal.DND_LEAVE, priv.dnd_dragged, priv.dnd_clone, event.x, event.y⟩]
        | none => []
      let enter : List Emission :=
        match actor_id dest with
        | some d => [⟨d, Signal.DND_ENTER, priv.dnd_dragged, priv.dnd_clone, event.x, event.y⟩]
        | none => []
      let w1 :=
        match priv.dnd_last_dest with
        | some last => g_object_weak_unref last w
        | none => w
      let w2 := { w1 with priv := { w1.priv with dnd_last_dest := actor_id dest,
                                                 dnd_last_dest_data := some widget } }
      let w3 :=
        match actor_id dest with
        | some d => g_object_weak_ref d w2
        | none => w2
      ⟨w3, true, leave ++ enter⟩
    else ⟨w, true, []⟩
  else
    let r := leave_last_dest event.x event.y w
    ⟨r.1, true, r.2⟩

/-- Function `nbtk_widget_child_dnd_press_cb (child, event, data)` with `data = widget`. -/
def nbtk_widget_child_dnd_press_cb (widget child : Nat) (event : ClutterEvent) (w : World) :
    Outcome :=
  let threshold := w.priv.dnd_threshold
  if threshold == 0 || event.button != 1 || event.click_count > 1 then
    ⟨w, false, []⟩
  else
    let w1 := { w with priv := { w.priv with dnd_x := event.x, dnd_y := event.y,
                                             dnd_motion := false, dnd_grab := true,
                                             dnd_dragged := some child },
                       pointer_grab := some child }
    let w2 := (g_signal_connect child Callback.motion_cb widget w1).1
    let c := g_signal_connect child Callback.enter_event_cb widget w2
    ⟨{ c.1 with priv := { c.1.priv with dnd_enter_cb_id := c.2 } }, true, []⟩

/-- The threshold test of the motion callback, `dx < threshold && dy < threshold`
with `gint dx, dy` and `guint threshold`: both operands are compared as `guint`. -/
def below_threshold (dx dy : Int) (threshold : Nat) : Bool :=
  decide (gint_to_guint dx < threshold) && decide (gint_to_guint dy < threshold)

/-- Function `nbtk_widget_child_dnd_motion_cb (child, event, data)` with `data = widget`. -/
def nbtk_widget_child_dnd_motion_cb (env : Env) (widget child : Nat) (event : ClutterEvent)
    (w : World) : Outcome :=
  let priv := w.priv
  let x := event.x
  let y := event.y
  let dx := wrap_gint (x - priv.dnd_x)
  let dy := wrap_gint (y - priv.dnd_y)
  let threshold := priv.dnd_threshold
  if below_threshold dx dy threshold then
    ⟨w, false, []⟩
  else
    let r : World × List Emission :=
      if !priv.dnd_motion then
        let w1 :=
          match priv.dnd_last_dest with
          | some last => g_object_weak_unref last { w with warnings := w.warnings + 1 }
          | none => w
        let w2 := g_object_weak_ref widget
          { w1 with priv := { w1.priv with dnd_last_dest := some widget,
                                           dnd_last_dest_data := some widget } }
        let clone :=
          match priv.dnd_icon with
          | some icon => icon
          | none => env.clutter_clone_new child w.clones_made
        let made := if priv.dnd_icon.isSome then w.clones_made else w.clones_made + 1
        let w3 := (g_signal_connect child Callback.release_cb widget w2).1
        let w4 := { w3 with priv := { w3.priv with dnd_clone := some clone, dnd_motion := true },
                            proxy := ⟨x, y, true, true⟩,
                            stage := if clone ∈ w3.stage then w3.stage else w3.stage ++ [clone],
                            clones_made := made }
        (w4, [⟨widget, Signal.DND_BEGIN, some child, some clone, x, y⟩])
      else
        ({ w with proxy :=
            if priv.dnd_clone.isSome then { w.proxy with x := w.proxy.x + dx, y := w.proxy.y + dy }
            else w.proxy }, [])
    let w5 := r.1
    ⟨{ w5 with priv := { w5.priv with dnd_x := x, dnd_y := y } }, true,
     r.2 ++ [⟨widget, Signal.DND_MOTION, some child, w5.priv.dnd_clone, x, y⟩]⟩

/-- The destination walk of the release callback, from the picked actor. -/
def release_walk : List Actor → List Actor
  | [] => []
  | a :: rest => if not_dnd_widget a then walk_up rest else a :: rest

/-- Function `nbtk_widget_child_dnd_release_cb (child, event, data)` with `data = widget`. -/
def nbtk_widget_child_dnd_release_cb (env : Env) (widget child : Nat) (event : ClutterEvent)
    (w : World) : Outcome :=
  if event.type != ClutterEventType.CLUTTER_BUTTON_RELEASE || event.button != 1 then
    ⟨w, false, []⟩
  else
    let priv := w.priv
    let r : World × Bool × List Emission :=
      if priv.dnd_motion then
        let x := event.x
        let y := event.y
        let clone := priv.dnd_clone
        let w1 := { w with proxy :=
          if priv.dnd_clone.isSome then { w.proxy with visible := false } else w.proxy }
        let dest := release_walk (env.actor_at_pos x y)
        let dropped : List Emission :=
          match actor_id dest with
          | some d => [⟨d, Signal.DND_DROPPED, some child, clone, x, y⟩]
          | none => []
        let w2 :=
          if priv.dnd_enter_cb_id != 0 then
            let w' := g_signal_handler_disconnect priv.dnd_dragged priv.dnd_enter_cb_id w1
            { w' with priv := { w'.priv with dnd_enter_cb_id := 0 } }
          else w1
        let l := leave_last_dest event.x event.y w2
        let w3 := l.1
        let end_ : List Emission := [⟨widget, Signal.DND_END, some child, clone, x, y⟩]
        let w4 :=
          if w3.priv.dnd_clone.isSome then
            { w3 with priv := { w3.priv with dnd_clone := none },
                      proxy := { w3.proxy with parented := false },
                      stage := w3.stage.filter (fun a => some a != w3.priv.dnd_clone) }
          else w3
        (w4, true, dropped ++ l.2 ++ end_)
      else (w, false, [])
    let w5 := r.1
    let w6 := if w5.priv.dnd_grab then { w5 with pointer_grab := none } else w5
    let w7 := { w6 with priv := { w6.priv with dnd_motion := false, dnd_grab := false } }
    let w8 := g_signal_handlers_disconnect_by_func child Callback.motion_cb widget w7
    let w9 := { w8 with priv := { w8.priv with dnd_dragged := none } }
    ⟨w9, r.2.1, r.2.2⟩

/-- Function `nbtk_widget_setup_child_dnd (actor, child)`; `meta` is the
`dnd_disabled` flag of the child meta, `none` when there is no child meta. -/
def nbtk_widget_setup_child_dnd (widget child : Nat) (meta : Option Bool) (w : World) : World :=
  match meta with
  | none => w
  | some true => w
  | some false => (g_signal_connect child Callback.press_cb widget w).1

/-- Function `nbtk_widget_dispose (gobject)` on the drag-and-drop fields: the
custom icon is released, the proxy is taken out of its parent and forgotten,
and the dragged actor is released. The function emits no signal. Its last
statement chains up to the parent class, which ends in the dispose of GObject:
the weak references on the widget are dropped and their callbacks run. -/
def nbtk_widget_dispose (widget : Nat) (w : World) : World × List Emission :=
  let w1 := { w with priv := { w.priv with dnd_icon := none } }
  let w2 :=
    if w1.priv.dnd_clone.isSome then
      { w1 with priv := { w1.priv with dnd_clone := none },
                proxy := { w1.proxy with parented := false },
                stage := w1.stage.filter (fun a => some a != w1.priv.dnd_clone) }
    else w1
  let w3 := { w2 with priv := { w2.priv with dnd_dragged := none } }
  (g_object_dispose widget w3, [])

/-! ## Event delivery -/

/-- The callback connected to the signal an event of the given type is
delivered through (`button-press-event`, `motion-event`,
`button-release-event`, `enter-event`). -/
def callback_of_event : ClutterEventType → Option Callback
  | ClutterEventType.CLUTTER_BUTTON_PRESS => some Callback.press_cb
  | ClutterEventType.CLUTTER_MOTION => some Callback.motion_cb
  | ClutterEventType.CLUTTER_BUTTON_RELEASE => some Callback.release_cb
  | ClutterEventType.CLUTTER_ENTER => some Callback.enter_event_cb
  | _ => none

/-- Invocation of one connected handler. -/
def run_handler (env : Env) (h : Handler) (event : ClutterEvent) (w : World) : Outcome :=
  match h.callback with
  | Callback.press_cb => nbtk_widget_child_dnd_press_cb h.data h.actor event w
  | Callback.motion_cb => nbtk_widget_child_dnd_motion_cb env h.data h.actor event w
  | Callback.release_cb => nbtk_widget_child_dnd_release_cb env h.data h.actor event w
  | Callback.enter_event_cb => nbtk_widget_dnd_enter_event_cb h.data event w

/-- Emission of an event signal: the handlers connected when the emission
starts run in connection order, one that has been disconnected meanwhile is
skipped, and the emission stops at the first handler that returns `TRUE`. -/
def emit_handlers (env : Env) (event : ClutterEvent) :
    List Handler → World → List Emission → Outcome
  | [], w, acc => ⟨w, false, acc⟩
  | h :: hs, w, acc =>
    if h ∈ w.handlers then
      let o := run_handler env h event w
      if o.handled then ⟨o.world, true, acc ++ o.emitted⟩
      else emit_handlers env event hs o.world (acc ++ o.emitted)
    else emit_handlers env event hs w acc

/-- Delivery of an event to an actor, `clutter_actor_event (actor, event, FALSE)`. -/
def clutter_actor_event (env : Env) (actor : Nat) (event : ClutterEvent) (w : World) :
    Outcome :=
  let connected (h : Handler) : Bool :=
    h.actor == actor && callback_of_event event.type == some h.callback
  emit_handlers env event (w.handlers.filter connected) w []

/-- What happens to the widget from outside: an event is delivered to an
actor, or an object is disposed; the object may be the widget itself. A
disposed object is not finalised: the private structure of a disposed widget
stays in place, as it does while the reference taken by the press callback is
held. -/
inductive Input where
  | event (actor : Nat) (e : ClutterEvent)
  | dispose (obj : Nat)
  deriving DecidableEq, Repr

/-- One input: new world and the signals emitted. The disposal of the widget
runs `nbtk_widget_dispose`; the disposal of another object runs the callbacks
of the weak references on it. -/
def step (env : Env) (i : Input) (w : World) : World × List Emission :=
  match i with
  | Input.event actor e => ((clutter_actor_event env actor e w).world,
                            (clutter_actor_event env actor e w).emitted)
  | Input.dispose obj =>
    if obj = w.widget then nbtk_widget_dispose obj w else (g_object_dispose obj w, [])

/-- A sequence of inputs: final world and, for each input, the signals it emitted. -/
def run (env : Env) : List Input → World → World × List (List Emission)
  | [], w => (w, [])
  | i :: rest, w =>
    let s := step env i w
    let r := run env rest s.1
    (r.1, s.2 :: r.2)

/-- Private structure of a new widget with the given `dnd-threshold` and
`dnd-icon` properties; the other fields are zero. -/
def priv_new (threshold : Nat) (icon : Option Nat) : NbtkWidgetPrivate :=
  { dnd_last_dest := none, dnd_last_dest_data := none, dnd_clone := none,
    dnd_dragged := none, dnd_icon := icon, dnd_threshold := threshold,
    dnd_x := 0, dnd_y := 0, dnd_enter_cb_id := 0, dnd_motion := false, dnd_grab := false }

/-- World of a new widget: no handler, no grab, no weak reference, no clone. -/
def world_new (widget threshold : Nat) (icon : Option Nat) : World :=
  { widget := widget, priv := priv_new threshold icon, handlers := [], next_handler_id := 1,
    pointer_grab := none, weak_refs := [], warnings := 0,
    proxy := ⟨0, 0, false, false⟩, stage := [], clones_made := 0 }

/-! ## Events and scenes used in the examples -/

def button_press (x y : Int) (button click_count : Nat) : ClutterEvent :=
  ⟨ClutterEventType.CLUTTER_BUTTON_PRESS, x, y, button, click_count, []⟩

def button_release (x y : Int) (button : Nat) : ClutterEvent :=
  ⟨ClutterEventType.CLUTTER_BUTTON_RELEASE, x, y, button, 1, []⟩

def motion (x y : Int) : ClutterEvent :=
  ⟨ClutterEventType.CLUTTER_MOTION, x, y, 0, 0, []⟩

def enter (x y : Int) (source : List Actor) : ClutterEvent :=
  ⟨ClutterEventType.CLUTTER_ENTER, x, y, 0, 0, source⟩

/-- Example scene: widget 1 (threshold 10) has the draggable child 2, the
clones of the child are the actors 3, 13, 23 and so on, and nothing is under
the pointer. -/
def empty_scene : Env := ⟨fun _ _ => [], fun _ made => 3 + 10 * made⟩

/-- Widget 1 of the example scene with its child 2 set up for drag and drop. -/
def example_world : World := nbtk_widget_setup_child_dnd 1 2 (some false) (world_new 1 10 none)

/-- The example world after a primary press on the child at (0, 0). -/
def example_armed : World :=
  (clutter_actor_event empty_scene 2 (button_press 0 0 1 1) example_world).world

/-- A drop-capable widget, actor 7 with threshold 5. -/
def actor_b : Actor := ⟨7, true, 5, false⟩

/-- Example scene in which actor 7 is under the pointer everywhere. -/
def drop_scene : Env := ⟨fun _ _ => [actor_b], fun _ made => 3 + 10 * made⟩

/-- The example world while the child is dragged over actor 7: press at (0, 0),
motion to (12, 0), then the pointer enters actor 7. -/
def example_over_b : World :=
  (run drop_scene
    [Input.event 2 (button_press 0 0 1 1), Input.event 2 (motion 12 0),
     Input.event 2 (enter 12 0 [actor_b])] example_world).1

/-- The world in which no destination is set: last destination and its data
cleared, no weak reference registered. -/
def no_destination (w : World) : World :=
  { w with priv := { w.priv with dnd_last_dest := none, dnd_last_dest_data := none },
           weak_refs := [] }

/-- State invariant of the drag-and-drop code of a widget with one child set
up for dragging: the only weak reference registered is the one on the last
destination, and every connected handler is connected on the child with the
widget as its data. -/
def world_ok (widget child : Nat) (w : World) : Prop :=
  w.weak_refs = w.priv.dnd_last_dest.toList
  ∧ ∀ h ∈ w.handlers, h.data = widget ∧ h.actor = child

/-- The drag has begun: `dnd_motion` is set, or the session is over and no
motion handler is connected any more. -/
def begun (w : World) : Prop :=
  w.priv.dnd_motion = true ∨ ∀ h ∈ w.handlers, h.callback ≠ Callback.motion_cb

/-- No dnd-leave is emitted to actor `n` in the trace. -/
def no_leave_to (n : Nat) (trace : List Emission) : Prop :=
  ∀ e ∈ trace, ¬ (e.signal = Signal.DND_LEAVE ∧ e.target = n)

/-- The emission is a dnd-enter or a dnd-leave to actor `n`. -/
def enter_or_leave_to (n : Nat) (e : Emission) : Bool :=
  e.target == n && (e.signal == Signal.DND_ENTER || e.signal == Signal.DND_LEAVE)

/-- The last dnd-enter or dnd-leave signal actor `n` has received after a
trace, `last` being the one it had received before. -/
def last_after (n : Nat) : Option Signal → List Emission → Option Signal
  | last, [] => last
  | last, e :: rest => last_after n (if enter_or_leave_to n e then some e.signal else last) rest

/-- In the trace actor `n` never receives dnd-enter twice in a row nor dnd-leave
twice in a row, `last` being the last of the two it received before the trace. -/
def alternates (n : Nat) : Option Signal → List Emission → Bool
  | _, [] => true
  | last, e :: rest =>
    if enter_or_leave_to n e then last != some e.signal && alternates n (some e.signal) rest
    else alternates n last rest

/-- The last destination agrees with the last dnd-enter or dnd-leave that actor
`n` received. -/
def dest_tracks (n : Nat) (last : Option Signal) (w : World) : Prop :=
  (last = some Signal.DND_ENTER → w.priv.dnd_last_dest = some n)
  ∧ (last = some Signal.DND_LEAVE → w.priv.dnd_last_dest ≠ some n)

/-- The input is an event whose source chain contains actor `n`. -/
def mentions (n : Nat) : Input → Bool
  | Input.event _ e => e.source.any (fun a => a.id == n)
  | Input.dispose _ => false

/-- The input is a button press event. -/
def is_press : Input → Bool
  | Input.event _ e => e.type == ClutterEventType.CLUTTER_BUTTON_PRESS
  | Input.dispose _ => false

/-- The input is the disposal of an object. -/
def is_dispose : Input → Bool
  | Input.event _ _ => false
  | Input.dispose _ => true

/-- A new widget with the given threshold and icon whose child has been set up
for drag and drop. -/
def world_start (widget child threshold : Nat) (icon : Option Nat) : World :=
  nbtk_widget_setup_child_dnd widget child (some false) (world_new widget threshold icon)

/-- The motion callback run on a sequence of motion events, one after the
other: final world and the signals emitted, in order. -/
def motion_sequence (env : Env) (widget child : Nat) : List ClutterEvent → World → World × List Emission
  | [], w => (w, [])
  | e :: rest, w =>
    let o := nbtk_widget_child_dnd_motion_cb env widget child e w
    let r := motion_sequence env widget child rest o.world
    (r.1, o.emitted ++ r.2)

/-- The nearest ancestor-or-self of a picked actor that is a widget with a
positive `dnd_threshold`, in the words of the specification. -/
def nearest_dnd_widget (chain : List Actor) : Option Actor :=
  chain.find? (fun a => a.is_widget && decide (0 < a.dnd_threshold))

/-- The emissions of a signal in a trace, in order. -/
def emissions_of (s : Signal) (trace : List Emission) : List Emission :=
  trace.filter (fun e => e.signal == s)

/-- Number of emissions of a signal in a trace. -/
def count_signal (s : Signal) (trace : List Emission) : Nat :=
  (trace.filter (fun e => e.signal == s)).length

/-! ## The default dropped handler -/

/-- The class handler `klass->dnd_dropped` of a widget: `NULL`, the default
`nbtk_widget_dnd_dropped`, or a handler installed by a subclass. -/
inductive DropHandler where
  | no_handler
  | widget_default
  | subclass (k : Nat)
  deriving DecidableEq, Repr

/-- One call `klass->dnd_dropped (NBTK_WIDGET (target), dragged, icon, x, y)`. -/
structure HandlerCall where
  target : Nat
  handler : DropHandler
  dragged : Option Nat
  icon : Option Nat
  x : Int
  y : Int
  deriving DecidableEq, Repr

/-- The body of `nbtk_widget_dnd_dropped` from the assignment
`parent = clutter_actor_get_parent (actor)` on, `parent` being given with its
chain: the loop skips the actors that are not widgets, then the class handler
of the widget found is called. When that handler is the default one it runs
this body again from the parent of the widget. `klass` gives the class handler
of each widget. The result is the list of the calls made, in order. -/
def dnd_dropped_from (klass : Nat → DropHandler) (dragged icon : Option Nat) (x y : Int) :
    List Actor → List HandlerCall
  | [] => []
  | parent :: rest =>
    if !parent.is_widget then dnd_dropped_from klass dragged icon x y rest
    else
      match klass parent.id with
      | DropHandler.no_handler => []
      | DropHandler.subclass k => [⟨parent.id, DropHandler.subclass k, dragged, icon, x, y⟩]
      | DropHandler.widget_default =>
        ⟨parent.id, DropHandler.widget_default, dragged, icon, x, y⟩
          :: dnd_dropped_from klass dragged icon x y rest

/-- Function `nbtk_widget_dnd_dropped (actor, dragged, icon, x, y)`, `actor`
being given with its parent chain. -/
def nbtk_widget_dnd_dropped (klass : Nat → DropHandler) (actor : List Actor)
    (dragged icon : Option Nat) (x y : Int) : List HandlerCall :=
  dnd_dropped_from klass dragged icon x y actor.tail

/-- The nearest strict ancestor of an actor that is an `NbtkWidget`, the type
that declares the `dnd_dropped` class handler. -/
def nearest_widget_ancestor (actor : List Actor) : Option Actor :=
  actor.tail.find? (fun a => a.is_widget)

/-! ## More invariants and examples -/

/-- Invariant of a session on the child: a cleared last destination has no
data, while a motion handler is connected the pointer is grabbed by the child,
and while `dnd_motion` is set the pointer is grabbed and the proxy exists. -/
def session_ok (child : Nat) (w : World) : Prop :=
  (w.priv.dnd_last_dest = none → w.priv.dnd_last_dest_data = none)
  ∧ ((∃ h ∈ w.handlers, h.callback = Callback.motion_cb) →
      w.priv.dnd_grab = true ∧ w.pointer_grab = some child)
  ∧ (w.priv.dnd_motion = true →
      w.priv.dnd_grab = true ∧ w.pointer_grab = some child ∧ w.priv.dnd_clone.isSome = true)

/-- While `dnd_motion` is set, a release handler is connected. -/
def release_connected (w : World) : Prop :=
  w.priv.dnd_motion = true → ∃ h ∈ w.handlers, h.callback = Callback.release_cb

/-- The chain with the `dnd_disabled` flag of every actor replaced. -/
def with_dnd_disabled (flag : Actor → Bool) (chain : List Actor) : List Actor :=
  chain.map (fun a => { a with dnd_disabled := flag a })

/-- The example world while the child is dragged: press at (0, 0), then motion
to (12, 0). -/
def example_dragging : World :=
  (run empty_scene [Input.event 2 (button_press 0 0 1 1), Input.event 2 (motion 12 0)]
    example_world).1

/-- A widget with threshold 5 whose child meta has `dnd_disabled` set, actor 8. -/
def actor_disabled : Actor := ⟨8, true, 5, true⟩

/-- Example scene in which actor 8 is under the pointer everywhere. -/
def disabled_scene : Env := ⟨fun _ _ => [actor_disabled], fun _ made => 3 + 10 * made⟩

/-- A drag that a second press interrupts: press at (0, 0), motion to (12, 0),
press at (50, 50), motion to (70, 50). -/
def second_press_inputs : List Input :=
  [Input.event 2 (button_press 0 0 1 1), Input.event 2 (motion 12 0),
   Input.event 2 (button_press 50 50 1 1), Input.event 2 (motion 70 50)]

/-- The same with one pointer button: press at (0, 0), the release of the
button, motion to (12, 0), press at (50, 50), motion to (70, 50). -/
def press_release_press_inputs : List Input :=
  [Input.event 2 (button_press 0 0 1 1), Input.event 2 (button_release 0 0 1),
   Input.event 2 (motion 12 0), Input.event 2 (button_press 50 50 1 1),
   Input.event 2 (motion 70 50)]

/-- A click followed by a drag: press at (0, 0), release, press at (0, 0),
motion to (12, 0). -/
def click_then_drag_inputs : List Input :=
  [Input.event 2 (button_press 0 0 1 1), Input.event 2 (button_release 0 0 1),
   Input.event 2 (button_press 0 0 1 1), Input.event 2 (motion 12 0)]

/-- A widget whose drag and drop threshold is 0, actor 9. -/
def actor_plain_widget : Actor := ⟨9, true, 0, false⟩

/-- An actor that is not a widget, actor 6. -/
def actor_texture : Actor := ⟨6, false, 0, false⟩

/-! ## Entries and leaves of destinations -/

/-- The actor that has been entered and not left yet, after one more emission:
dnd-enter enters its target, dnd-begin makes the widget it is emitted to the
destination, dnd-leave and dnd-end leave none. -/
def entry_step (cur : Option Nat) (e : Emission) : Option Nat :=
  match e.signal with
  | Signal.DND_ENTER => some e.target
  | Signal.DND_BEGIN => some e.target
  | Signal.DND_LEAVE => none
  | Signal.DND_END => none
  | Signal.DND_MOTION => cur
  | Signal.DND_DROPPED => cur

/-- The actor that has been entered and not left yet, after a trace. -/
def entered_after : Option Nat → List Emission → Option Nat
  | cur, [] => cur
  | cur, e :: rest => entered_after (entry_step cur e) rest

/-- Every dnd-leave of the trace goes to the actor that has been entered and not
left yet when it is emitted, `cur` being that actor before the trace. -/
def leaves_follow_entry : Option Nat → List Emission → Bool
  | _, [] => true
  | cur, e :: rest =>
    (e.signal != Signal.DND_LEAVE || cur == some e.target)
      && leaves_follow_entry (entry_step cur e) rest

/-- The last destination, when set, is the actor that has been entered and not
left yet. -/
def dest_entered (cur : Option Nat) (w : World) : Prop :=
  ∀ l, w.priv.dnd_last_dest = some l → cur = some l

/-- The emissions of dnd-enter and dnd-leave in a trace, in order. -/
def destination_notifications (trace : List Emission) : List Emission :=
  trace.filter (fun e => e.signal == Signal.DND_ENTER || e.signal == Signal.DND_LEAVE)

/-! ## Position of the proxy -/

/-- The coordinates of the event are below `2 ^ 23` in magnitude: the
difference of two such coordinates does not wrap as a `gint`, and the `gfloat`
position of an actor holds such coordinates and their differences exactly. -/
def small_coords (e : ClutterEvent) : Bool :=
  decide (-8388608 ≤ e.x) && decide (e.x < 8388608)
    && decide (-8388608 ≤ e.y) && decide (e.y < 8388608)

/-- The input is an event with small coordinates, or a disposal. -/
def small_input : Input → Bool
  | Input.event _ e => small_coords e
  | Input.dispose _ => true

/-- The recorded point has small coordinates and, while `dnd_motion` is set
and `dnd_clone` points to a proxy, the proxy is at the recorded point. -/
def proxy_tracks (w : World) : Prop :=
  (-8388608 ≤ w.priv.dnd_x ∧ w.priv.dnd_x < 8388608
    ∧ -8388608 ≤ w.priv.dnd_y ∧ w.priv.dnd_y < 8388608)
  ∧ (w.priv.dnd_motion = true → w.priv.dnd_clone.isSome = true →
      w.proxy.x = w.priv.dnd_x ∧ w.proxy.y = w.priv.dnd_y)

/-- The input is not the disposal of the given widget. -/
def keeps_widget (widget : Nat) : Input → Bool
  | Input.event _ _ => true
  | Input.dispose obj => obj != widget

/-- A custom drag icon, actor 4. -/
def example_icon : Nat := 4

end Nbtk

namespace Mx

/-! ## The progress accessors of mx-slider.c -/

/-- Values of the C types `gdouble` and `gfloat`: not-a-number, the two
infinities and the finite values, which are rationals. The arithmetic below
rounds every result to the format of the C type the operation is done in;
signed zeros are not told apart. -/
inductive GDouble where
  | nan
  | neg_inf
  | fin (q : ℚ)
  | pos_inf
  deriving DecidableEq

/-- The C comparison `a < b` on floating point values: false as soon as one
side is not-a-number. -/
def gdouble_lt : GDouble → GDouble → Bool
  | GDouble.fin a, GDouble.fin b => decide (a < b)
  | GDouble.neg_inf, GDouble.fin _ => true
  | GDouble.neg_inf, GDouble.pos_inf => true
  | GDouble.fin _, GDouble.pos_inf => true
  | _, _ => false

/-- The C comparison `a == b` on floating point values: false as soon as one
side is not-a-number. -/
def gdouble_eq : GDouble → GDouble → Bool
  | GDouble.nan, _ => false
  | _, GDouble.nan => false
  | a, b => decide (a = b)

/-- What `mx_slider_set_progress` asks of its surroundings. -/
inductive SliderEffect where
  /-- The call `g_warning ("progress must be a number between 0.0 and 1.0")`. -/
  | g_warning
  /-- The call `mx_slider_allocate_fill_handle (bar, NULL, 0)`, the re-layout. -/
  | allocate_fill_handle
  /-- The call `clutter_actor_queue_redraw (CLUTTER_ACTOR (bar))`. -/
  | queue_redraw
  /-- The call `g_object_notify (G_OBJECT (bar), "progress")`. -/
  | notify_progress
  deriving DecidableEq

/-- The scalar fields of `struct _MxSliderPrivate`; the four child actors are
fixed at construction and left out. -/
structure MxSliderPrivate where
  capture_handler : Nat
  x_origin : GDouble
  handle_middle_start : GDouble
  handle_middle_end : GDouble
  trough_box_y1 : GDouble
  trough_box_y2 : GDouble
  trough_height : Int
  handle_width : Nat
  handle_height : Nat
  progress : GDouble
  deriving DecidableEq

/-- Function `mx_slider_set_progress (bar, progress)`: new private structure
and the calls made, in order. -/
def mx_slider_set_progress (priv : MxSliderPrivate) (progress : GDouble) :
    MxSliderPrivate × List SliderEffect :=
  if gdouble_eq priv.progress progress then (priv, [])
  else if gdouble_lt progress (GDouble.fin 0) || gdouble_lt (GDouble.fin 1) progress then
    (priv, [SliderEffect.g_warning])
  else
    ({ priv with progress := progress },
     [SliderEffect.allocate_fill_handle, SliderEffect.queue_redraw, SliderEffect.notify_progress])

/-- Function `mx_slider_get_progress (bar)`. -/
def mx_slider_get_progress (priv : MxSliderPrivate) : GDouble := priv.progress

/-- Private structure of a new slider before any style is applied: every field
is zero. -/
def slider_new : MxSliderPrivate :=
  { capture_handler := 0, x_origin := GDouble.fin 0, handle_middle_start := GDouble.fin 0,
    handle_middle_end := GDouble.fin 0, trough_box_y1 := GDouble.fin 0,
    trough_box_y2 := GDouble.fin 0, trough_height := 0, handle_width := 0, handle_height := 0,
    progress := GDouble.fin 0 }

/-! ## Floating point arithmetic -/

/-- Rounding of a rational to the nearest integer, a tie going to the even one. -/
def round_half_even (q : ℚ) : ℤ :=
  if q - ⌊q⌋ < 1 / 2 then ⌊q⌋
  else if 1 / 2 < q - ⌊q⌋ then ⌊q⌋ + 1
  else if ⌊q⌋ % 2 = 0 then ⌊q⌋ else ⌊q⌋ + 1

/-- Number of binary digits of `n`, found in at most `fuel` halvings. -/
def bit_length_aux : ℕ → ℕ → ℕ
  | 0, _ => 0
  | fuel + 1, n => if n = 0 then 0 else bit_length_aux fuel (n / 2) + 1

/-- Number of binary digits of a natural number, 0 for 0. -/
def bit_length (n : ℕ) : ℕ := bit_length_aux n n

/-- Binary exponent of a rational other than zero, the integer `e` with
`2 ^ e ≤ |q| < 2 ^ (e + 1)`: it is the difference of the bit lengths of the
numerator and the denominator, or one less. -/
def fp_exponent (q : ℚ) : ℤ :=
  let e : ℤ := (bit_length q.num.natAbs : ℤ) - (bit_length q.den : ℤ)
  if (2 : ℚ) ^ e ≤ |q| then e else e - 1

/-- Rounding of a rational to the binary floating point format with `prec`
bits of precision, least exponent `emin` and greatest exponent `emax`, to the
nearest value with ties to even: the result is a multiple of the unit in the
last place at the exponent of the argument (at `emin`, the exponent of the
subnormal values, when the argument is below the normal range), and an
infinity when it reaches `2 ^ (emax + 1)`. -/
def fp_round (prec : ℕ) (emin emax : ℤ) (q : ℚ) : GDouble :=
  if q = 0 then GDouble.fin 0
  else
    let quantum : ℚ := 2 ^ (max (fp_exponent q) emin - ((prec : ℤ) - 1))
    let r : ℚ := round_half_even (q / quantum) * quantum
    if (2 : ℚ) ^ (emax + 1) ≤ |r| then (if 0 < q then GDouble.pos_inf else GDouble.neg_inf)
    else GDouble.fin r

/-- Rounding to `gfloat`, the IEEE 754 binary32 format. -/
def gfloat_round (q : ℚ) : GDouble := fp_round 24 (-126) 127 q

/-- Rounding to `gdouble`, the IEEE 754 binary64 format. -/
def gdouble_round (q : ℚ) : GDouble := fp_round 53 (-1022) 1023 q

/-- Result of an operation done in `gfloat`, and conversion of a `gdouble` to
`gfloat`: the finite values are rounded. -/
def to_gfloat : GDouble → GDouble
  | GDouble.fin q => gfloat_round q
  | a => a

/-- Result of an operation done in `gdouble`: the finite values are rounded. -/
def to_gdouble : GDouble → GDouble
  | GDouble.fin q => gdouble_round q
  | a => a

/-- The negation `-a`, which is exact. -/
def exact_neg : GDouble → GDouble
  | GDouble.nan => GDouble.nan
  | GDouble.neg_inf => GDouble.pos_inf
  | GDouble.fin q => GDouble.fin (-q)
  | GDouble.pos_inf => GDouble.neg_inf

/-- The sum `a + b` before it is rounded: exact on finite values, IEEE on the
others. -/
def exact_add : GDouble → GDouble → GDouble
  | GDouble.nan, _ => GDouble.nan
  | _, GDouble.nan => GDouble.nan
  | GDouble.fin a, GDouble.fin b => GDouble.fin (a + b)
  | GDouble.pos_inf, GDouble.neg_inf => GDouble.nan
  | GDouble.neg_inf, GDouble.pos_inf => GDouble.nan
  | GDouble.pos_inf, _ => GDouble.pos_inf
  | _, GDouble.pos_inf => GDouble.pos_inf
  | GDouble.neg_inf, _ => GDouble.neg_inf
  | _, GDouble.neg_inf => GDouble.neg_inf

/-- The difference `a - b` before it is rounded. -/
def exact_sub (a b : GDouble) : GDouble := exact_add a (exact_neg b)

/-- Product of an infinity of the given sign (`true` for positive) with a finite
value. -/
def gdouble_inf_times (positive : Bool) (q : ℚ) : GDouble :=
  if q = 0 then GDouble.nan
  else if decide (0 < q) = positive then GDouble.pos_inf else GDouble.neg_inf

/-- The product `a * b` before it is rounded: exact on finite values, IEEE on
the others. -/
def exact_mul : GDouble → GDouble → GDouble
  | GDouble.nan, _ => GDouble.nan
  | _, GDouble.nan => GDouble.nan
  | GDouble.fin a, GDouble.fin b => GDouble.fin (a * b)
  | GDouble.pos_inf, GDouble.fin b => gdouble_inf_times true b
  | GDouble.neg_inf, GDouble.fin b => gdouble_inf_times false b
  | GDouble.fin a, GDouble.pos_inf => gdouble_inf_times true a
  | GDouble.fin a, GDouble.neg_inf => gdouble_inf_times false a
  | GDouble.pos_inf, GDouble.pos_inf => GDouble.pos_inf
  | GDouble.neg_inf, GDouble.neg_inf => GDouble.pos_inf
  | GDouble.pos_inf, GDouble.neg_inf => GDouble.neg_inf
  | GDouble.neg_inf, GDouble.pos_inf => GDouble.neg_inf

/-- The quotient `a / b` before it is rounded: exact on finite values with a
non-zero divisor; zero by zero is not-a-number and a non-zero value by zero is
an infinity (the zero divisor counts as positive). -/
def exact_div : GDouble → GDouble → GDouble
  | GDouble.nan, _ => GDouble.nan
  | _, GDouble.nan => GDouble.nan
  | GDouble.fin a, GDouble.fin b =>
    if b = 0 then
      if a = 0 then GDouble.nan else if 0 < a then GDouble.pos_inf else GDouble.neg_inf
    else GDouble.fin (a / b)
  | GDouble.fin _, GDouble.pos_inf => GDouble.fin 0
  | GDouble.fin _, GDouble.neg_inf => GDouble.fin 0
  | GDouble.pos_inf, GDouble.fin b => if 0 ≤ b then GDouble.pos_inf else GDouble.neg_inf
  | GDouble.neg_inf, GDouble.fin b => if 0 ≤ b then GDouble.neg_inf else GDouble.pos_inf
  | _, _ => GDouble.nan

/-- The C sum `a + b` of two `gfloat`. -/
def gfloat_add (a b : GDouble) : GDouble := to_gfloat (exact_add a b)

/-- The C difference `a - b` of two `gfloat`. -/
def gfloat_sub (a b : GDouble) : GDouble := to_gfloat (exact_sub a b)

/-- The C quotient `a / b` of two `gfloat`. -/
def gfloat_div (a b : GDouble) : GDouble := to_gfloat (exact_div a b)

/-- The C sum `a + b` of two `gdouble`. -/
def gdouble_add (a b : GDouble) : GDouble := to_gdouble (exact_add a b)

/-- The C product `a * b` of two `gdouble`. -/
def gdouble_mul (a b : GDouble) : GDouble := to_gdouble (exact_mul a b)

/-- The macro `CLAMP (x, low, high)`:
`((x) > (high)) ? (high) : (((x) < (low)) ? (low) : (x))`. -/
def CLAMP (x low high : GDouble) : GDouble :=
  if gdouble_lt high x then high else if gdouble_lt x low then low else x

/-- Conversion of a `guint` to `gfloat`. -/
def gfloat_of_nat (n : Nat) : GDouble := gfloat_round n

/-- Conversion of a `gint` to `gfloat`. -/
def gfloat_of_int (n : Int) : GDouble := gfloat_round n

/-- Conversion of a `guint` to `gdouble`. -/
def gdouble_of_nat (n : Nat) : GDouble := gdouble_round n

/-- The cast `(int) x` of a `gfloat` followed by the conversion back to
`gfloat`: truncation toward zero on finite values (other values are left as
they are, the C cast being undefined on them). -/
def gfloat_to_int : GDouble → GDouble
  | GDouble.fin q => gfloat_of_int (if 0 ≤ q then ⌊q⌋ else -⌊-q⌋)
  | a => a

/-! ## Pointer driven updates of the slider -/

/-- Function `drag_handle (bar, x, y)`. `ux` is what
`clutter_actor_transform_stage_point (bar, x, y, &ux, NULL)` gives, `none` when
it fails, and `handle_actor_width` is `clutter_actor_get_width (priv->handle)`.
The locals `ux`, `pos`, `handle_width_2`, `fill_size` and `offset` are `gfloat`,
so every operation is done in `gfloat`, the quotient too; `progress` is the
quotient converted to `gdouble`, which changes no value. -/
def drag_handle (priv : MxSliderPrivate) (ux : Option GDouble) (handle_actor_width : GDouble) :
    MxSliderPrivate × List SliderEffect :=
  match ux with
  | none => (priv, [])
  | some ux =>
    let fill_size := gfloat_sub priv.handle_middle_end priv.handle_middle_start
    let handle_width_2 := gfloat_div handle_actor_width (GDouble.fin 2)
    let offset := gfloat_sub handle_width_2 priv.x_origin
    let pos := gfloat_add (gfloat_sub ux priv.handle_middle_start) offset
    let pos := CLAMP pos (GDouble.fin 0) fill_size
    let progress := gfloat_div pos fill_size
    mx_slider_set_progress priv progress

/-- Function `move_handle (bar, x, y)`. `ux` is the result of the coordinate
transform, `none` when it fails, and `trough_x` is
`clutter_actor_get_x (priv->trough)`. The locals `ux`, `pos` and `fill_size`
are `gfloat`, so every operation is done in `gfloat`. -/
def move_handle (priv : MxSliderPrivate) (ux : Option GDouble) (trough_x : GDouble) :
    MxSliderPrivate × List SliderEffect :=
  match ux with
  | none => (priv, [])
  | some ux =>
    let priv1 := { priv with
      x_origin := gfloat_add (gfloat_of_nat (priv.handle_width / 2)) trough_x }
    let fill_size := gfloat_sub priv1.handle_middle_end priv1.handle_middle_start
    let pos := gfloat_sub ux priv1.handle_middle_start
    let pos := CLAMP pos (GDouble.fin 0) fill_size
    let progress := gfloat_div pos fill_size
    mx_slider_set_progress priv1 progress

/-! ## Allocation of the slider -/

/-- The type `ClutterActorBox`. -/
structure ClutterActorBox where
  x1 : GDouble
  y1 : GDouble
  x2 : GDouble
  y2 : GDouble
  deriving DecidableEq

/-- The type `MxPadding`. -/
structure MxPadding where
  top : GDouble
  right : GDouble
  bottom : GDouble
  left : GDouble
  deriving DecidableEq

/-- The comparison `priv->handle_height > priv->trough_height` of a `guint` with
a `gint`: the `gint` is converted to `guint`. -/
def handle_higher_than_trough (handle_height : Nat) (trough_height : Int) : Bool :=
  decide ((trough_height % 4294967296).toNat < handle_height)

/-- The track length `box->x2 - box->x1 - padding.left - padding.right -
priv->handle_width` that `mx_slider_allocate_fill_handle` multiplies the
progress by, computed in `gfloat`. -/
def fill_handle_track (priv : MxSliderPrivate) (box : ClutterActorBox) (padding : MxPadding) :
    GDouble :=
  gfloat_sub (gfloat_sub (gfloat_sub (gfloat_sub box.x2 box.x1) padding.left) padding.right)
    (gfloat_of_nat priv.handle_width)

/-- Function `mx_slider_allocate_fill_handle (self, box, flags)`: the boxes
allocated to the fill and to the handle. The fields of the boxes and of the
padding are `gfloat`; the product with the `gdouble` progress and the two sums
that follow it are done in `gdouble`, and the result is converted to `gfloat`
when it is stored in `fill_box.x2`. -/
def mx_slider_allocate_fill_handle (priv : MxSliderPrivate) (box : ClutterActorBox)
    (padding : MxPadding) : ClutterActorBox × ClutterActorBox :=
  let handle_width_2 := priv.handle_width / 2
  let height := gfloat_sub box.y2 box.y1
  let track := fill_handle_track priv box padding
  let fill_x2 := to_gfloat (gdouble_add (gdouble_add (gdouble_mul track priv.progress) padding.left)
    (gdouble_of_nat handle_width_2))
  let fill_x2 := CLAMP fill_x2 priv.handle_middle_start priv.handle_middle_end
  let fill_box : ClutterActorBox := ⟨padding.left, priv.trough_box_y1, fill_x2, priv.trough_box_y2⟩
  let handle_x1 := gfloat_sub fill_x2 (gfloat_of_nat handle_width_2)
  let handle_x2 := gfloat_add handle_x1 (gfloat_of_nat priv.handle_width)
  let handle_y : GDouble × GDouble :=
    if priv.handle_height == 0 || handle_higher_than_trough priv.handle_height priv.trough_height
    then (padding.top, gfloat_sub height padding.bottom)
    else
      let y1 := gfloat_div (gfloat_sub height (gfloat_of_nat priv.handle_height)) (GDouble.fin 2)
      (y1, gfloat_add y1 (gfloat_of_nat priv.handle_height))
  let handle_box : ClutterActorBox :=
    ⟨gfloat_to_int handle_x1, gfloat_to_int handle_y.1, gfloat_to_int handle_x2,
     gfloat_to_int handle_y.2⟩
  (fill_box, handle_box)

/-- What `mx_slider_allocate` allocates to the children of the slider. -/
structure SliderAllocation where
  trough_box : ClutterActorBox
  fill_box : ClutterActorBox
  handle_box : ClutterActorBox
  deriving DecidableEq

/-- Function `mx_slider_allocate (actor, box, flags)`: the private structure
with the extremes of the handle middle and the trough box saved, and the
boxes allocated to the children. Every operation is done in `gfloat`. -/
def mx_slider_allocate (priv : MxSliderPrivate) (box : ClutterActorBox) (padding : MxPadding) :
    MxSliderPrivate × SliderAllocation :=
  let handle_width_2 := gfloat_of_nat (priv.handle_width / 2)
  let width := gfloat_sub box.x2 box.x1
  let height := gfloat_sub box.y2 box.y1
  let middle_start := gfloat_add (gfloat_add padding.left handle_width_2) (GDouble.fin 1)
  let middle_end := gfloat_sub (gfloat_sub (gfloat_sub width padding.right) handle_width_2)
    (GDouble.fin 1)
  let trough_box : ClutterActorBox :=
    if priv.trough_height < 0 then
      ⟨padding.left, padding.top, gfloat_sub width padding.right, gfloat_sub height padding.bottom⟩
    else
      let y1 := gfloat_div
        (gfloat_sub (gfloat_sub (gfloat_sub height padding.bottom) padding.top)
          (gfloat_of_int priv.trough_height)) (GDouble.fin 2)
      ⟨padding.left, y1, gfloat_sub width padding.right,
       gfloat_add y1 (gfloat_of_int priv.trough_height)⟩
  let priv1 := { priv with handle_middle_start := middle_start, handle_middle_end := middle_end,
                           trough_box_y1 := trough_box.y1, trough_box_y2 := trough_box.y2 }
  let fh := mx_slider_allocate_fill_handle priv1 box padding
  (priv1, ⟨trough_box, fh.1, fh.2⟩)

/-- A box at the origin with the given width and height. -/
def box_of_size (w h : ℚ) : ClutterActorBox :=
  ⟨GDouble.fin 0, GDouble.fin 0, GDouble.fin w, GDouble.fin h⟩

/-- No padding. -/
def padding_zero : MxPadding := ⟨GDouble.fin 0, GDouble.fin 0, GDouble.fin 0, GDouble.fin 0⟩

/-- A new slider styled with handle width 20, handle height 16 and no trough
height, as the style-changed callback stores them. -/
def slider_styled : MxSliderPrivate :=
  { slider_new with trough_height := -1, handle_width := 20, handle_height := 16 }

/-- The value is a number of the interval [0, 1]. -/
def in_unit_interval : GDouble → Prop
  | GDouble.fin q => 0 ≤ q ∧ q ≤ 1
  | _ => False

/-! ## Pointer events of the slider -/

/-- The slider and the parts of Clutter its event handlers change. -/
structure SliderWorld where
  priv : MxSliderPrivate
  /-- the flag set by `clutter_set_motion_events_enabled` -/
  motion_events_enabled : Bool
  /-- ids of the handlers `on_handle_capture_event` connected to the signal
  "captured-event" of the stage, in connection order -/
  capture_handlers : List Nat
  /-- the id the next `g_signal_connect_after` returns (ids are positive) -/
  next_handler_id : Nat
  deriving DecidableEq

/-- Result of an event handler of the slider: new state, the `gboolean`
returned and the calls `mx_slider_set_progress` made. -/
structure SliderOutcome where
  world : SliderWorld
  handled : Bool
  effects : List SliderEffect
  deriving DecidableEq

/-- The statements that begin the capture in both press handlers:
`clutter_set_motion_events_enabled (FALSE)` and
`priv->capture_handler = g_signal_connect_after (stage, "captured-event", ...)`. -/
def begin_capture (w : SliderWorld) : SliderWorld :=
  { w with priv := { w.priv with capture_handler := w.next_handler_id },
           motion_events_enabled := false,
           capture_handlers := w.capture_handlers ++ [w.next_handler_id],
           next_handler_id := w.next_handler_id + 1 }

/-- Function `on_trough_bg_button_press_event (actor, event, self)`. `ux` is
the result of the coordinate transform done by `move_handle`, `none` when it
fails, and `trough_x` is `clutter_actor_get_x (priv->trough)`. -/
def on_trough_bg_button_press_event (button : Nat) (ux : Option GDouble) (trough_x : GDouble)
    (w : SliderWorld) : SliderOutcome :=
  if button != 1 then ⟨w, false, []⟩
  else
    let m := move_handle w.priv ux trough_x
    ⟨begin_capture { w with priv := m.1 }, true, m.2⟩

/-- Function `on_handle_button_press_event (actor, event, bar)`. `hx` is what
`clutter_actor_transform_stage_point (priv->handle, ...)` stores in
`priv->x_origin`, `none` when it fails, and `trough_x` is
`clutter_actor_get_x (priv->trough)`. -/
def on_handle_button_press_event (button : Nat) (hx : Option GDouble) (trough_x : GDouble)
    (w : SliderWorld) : SliderOutcome :=
  if button != 1 then ⟨w, false, []⟩
  else
    match hx with
    | none => ⟨w, false, []⟩
    | some hx =>
      ⟨begin_capture { w with priv := { w.priv with x_origin := gfloat_add hx trough_x } },
       true, []⟩

/-- The events `on_handle_capture_event` tells apart: a motion, with the result
of the coordinate transform of `drag_handle` and the width of the handle
actor, a button release, and the others. -/
inductive CapturedEvent where
  | motion (ux : Option GDouble) (handle_actor_width : GDouble)
  | button_release (button : Nat)
  | other

/-- Function `on_handle_capture_event (trough, event, bar)`; the pseudo class
of the handle, which the release branch may clear, is left out. -/
def on_handle_capture_event (event : CapturedEvent) (w : SliderWorld) : SliderOutcome :=
  match event with
  | CapturedEvent.motion ux handle_actor_width =>
    let d := drag_handle w.priv ux handle_actor_width
    ⟨{ w with priv := d.1 }, true, d.2⟩
  | CapturedEvent.button_release button =>
    if button == 1 then
      let w1 :=
        if w.priv.capture_handler != 0 then
          { w with capture_handlers := w.capture_handlers.filter (fun h => h != w.priv.capture_handler),
                   priv := { w.priv with capture_handler := 0 } }
        else w
      ⟨{ w1 with motion_events_enabled := true }, true, []⟩
    else ⟨w, true, []⟩
  | CapturedEvent.other => ⟨w, true, []⟩

/-- A slider with the given private structure on which no capture is going on. -/
def slider_world (priv : MxSliderPrivate) : SliderWorld :=
  { priv := priv, motion_events_enabled := true, capture_handlers := [], next_handler_id := 1 }

/-! ## Geometry of the laid out slider -/

/-- Width of an actor allocated the box, as `clutter_actor_get_width` gives it. -/
def box_width (b : ClutterActorBox) : GDouble := gfloat_sub b.x2 b.x1

/-- What `clutter_actor_transform_stage_point (priv->handle, ...)` gives for a
pointer whose x in the coordinates of the slider is `ux`, when the slider is
laid out as `alloc` and no actor is scaled or rotated: `mx_slider_init`
parents the handle on the trough and the trough on the slider. -/
def handle_local_x (alloc : SliderAllocation) (ux : GDouble) : GDouble :=
  gfloat_sub (gfloat_sub ux alloc.trough_box.x1) alloc.handle_box.x1

/-! ## Preferred height of the slider -/

/-- The macro `MAX (a, b)`, `(((a) > (b)) ? (a) : (b))`, applied to a `guint`
and a `gint`: the `gint` is converted to `guint` in the comparison and in the
result. -/
def MAX_guint_gint (a : Nat) (b : Int) : Nat :=
  if (b % 4294967296).toNat < a then a else (b % 4294967296).toNat

/-- Function `mx_slider_get_preferred_height (actor, for_width, min_height_p,
nat_height_p)`: the values stored in `*min_height_p` and `*nat_height_p`. The
`guint` result of the macro is converted to `gfloat` and the two sums are done
in `gfloat`. -/
def mx_slider_get_preferred_height (priv : MxSliderPrivate) (padding : MxPadding) :
    GDouble × GDouble :=
  let height := gfloat_add
    (gfloat_add (gfloat_of_nat (MAX_guint_gint priv.handle_height priv.trough_height))
      padding.top) padding.bottom
  (height, height)

/-- Padding on the left only. -/
def padding_left (l : ℚ) : MxPadding := ⟨GDouble.fin 0, GDouble.fin 0, GDouble.fin 0, GDouble.fin l⟩

/-- The styled slider with the default handle width of 25. -/
def slider_default_width : MxSliderPrivate := { slider_styled with handle_width := 25 }

/-- The styled slider at progress 1/4. -/
def slider_quarter : MxSliderPrivate := { slider_styled with progress := GDouble.fin (1 / 4) }

/-- The slider laid out by `mx_slider_allocate` in a box of the given width and
of height 30, at the origin. -/
def laid_out (priv : MxSliderPrivate) (width : ℚ) (padding : MxPadding) :
    MxSliderPrivate × SliderAllocation :=
  mx_slider_allocate priv (box_of_size width 30) padding

/-- A primary press on the trough background by a pointer at x `ux` in the
coordinates of the slider, the slider being laid out in a box of the given
width: the x of the trough is the one of the box allocated to it. -/
def trough_press_at (priv : MxSliderPrivate) (width : ℚ) (padding : MxPadding) (ux : ℚ) :
    SliderOutcome :=
  on_trough_bg_button_press_event 1 (some (GDouble.fin ux))
    (laid_out priv width padding).2.trough_box.x1 (slider_world (laid_out priv width padding).1)

/-- A primary press on the handle by a pointer at x `ux` in the coordinates of
the slider, the slider being laid out in a box of the given width. -/
def handle_press_at (priv : MxSliderPrivate) (width : ℚ) (padding : MxPadding) (ux : ℚ) :
    SliderOutcome :=
  on_handle_button_press_event 1
    (some (handle_local_x (laid_out priv width padding).2 (GDouble.fin ux)))
    (laid_out priv width padding).2.trough_box.x1 (slider_world (laid_out priv width padding).1)

/-- A captured motion of the pointer at x `ux` in the coordinates of the slider:
the handle actor has the width of the box that the last call of
`mx_slider_allocate_fill_handle` allocated to it. -/
def captured_motion_at (w : SliderWorld) (width : ℚ) (padding : MxPadding) (ux : ℚ) :
    SliderOutcome :=
  on_handle_capture_event
    (CapturedEvent.motion (some (GDouble.fin ux))
      (box_width (mx_slider_allocate_fill_handle w.priv (box_of_size width 30) padding).2)) w

end Mx

/-! # Theorems -/

namespace Nbtk

/-! ## The threshold gate of the motion callback -/

theorem wrap_gint_of_range (v : Int) (h0 : -2147483648 ≤ v) (h1 : v < 2147483648) :
    wrap_gint v = v := by
  unfold wrap_gint
  omega

theorem gint_to_guint_of_nonneg (v : Int) (h0 : 0 ≤ v) (h1 : v < 4294967296) :
    (gint_to_guint v : Int) = v := by
  unfold gint_to_guint
  omega

theorem gint_to_guint_of_neg (v : Int) (h0 : -2147483648 ≤ v) (h1 : v < 0) :
    (gint_to_guint v : Int) = v + 4294967296 := by
  unfold gint_to_guint
  omega

/-- A motion whose displacement from the recorded point is non-negative and
below the threshold on both axes is ignored by the motion callback. -/
theorem motion_cb_ignores_small_forward_motion (env : Env) (widget child : Nat)
    (event : ClutterEvent) (w : World)
    (hx0 : 0 ≤ event.x - w.priv.dnd_x) (hx1 : event.x - w.priv.dnd_x < w.priv.dnd_threshold)
    (hy0 : 0 ≤ event.y - w.priv.dnd_y) (hy1 : event.y - w.priv.dnd_y < w.priv.dnd_threshold)
    (hx2 : event.x - w.priv.dnd_x < 2147483648) (hy2 : event.y - w.priv.dnd_y < 2147483648) :
    nbtk_widget_child_dnd_motion_cb env widget child event w = ⟨w, false, []⟩ := by
  have hbx : gint_to_guint (wrap_gint (event.x - w.priv.dnd_x)) < w.priv.dnd_threshold := by
    rw [wrap_gint_of_range _ (by omega) hx2]
    have := gint_to_guint_of_nonneg _ hx0 (by omega)
    omega
  have hby : gint_to_guint (wrap_gint (event.y - w.priv.dnd_y)) < w.priv.dnd_threshold := by
    rw [wrap_gint_of_range _ (by omega) hy2]
    have := gint_to_guint_of_nonneg _ hy0 (by omega)
    omega
  simp [nbtk_widget_child_dnd_motion_cb, below_threshold, hbx, hby]

/-- Claim C1, at the failing input: with threshold 10 and a press at (0, 0), the
motion to (-1, 0) has |dx| = 1 < 10 and |dy| = 0 < 10, yet the motion callback
handles it, sets `dnd_motion`, creates the proxy and emits dnd-begin and
dnd-motion: the session does not stay Armed. -/
theorem motion_cb_backward_motion_starts_drag :
    (|(-1 : Int) - example_armed.priv.dnd_x| < 10 ∧ |(0 : Int) - example_armed.priv.dnd_y| < 10)
    ∧ example_armed.priv.dnd_threshold = 10
    ∧ example_armed.priv.dnd_motion = false
    ∧ example_armed.priv.dnd_clone = none
    ∧ (nbtk_widget_child_dnd_motion_cb empty_scene 1 2 (motion (-1) 0) example_armed).handled = true
    ∧ (nbtk_widget_child_dnd_motion_cb empty_scene 1 2 (motion (-1) 0) example_armed).world.priv.dnd_motion
        = true
    ∧ (nbtk_widget_child_dnd_motion_cb empty_scene 1 2 (motion (-1) 0) example_armed).world.priv.dnd_clone
        = some 3
    ∧ (nbtk_widget_child_dnd_motion_cb empty_scene 1 2 (motion (-1) 0) example_armed).emitted
        = [⟨1, Signal.DND_BEGIN, some 2, some 3, -1, 0⟩, ⟨1, Signal.DND_MOTION, some 2, some 3, -1, 0⟩] := by
  decide

/-! ## dnd-begin is emitted at most once -/

/-- While `dnd_motion` is set the motion callback emits no dnd-begin and keeps
`dnd_motion` set. -/
theorem motion_cb_dragging (env : Env) (widget child : Nat) (event : ClutterEvent) (w : World)
    (h : w.priv.dnd_motion = true) :
    count_signal Signal.DND_BEGIN (nbtk_widget_child_dnd_motion_cb env widget child event w).emitted = 0
    ∧ (nbtk_widget_child_dnd_motion_cb env widget child event w).world.priv.dnd_motion = true := by
  unfold nbtk_widget_child_dnd_motion_cb
  by_cases hb : below_threshold (wrap_gint (event.x - w.priv.dnd_x))
      (wrap_gint (event.y - w.priv.dnd_y)) w.priv.dnd_threshold = true
  · simp [hb, h, count_signal]
  · simp [hb, h, count_signal]

/-- From the Armed state the motion callback emits dnd-begin exactly when the
threshold test fails, and then sets `dnd_motion`. -/
theorem motion_cb_armed (env : Env) (widget child : Nat) (event : ClutterEvent) (w : World)
    (h : w.priv.dnd_motion = false) :
    (below_threshold (wrap_gint (event.x - w.priv.dnd_x)) (wrap_gint (event.y - w.priv.dnd_y))
        w.priv.dnd_threshold = true →
      nbtk_widget_child_dnd_motion_cb env widget child event w = ⟨w, false, []⟩)
    ∧ (below_threshold (wrap_gint (event.x - w.priv.dnd_x)) (wrap_gint (event.y - w.priv.dnd_y))
        w.priv.dnd_threshold = false →
      count_signal Signal.DND_BEGIN
          (nbtk_widget_child_dnd_motion_cb env widget child event w).emitted = 1
      ∧ (nbtk_widget_child_dnd_motion_cb env widget child event w).world.priv.dnd_motion = true) := by
  unfold nbtk_widget_child_dnd_motion_cb
  constructor
  · intro hb
    simp [hb]
  · intro hb
    simp [hb, h, count_signal]

theorem count_signal_append (s : Signal) (a b : List Emission) :
    count_signal s (a ++ b) = count_signal s a + count_signal s b := by
  simp [count_signal]

/-- Once `dnd_motion` is set, no sequence of motions emits dnd-begin. -/
theorem motion_sequence_dragging (env : Env) (widget child : Nat) (events : List ClutterEvent) :
    ∀ w : World, w.priv.dnd_motion = true →
      count_signal Signal.DND_BEGIN (motion_sequence env widget child events w).2 = 0 := by
  induction events with
  | nil => intro w _; simp [motion_sequence, count_signal]
  | cons e rest ih =>
    intro w h
    have hd := motion_cb_dragging env widget child e w h
    simp only [motion_sequence, count_signal_append]
    rw [hd.1, ih _ hd.2]

/-- Whatever the motions that follow a press, dnd-begin is emitted at most once. -/
theorem motion_sequence_begin_at_most_once (env : Env) (widget child : Nat)
    (events : List ClutterEvent) :
    ∀ w : World, count_signal Signal.DND_BEGIN (motion_sequence env widget child events w).2 ≤ 1 := by
  induction events with
  | nil => intro w; simp [motion_sequence, count_signal]
  | cons e rest ih =>
    intro w
    simp only [motion_sequence, count_signal_append]
    cases hm : w.priv.dnd_motion with
    | true =>
      have hd := motion_cb_dragging env widget child e w hm
      rw [hd.1, motion_sequence_dragging env widget child rest _ hd.2]
      omega
    | false =>
      have ha := motion_cb_armed env widget child e w hm
      cases hb : below_threshold (wrap_gint (e.x - w.priv.dnd_x)) (wrap_gint (e.y - w.priv.dnd_y))
          w.priv.dnd_threshold with
      | true =>
        rw [ha.1 hb]
        have := ih w
        simp only [count_signal, List.filter_nil, List.length_nil] at *
        omega
      | false =>
        have h2 := ha.2 hb
        rw [h2.1, motion_sequence_dragging env widget child rest _ h2.2]

/-- Claim C2, at the failing input: threshold 10, press at (0, 0), motions to
(-1, 0) and (12, 0), primary release. The first motion whose distance from the
press point reaches the threshold is the one to (12, 0); the code emits
dnd-begin on the motion to (-1, 0), whose distance is 1, and the motion to
(12, 0) emits dnd-motion only. -/
theorem session_begin_before_threshold_reached :
    (|(-1 : Int) - 0| < 10 ∧ |(0 : Int) - 0| < 10 ∧ |(12 : Int) - 0| ≥ 10)
    ∧ (run empty_scene
        [Input.event 2 (button_press 0 0 1 1), Input.event 2 (motion (-1) 0),
         Input.event 2 (motion 12 0), Input.event 2 (button_release 12 0 1)] example_world).2
      = [[],
         [⟨1, Signal.DND_BEGIN, some 2, some 3, -1, 0⟩, ⟨1, Signal.DND_MOTION, some 2, some 3, -1, 0⟩],
         [⟨1, Signal.DND_MOTION, some 2, some 3, 12, 0⟩],
         [⟨1, Signal.DND_LEAVE, some 2, some 3, 12, 0⟩, ⟨1, Signal.DND_END, some 2, some 3, 12, 0⟩]] := by
  decide

/-! ## The press callback -/

/-- Claim C3: the press callback starts a session (returns TRUE, records the
press point in `dnd_x`/`dnd_y`, sets `dnd_dragged` to the child and `dnd_motion`
to false) if and only if the threshold is positive, the button is 1 and the
click count is at most 1; otherwise it returns FALSE, emits nothing and leaves
the whole state, so every drag-and-drop field, unchanged. A threshold of 0
therefore disables drag and drop. -/
theorem press_cb_starts_session_iff (widget child : Nat) (event : ClutterEvent) (w : World) :
    ((nbtk_widget_child_dnd_press_cb widget child event w).handled = true ↔
      (0 < w.priv.dnd_threshold ∧ event.button = 1 ∧ event.click_count ≤ 1))
    ∧ ((0 < w.priv.dnd_threshold ∧ event.button = 1 ∧ event.click_count ≤ 1) →
        (nbtk_widget_child_dnd_press_cb widget child event w).world.priv.dnd_x = event.x
        ∧ (nbtk_widget_child_dnd_press_cb widget child event w).world.priv.dnd_y = event.y
        ∧ (nbtk_widget_child_dnd_press_cb widget child event w).world.priv.dnd_dragged = some child
        ∧ (nbtk_widget_child_dnd_press_cb widget child event w).world.priv.dnd_motion = false)
    ∧ (¬ (0 < w.priv.dnd_threshold ∧ event.button = 1 ∧ event.click_count ≤ 1) →
        nbtk_widget_child_dnd_press_cb widget child event w = ⟨w, false, []⟩)
    ∧ (w.priv.dnd_threshold = 0 →
        nbtk_widget_child_dnd_press_cb widget child event w = ⟨w, false, []⟩) := by
  unfold nbtk_widget_child_dnd_press_cb
  by_cases ht : w.priv.dnd_threshold = 0
  · simp [ht]
  · by_cases hb : event.button = 1
    · by_cases hc : event.click_count ≤ 1
      · have hc2 : ¬ (1 < event.click_count) := by omega
        have ht2 : 0 < w.priv.dnd_threshold := by omega
        simp [ht, hb, hc, hc2, ht2, g_signal_connect]
      · have hc2 : 1 < event.click_count := by omega
        simp [ht, hb, hc, hc2]
    · simp [ht, hb]

/-- Claim C3 at concrete inputs: a single primary press with threshold 10
qualifies and starts a session at (4, 7). -/
theorem press_cb_starts_session_iff_witness :
    (nbtk_widget_child_dnd_press_cb 1 2 (button_press 4 7 1 1) example_world).handled = true
    ∧ (nbtk_widget_child_dnd_press_cb 1 2 (button_press 4 7 1 1) example_world).world.priv.dnd_x = 4 :=
  ⟨((press_cb_starts_session_iff 1 2 (button_press 4 7 1 1) example_world).1).2 (by decide),
   ((press_cb_starts_session_iff 1 2 (button_press 4 7 1 1) example_world).2.1 (by decide)).1⟩

/-! ## The release callback -/

theorem not_dnd_widget_eq (a : Actor) :
    not_dnd_widget a = !(a.is_widget && decide (0 < a.dnd_threshold)) := by
  unfold not_dnd_widget
  cases a.is_widget <;> rcases Nat.eq_zero_or_pos a.dnd_threshold with h0 | h0 <;> simp [h0]
  omega

theorem walk_up_eq_nearest (chain : List Actor) :
    actor_id (walk_up chain) = (nearest_dnd_widget chain).map (fun a => a.id) := by
  induction chain with
  | nil => rfl
  | cons a rest ih =>
    unfold nearest_dnd_widget at *
    cases h : (a.is_widget && decide (0 < a.dnd_threshold)) with
    | false => simpa [walk_up, not_dnd_widget_eq, h, List.find?_cons] using ih
    | true => simp [walk_up, not_dnd_widget_eq, h, List.find?_cons, actor_id]

theorem release_walk_eq_nearest (chain : List Actor) :
    actor_id (release_walk chain) = (nearest_dnd_widget chain).map (fun a => a.id) := by
  cases chain with
  | nil => rfl
  | cons a rest =>
    have ih := walk_up_eq_nearest rest
    unfold nearest_dnd_widget at *
    cases h : (a.is_widget && decide (0 < a.dnd_threshold)) with
    | false => simpa [release_walk, not_dnd_widget_eq, h, List.find?_cons] using ih
    | true => simp [release_walk, not_dnd_widget_eq, h, List.find?_cons, actor_id]

theorem release_cb_emitted (env : Env) (widget child : Nat) (event : ClutterEvent) (w : World)
    (ht : event.type = ClutterEventType.CLUTTER_BUTTON_RELEASE) (hb : event.button = 1)
    (hm : w.priv.dnd_motion = true) :
    (nbtk_widget_child_dnd_release_cb env widget child event w).emitted =
      (match actor_id (release_walk (env.actor_at_pos event.x event.y)) with
        | some d => [⟨d, Signal.DND_DROPPED, some child, w.priv.dnd_clone, event.x, event.y⟩]
        | none => [])
      ++ (match w.priv.dnd_last_dest with
        | some l => [⟨l, Signal.DND_LEAVE, w.priv.dnd_dragged, w.priv.dnd_clone, event.x, event.y⟩]
        | none => [])
      ++ [⟨widget, Signal.DND_END, some child, w.priv.dnd_clone, event.x, event.y⟩]
    ∧ (nbtk_widget_child_dnd_release_cb env widget child event w).handled = true := by
  cases hl : w.priv.dnd_last_dest <;> by_cases hid : w.priv.dnd_enter_cb_id = 0 <;>
    cases hdr : w.priv.dnd_dragged <;>
    simp [nbtk_widget_child_dnd_release_cb, ht, hb, hm, leave_last_dest, hl, hid, hdr,
      g_signal_handler_disconnect]

/-- Claim C4: a primary release while `dnd_motion` is set (Dragging) returns
TRUE and emits exactly one dnd-end, to the widget, with (child, proxy, x, y);
it is the last emission of the release, so a dnd-dropped emitted in the same
release comes strictly before it, and it is emitted whether or not a drop
occurred. -/
theorem release_cb_emits_one_end_last (env : Env) (widget child : Nat) (event : ClutterEvent)
    (w : World) (ht : event.type = ClutterEventType.CLUTTER_BUTTON_RELEASE)
    (hb : event.button = 1) (hm : w.priv.dnd_motion = true) :
    (nbtk_widget_child_dnd_release_cb env widget child event w).handled = true
    ∧ count_signal Signal.DND_END (nbtk_widget_child_dnd_release_cb env widget child event w).emitted = 1
    ∧ ∃ before : List Emission,
        (nbtk_widget_child_dnd_release_cb env widget child event w).emitted =
          before ++ [⟨widget, Signal.DND_END, some child, w.priv.dnd_clone, event.x, event.y⟩]
        ∧ (∀ e ∈ before, e.signal ≠ Signal.DND_END)
        ∧ (∀ e ∈ (nbtk_widget_child_dnd_release_cb env widget child event w).emitted,
            e.signal = Signal.DND_DROPPED → e ∈ before) := by
  have h := release_cb_emitted env widget child event w ht hb hm
  refine ⟨h.2, ?_, ?_⟩
  · rw [h.1]
    cases actor_id (release_walk (env.actor_at_pos event.x event.y)) <;>
      cases w.priv.dnd_last_dest <;> simp [count_signal]
  · refine ⟨_, h.1, ?_, ?_⟩
    · intro e he
      cases hd : actor_id (release_walk (env.actor_at_pos event.x event.y)) <;>
        cases hl : w.priv.dnd_last_dest <;> simp [hd, hl] at he
      · subst he; simp
      · subst he; simp
      · rcases he with he | he <;> subst he <;> simp
    · intro e he hs
      rw [h.1] at he
      rcases List.mem_append.mp he with he | he
      · exact he
      · simp at he
        subst he
        simp at hs

/-- Claim C4 at a concrete release: dragging the child of the example widget
and releasing at (12, 0). -/
theorem release_cb_emits_one_end_last_witness :
    count_signal Signal.DND_END
      (nbtk_widget_child_dnd_release_cb drop_scene 1 2 (button_release 12 0 1) example_over_b).emitted = 1 :=
  (release_cb_emits_one_end_last drop_scene 1 2 (button_release 12 0 1) example_over_b
    (by decide) (by decide) (by decide)).2.1

/-- Claim C5: on a primary release while Dragging, the dnd-dropped emissions
are exactly one emission to the nearest drop-capable ancestor-or-self of the
actor picked at the release point, with (child, proxy, x, y), when there is
such a node, and none when the pick returns nothing or the chain has no
drop-capable node; in both cases exactly one dnd-end is emitted. -/
theorem release_cb_dropped_iff_destination (env : Env) (widget child : Nat) (event : ClutterEvent)
    (w : World) (ht : event.type = ClutterEventType.CLUTTER_BUTTON_RELEASE)
    (hb : event.button = 1) (hm : w.priv.dnd_motion = true) :
    emissions_of Signal.DND_DROPPED (nbtk_widget_child_dnd_release_cb env widget child event w).emitted
      = (match nearest_dnd_widget (env.actor_at_pos event.x event.y) with
          | some a => [⟨a.id, Signal.DND_DROPPED, some child, w.priv.dnd_clone, event.x, event.y⟩]
          | none => [])
    ∧ count_signal Signal.DND_END (nbtk_widget_child_dnd_release_cb env widget child event w).emitted = 1 := by
  have h := release_cb_emitted env widget child event w ht hb hm
  have hr := release_walk_eq_nearest (env.actor_at_pos event.x event.y)
  rw [h.1, hr]
  cases nearest_dnd_widget (env.actor_at_pos event.x event.y) <;>
    cases w.priv.dnd_last_dest <;> simp [emissions_of, count_signal]

/-- Claim C5 at concrete inputs: with nothing under the pointer no dnd-dropped
is emitted and dnd-end is emitted once. -/
theorem release_cb_dropped_iff_destination_witness :
    emissions_of Signal.DND_DROPPED
        (nbtk_widget_child_dnd_release_cb empty_scene 1 2 (button_release 12 0 1) example_over_b).emitted = []
    ∧ count_signal Signal.DND_END
        (nbtk_widget_child_dnd_release_cb empty_scene 1 2 (button_release 12 0 1) example_over_b).emitted = 1 :=
  release_cb_dropped_iff_destination empty_scene 1 2 (button_release 12 0 1) example_over_b
    (by decide) (by decide) (by decide)

/-- Claim C7 as stated fails: in the example the drag is released over node 7
while node 7 is the last destination; node 7 receives dnd-dropped and then also
dnd-leave in the same release. -/
theorem release_cb_drop_target_also_left :
    example_over_b.priv.dnd_motion = true
    ∧ example_over_b.priv.dnd_last_dest = some 7
    ∧ (nearest_dnd_widget (drop_scene.actor_at_pos 12 0)).map (fun a => a.id) = some 7
    ∧ (nbtk_widget_child_dnd_release_cb drop_scene 1 2 (button_release 12 0 1) example_over_b).emitted
      = [⟨7, Signal.DND_DROPPED, some 2, some 3, 12, 0⟩,
         ⟨7, Signal.DND_LEAVE, some 2, some 3, 12, 0⟩,
         ⟨1, Signal.DND_END, some 2, some 3, 12, 0⟩] := by
  decide

/-- Claim C7, amended: on a primary release while Dragging, dnd-leave is emitted
to the last destination if and only if one is set, once, whether or not that
node is the one that received dnd-dropped; when the drop target is the last
destination the release emits dnd-dropped to it, then dnd-leave to it, then
dnd-end. -/
theorem release_cb_leave_iff_last_dest_set (env : Env) (widget child : Nat) (event : ClutterEvent)
    (w : World) (ht : event.type = ClutterEventType.CLUTTER_BUTTON_RELEASE)
    (hb : event.button = 1) (hm : w.priv.dnd_motion = true) :
    emissions_of Signal.DND_LEAVE (nbtk_widget_child_dnd_release_cb env widget child event w).emitted
      = (match w.priv.dnd_last_dest with
          | some l => [⟨l, Signal.DND_LEAVE, w.priv.dnd_dragged, w.priv.dnd_clone, event.x, event.y⟩]
          | none => [])
    ∧ (∀ a : Actor, nearest_dnd_widget (env.actor_at_pos event.x event.y) = some a →
        w.priv.dnd_last_dest = some a.id →
        (nbtk_widget_child_dnd_release_cb env widget child event w).emitted
          = [⟨a.id, Signal.DND_DROPPED, some child, w.priv.dnd_clone, event.x, event.y⟩,
             ⟨a.id, Signal.DND_LEAVE, w.priv.dnd_dragged, w.priv.dnd_clone, event.x, event.y⟩,
             ⟨widget, Signal.DND_END, some child, w.priv.dnd_clone, event.x, event.y⟩]) := by
  have h := release_cb_emitted env widget child event w ht hb hm
  have hr := release_walk_eq_nearest (env.actor_at_pos event.x event.y)
  constructor
  · rw [h.1]
    cases actor_id (release_walk (env.actor_at_pos event.x event.y)) <;>
      cases w.priv.dnd_last_dest <;> simp [emissions_of]
  · intro a ha hl
    rw [h.1, hr, ha, hl]
    rfl

/-- Claim C7, amended, at the example release over node 7. -/
theorem release_cb_leave_iff_last_dest_set_witness :
    emissions_of Signal.DND_LEAVE
        (nbtk_widget_child_dnd_release_cb drop_scene 1 2 (button_release 12 0 1) example_over_b).emitted
      = [⟨7, Signal.DND_LEAVE, some 2, some 3, 12, 0⟩] :=
  (release_cb_leave_iff_last_dest_set drop_scene 1 2 (button_release 12 0 1) example_over_b
    (by decide) (by decide) (by decide)).1

/-- Claim C6, at the failing input: press at (0, 0) with threshold 10, the
pointer enters drop-capable node 7 while the session is still Armed, the motion
to (12, 0) begins the drag, and the pointer enters node 7 again. Node 7
receives dnd-enter twice in a row with no dnd-leave to it in between, and the
drag begins with a g_warning. -/
theorem session_enter_twice_without_leave :
    (run drop_scene
        [Input.event 2 (button_press 0 0 1 1), Input.event 2 (enter 5 0 [actor_b]),
         Input.event 2 (motion 12 0), Input.event 2 (enter 12 0 [actor_b])] example_world).2
      = [[],
         [⟨7, Signal.DND_ENTER, some 2, none, 5, 0⟩],
         [⟨1, Signal.DND_BEGIN, some 2, some 3, 12, 0⟩, ⟨1, Signal.DND_MOTION, some 2, some 3, 12, 0⟩],
         [⟨1, Signal.DND_LEAVE, some 2, some 3, 12, 0⟩, ⟨7, Signal.DND_ENTER, some 2, some 3, 12, 0⟩]]
    ∧ (((run drop_scene
        [Input.event 2 (button_press 0 0 1 1), Input.event 2 (enter 5 0 [actor_b]),
         Input.event 2 (motion 12 0), Input.event 2 (enter 12 0 [actor_b])] example_world).2.flatten.filter
          (fun e => e.target == 7)).map (fun e => e.signal)) = [Signal.DND_ENTER, Signal.DND_ENTER]
    ∧ (run drop_scene
        [Input.event 2 (button_press 0 0 1 1), Input.event 2 (enter 5 0 [actor_b]),
         Input.event 2 (motion 12 0), Input.event 2 (enter 12 0 [actor_b])] example_world).1.warnings = 1 := by
  decide

/-! ## The enter callback -/

theorem is_dnd_widget_walk_up (chain : List Actor) :
    is_dnd_widget (walk_up chain) = (actor_id (walk_up chain)).isSome := by
  induction chain with
  | nil => rfl
  | cons a rest ih =>
    cases h : (a.is_widget && decide (0 < a.dnd_threshold)) with
    | false => simpa [walk_up, not_dnd_widget_eq, h] using ih
    | true =>
      have h2 : a.is_widget = true ∧ 0 < a.dnd_threshold := by simpa using h
      have h3 : a.dnd_threshold ≠ 0 := by omega
      simp [walk_up, not_dnd_widget_eq, h, is_dnd_widget, actor_id, h2.1, h3]

/-- What the enter callback emits: nothing when the resolved destination is the
last destination; otherwise dnd-leave to the last destination, if one is set,
followed by dnd-enter to the resolved destination, if there is one. -/
theorem enter_cb_emitted (widget : Nat) (event : ClutterEvent) (w : World) :
    (nbtk_widget_dnd_enter_event_cb widget event w).emitted =
      (if (nearest_dnd_widget event.source).map (fun a => a.id) = w.priv.dnd_last_dest then []
       else
        (match w.priv.dnd_last_dest with
          | some l => [⟨l, Signal.DND_LEAVE, w.priv.dnd_dragged, w.priv.dnd_clone, event.x, event.y⟩]
          | none => [])
        ++ (match (nearest_dnd_widget event.source).map (fun a => a.id) with
          | some d => [⟨d, Signal.DND_ENTER, w.priv.dnd_dragged, w.priv.dnd_clone, event.x, event.y⟩]
          | none => []))
    ∧ (nbtk_widget_dnd_enter_event_cb widget event w).handled = true := by
  have h1 := is_dnd_widget_walk_up event.source
  rw [← walk_up_eq_nearest event.source]
  unfold nbtk_widget_dnd_enter_event_cb
  cases hl : w.priv.dnd_last_dest with
  | none =>
    cases hd : actor_id (walk_up event.source) with
    | none => simp [h1, hd, hl, leave_last_dest]
    | some d => simp [h1, hd, hl, leave_last_dest]
  | some l =>
    cases hd : actor_id (walk_up event.source) with
    | none => simp [h1, hd, hl, leave_last_dest]
    | some d =>
      by_cases hdl : d = l
      · simp [h1, hd, hl, leave_last_dest, hdl]
      · simp [h1, hd, hl, leave_last_dest, hdl]

/-! ## The weak reference on the last destination -/

theorem walk_up_source (chain : List Actor) (k : Nat) (h : actor_id (walk_up chain) = some k) :
    ∃ a ∈ chain, a.id = k := by
  rw [walk_up_eq_nearest] at h
  unfold nearest_dnd_widget at h
  cases hf : List.find? (fun a => a.is_widget && decide (0 < a.dnd_threshold)) chain with
  | none => simp [hf] at h
  | some a =>
    simp [hf] at h
    exact ⟨a, List.mem_of_find?_eq_some hf, h⟩

theorem enter_cb_ok (widget child : Nat) (event : ClutterEvent) (w : World)
    (h : world_ok widget child w) :
    world_ok widget child (nbtk_widget_dnd_enter_event_cb widget event w).world := by
  unfold world_ok at *
  unfold nbtk_widget_dnd_enter_event_cb
  obtain ⟨h1, h2⟩ := h
  cases hl : w.priv.dnd_last_dest <;> cases hd : actor_id (walk_up event.source) <;>
    cases hi : is_dnd_widget (walk_up event.source) <;>
    simp_all [leave_last_dest, g_object_weak_unref, g_object_weak_ref]
  split <;> simp_all

theorem press_cb_ok (widget child : Nat) (event : ClutterEvent) (w : World)
    (h : world_ok widget child w) :
    world_ok widget child (nbtk_widget_child_dnd_press_cb widget child event w).world := by
  unfold world_ok at *
  obtain ⟨h1, h2⟩ := h
  by_cases hq : (w.priv.dnd_threshold == 0 || event.button != 1 || decide (event.click_count > 1)) = true
  · simp only [nbtk_widget_child_dnd_press_cb, hq, if_true]
    exact ⟨h1, h2⟩
  · simp only [nbtk_widget_child_dnd_press_cb, hq, g_signal_connect]
    refine ⟨by simpa using h1, ?_⟩
    intro hd hmem
    simp at hmem
    rcases hmem with hmem | hmem | hmem
    · exact h2 hd hmem
    · rw [hmem]; exact ⟨rfl, rfl⟩
    · rw [hmem]; exact ⟨rfl, rfl⟩

theorem motion_cb_ok (env : Env) (widget child : Nat) (event : ClutterEvent) (w : World)
    (h : world_ok widget child w) :
    world_ok widget child (nbtk_widget_child_dnd_motion_cb env widget child event w).world := by
  unfold world_ok at *
  obtain ⟨h1, h2⟩ := h
  by_cases hq : below_threshold (wrap_gint (event.x - w.priv.dnd_x))
      (wrap_gint (event.y - w.priv.dnd_y)) w.priv.dnd_threshold = true
  · simp only [nbtk_widget_child_dnd_motion_cb, hq, if_true]
    exact ⟨h1, h2⟩
  · cases hm : w.priv.dnd_motion
    · cases hl : w.priv.dnd_last_dest <;>
        simp_all [nbtk_widget_child_dnd_motion_cb, g_object_weak_unref, g_object_weak_ref,
          g_signal_connect]
      all_goals
        intro hd hmem
        rcases hmem with hmem | hmem
        · exact h2 hd hmem
        · rw [hmem]; exact ⟨rfl, rfl⟩
    · simp_all [nbtk_widget_child_dnd_motion_cb]

set_option maxHeartbeats 1600000 in
/-- The handlers left by the release callback were connected before, and once
the callback has handled a primary release none of them is the motion handler
of the child. -/
theorem release_cb_handlers (env : Env) (widget child : Nat) (event : ClutterEvent) (w : World)
    (hq : ¬ (event.type != ClutterEventType.CLUTTER_BUTTON_RELEASE || event.button != 1) = true) :
    ∀ h ∈ (nbtk_widget_child_dnd_release_cb env widget child event w).world.handlers,
      h ∈ w.handlers
      ∧ ¬ (h.actor = child ∧ h.callback = Callback.motion_cb ∧ h.data = widget) := by
  cases hm : w.priv.dnd_motion <;> cases hg : w.priv.dnd_grab <;>
    cases hl : w.priv.dnd_last_dest <;> cases hc : w.priv.dnd_clone <;>
    by_cases hid : w.priv.dnd_enter_cb_id = 0 <;> cases hdr : w.priv.dnd_dragged <;>
    simp_all [nbtk_widget_child_dnd_release_cb, leave_last_dest, g_object_weak_unref,
      g_signal_handlers_disconnect_by_func, g_signal_handler_disconnect]
  all_goals
    intros
    tauto

theorem release_cb_ok (env : Env) (widget child : Nat) (event : ClutterEvent) (w : World)
    (h : world_ok widget child w) :
    world_ok widget child (nbtk_widget_child_dnd_release_cb env widget child event w).world := by
  by_cases hq : (event.type != ClutterEventType.CLUTTER_BUTTON_RELEASE || event.button != 1) = true
  · simp only [nbtk_widget_child_dnd_release_cb, hq, if_true]
    exact h
  · refine ⟨?_, fun hd hmem => h.2 hd (release_cb_handlers env widget child event w hq hd hmem).1⟩
    have h1 := h.1
    cases hm : w.priv.dnd_motion <;> cases hg : w.priv.dnd_grab <;>
      cases hl : w.priv.dnd_last_dest <;> cases hc : w.priv.dnd_clone <;>
      by_cases hid : w.priv.dnd_enter_cb_id = 0 <;> cases hdr : w.priv.dnd_dragged <;>
      simp_all [nbtk_widget_child_dnd_release_cb, leave_last_dest, g_object_weak_unref,
        g_signal_handlers_disconnect_by_func, g_signal_handler_disconnect]

theorem enter_cb_quiet (widget n : Nat) (event : ClutterEvent) (w : World)
    (h0 : w.priv.dnd_last_dest ≠ some n) (hs : ∀ a ∈ event.source, a.id ≠ n) (hb : begun w) :
    (nbtk_widget_dnd_enter_event_cb widget event w).world.priv.dnd_last_dest ≠ some n
    ∧ no_leave_to n (nbtk_widget_dnd_enter_event_cb widget event w).emitted
    ∧ begun (nbtk_widget_dnd_enter_event_cb widget event w).world := by
  have hsrc : actor_id (walk_up event.source) ≠ some n := by
    intro hk
    obtain ⟨a, ha, hid⟩ := walk_up_source _ _ hk
    exact hs a ha hid
  unfold no_leave_to begun at *
  cases hl : w.priv.dnd_last_dest <;> cases hd : actor_id (walk_up event.source) <;>
    cases hi : is_dnd_widget (walk_up event.source) <;>
    simp_all [nbtk_widget_dnd_enter_event_cb, leave_last_dest, g_object_weak_unref,
      g_object_weak_ref]
  split <;> simp_all

theorem motion_cb_quiet (env : Env) (widget child n : Nat) (event : ClutterEvent) (w : World)
    (h0 : w.priv.dnd_last_dest ≠ some n) (hm : w.priv.dnd_motion = true) :
    (nbtk_widget_child_dnd_motion_cb env widget child event w).world.priv.dnd_last_dest ≠ some n
    ∧ no_leave_to n (nbtk_widget_child_dnd_motion_cb env widget child event w).emitted
    ∧ begun (nbtk_widget_child_dnd_motion_cb env widget child event w).world := by
  unfold no_leave_to begun
  by_cases hq : below_threshold (wrap_gint (event.x - w.priv.dnd_x))
      (wrap_gint (event.y - w.priv.dnd_y)) w.priv.dnd_threshold = true
  · simp only [nbtk_widget_child_dnd_motion_cb, hq, if_true]
    exact ⟨h0, by simp, Or.inl hm⟩
  · simp_all [nbtk_widget_child_dnd_motion_cb]

theorem release_cb_quiet (env : Env) (widget child n : Nat) (event : ClutterEvent) (w : World)
    (h0 : w.priv.dnd_last_dest ≠ some n) (hok : world_ok widget child w) (hb : begun w) :
    (nbtk_widget_child_dnd_release_cb env widget child event w).world.priv.dnd_last_dest ≠ some n
    ∧ no_leave_to n (nbtk_widget_child_dnd_release_cb env widget child event w).emitted
    ∧ begun (nbtk_widget_child_dnd_release_cb env widget child event w).world := by
  unfold no_leave_to
  by_cases hq : (event.type != ClutterEventType.CLUTTER_BUTTON_RELEASE || event.button != 1) = true
  · simp only [nbtk_widget_child_dnd_release_cb, hq, if_true]
    exact ⟨h0, by simp, hb⟩
  · refine ⟨?_, ?_, ?_⟩
    · cases hm : w.priv.dnd_motion <;> cases hg : w.priv.dnd_grab <;>
        cases hl : w.priv.dnd_last_dest <;> cases hc : w.priv.dnd_clone <;>
        by_cases hid : w.priv.dnd_enter_cb_id = 0 <;> cases hdr : w.priv.dnd_dragged <;>
        simp_all [nbtk_widget_child_dnd_release_cb, leave_last_dest, g_object_weak_unref,
          g_signal_handlers_disconnect_by_func, g_signal_handler_disconnect]
    · cases hm : w.priv.dnd_motion
      · simp [nbtk_widget_child_dnd_release_cb, hq, hm]
      · have hq2 : event.type = ClutterEventType.CLUTTER_BUTTON_RELEASE ∧ event.button = 1 := by
          simpa using hq
        rw [(release_cb_emitted env widget child event w hq2.1 hq2.2 hm).1]
        intro e he
        cases hd : actor_id (release_walk (env.actor_at_pos event.x event.y)) <;>
          cases hl : w.priv.dnd_last_dest <;> simp [hd, hl] at he
        · subst he; simp
        · rcases he with he | he <;> subst he <;> simp
          intro hn
          exact h0 (by rw [hl, hn])
        · rcases he with he | he <;> subst he <;> simp
        · rcases he with he | he | he <;> subst he <;> simp
          intro hn
          exact h0 (by rw [hl, hn])
    · right
      intro hd hmem hcb
      have hh := release_cb_handlers env widget child event w hq hd hmem
      exact hh.2 ⟨(hok.2 hd hh.1).2, hcb, (hok.2 hd hh.1).1⟩

theorem run_handler_ok (env : Env) (widget child : Nat) (hd : Handler) (event : ClutterEvent)
    (w : World) (hmem : hd ∈ w.handlers) (h : world_ok widget child w) :
    world_ok widget child (run_handler env hd event w).world := by
  unfold run_handler
  rw [(h.2 hd hmem).1, (h.2 hd hmem).2]
  cases hd.callback
  · exact press_cb_ok widget child event w h
  · exact motion_cb_ok env widget child event w h
  · exact release_cb_ok env widget child event w h
  · exact enter_cb_ok widget child event w h

theorem run_handler_quiet (env : Env) (widget child n : Nat) (hd : Handler) (event : ClutterEvent)
    (w : World) (hmem : hd ∈ w.handlers) (hok : world_ok widget child w)
    (hcb : hd.callback ≠ Callback.press_cb)
    (h0 : w.priv.dnd_last_dest ≠ some n) (hs : ∀ a ∈ event.source, a.id ≠ n) (hb : begun w) :
    (run_handler env hd event w).world.priv.dnd_last_dest ≠ some n
    ∧ no_leave_to n (run_handler env hd event w).emitted
    ∧ begun (run_handler env hd event w).world := by
  unfold run_handler
  rw [(hok.2 hd hmem).1, (hok.2 hd hmem).2]
  cases hc : hd.callback
  · exact absurd hc hcb
  · have hm : w.priv.dnd_motion = true := by
      rcases hb with hb | hb
      · exact hb
      · exact absurd hc (hb hd hmem)
    exact motion_cb_quiet env widget child n event w h0 hm
  · exact release_cb_quiet env widget child n event w h0 hok hb
  · exact enter_cb_quiet widget n event w h0 hs hb

theorem no_leave_to_append (n : Nat) (a b : List Emission) (ha : no_leave_to n a)
    (hb : no_leave_to n b) : no_leave_to n (a ++ b) := by
  intro e he
  rcases List.mem_append.mp he with h | h
  · exact ha e h
  · exact hb e h

theorem emit_handlers_ok (env : Env) (widget child : Nat) (event : ClutterEvent)
    (hs : List Handler) :
    ∀ (w : World) (acc : List Emission), world_ok widget child w →
      world_ok widget child (emit_handlers env event hs w acc).world := by
  induction hs with
  | nil => intro w acc h; exact h
  | cons hd rest ih =>
    intro w acc h
    unfold emit_handlers
    by_cases hmem : hd ∈ w.handlers
    · have hok := run_handler_ok env widget child hd event w hmem h
      by_cases hh : (run_handler env hd event w).handled = true
      · simpa [hmem, hh] using hok
      · simpa [hmem, hh] using ih _ _ hok
    · simpa [hmem] using ih w acc h

theorem emit_handlers_quiet (env : Env) (widget child n : Nat) (event : ClutterEvent)
    (hsrc : ∀ a ∈ event.source, a.id ≠ n) (hs : List Handler) :
    ∀ (w : World) (acc : List Emission), (∀ h ∈ hs, h.callback ≠ Callback.press_cb) →
      world_ok widget child w → begun w →
      w.priv.dnd_last_dest ≠ some n → no_leave_to n acc →
      (emit_handlers env event hs w acc).world.priv.dnd_last_dest ≠ some n
      ∧ no_leave_to n (emit_handlers env event hs w acc).emitted
      ∧ begun (emit_handlers env event hs w acc).world := by
  induction hs with
  | nil => intro w acc _ _ hb h0 hacc; exact ⟨h0, hacc, hb⟩
  | cons hd rest ih =>
    intro w acc hcb h hb h0 hacc
    have hcb1 := hcb hd (List.mem_cons_self _ _)
    have hcb2 : ∀ h ∈ rest, h.callback ≠ Callback.press_cb :=
      fun h hh => hcb h (List.mem_cons_of_mem _ hh)
    unfold emit_handlers
    by_cases hmem : hd ∈ w.handlers
    · have hok := run_handler_ok env widget child hd event w hmem h
      have hq := run_handler_quiet env widget child n hd event w hmem h hcb1 h0 hsrc hb
      have hacc2 := no_leave_to_append n _ _ hacc hq.2.1
      by_cases hh : (run_handler env hd event w).handled = true
      · simpa [hmem, hh] using And.intro hq.1 (And.intro hacc2 hq.2.2)
      · simpa [hmem, hh] using ih _ _ hcb2 hok hq.2.2 hq.1 hacc2
    · simpa [hmem] using ih w acc hcb2 h hb h0 hacc

theorem dispose_ok (widget child obj : Nat) (w : World) (h : world_ok widget child w) :
    world_ok widget child (g_object_dispose obj w) := by
  unfold world_ok at *
  obtain ⟨h1, h2⟩ := h
  unfold g_object_dispose
  by_cases hmem : obj ∈ w.weak_refs
  · simp only [hmem, if_true, nbtk_widget_dnd_last_dest_weak_cb]
    refine ⟨?_, h2⟩
    cases hl : w.priv.dnd_last_dest <;> simp_all
  · simp only [hmem, if_false]
    exact ⟨h1, h2⟩

theorem dispose_quiet (obj n : Nat) (w : World) (h0 : w.priv.dnd_last_dest ≠ some n)
    (hb : begun w) :
    (g_object_dispose obj w).priv.dnd_last_dest ≠ some n ∧ begun (g_object_dispose obj w) := by
  unfold g_object_dispose
  by_cases hmem : obj ∈ w.weak_refs
  · simpa [hmem, nbtk_widget_dnd_last_dest_weak_cb, begun] using hb
  · simpa [hmem] using And.intro h0 hb

/-- The statements of `nbtk_widget_dispose` before the chain-up touch only the
icon, the proxy and the dragged actor. -/
theorem widget_dispose_frame (widget : Nat) (w : World) :
    ∃ w3 : World, nbtk_widget_dispose widget w = (g_object_dispose widget w3, [])
      ∧ w3.handlers = w.handlers ∧ w3.weak_refs = w.weak_refs
      ∧ w3.priv.dnd_last_dest = w.priv.dnd_last_dest
      ∧ w3.priv.dnd_last_dest_data = w.priv.dnd_last_dest_data
      ∧ w3.priv.dnd_motion = w.priv.dnd_motion ∧ w3.priv.dnd_grab = w.priv.dnd_grab
      ∧ w3.pointer_grab = w.pointer_grab
      ∧ w3.priv.dnd_x = w.priv.dnd_x ∧ w3.priv.dnd_y = w.priv.dnd_y
      ∧ w3.widget = w.widget ∧ w3.priv.dnd_clone = none := by
  by_cases hc : w.priv.dnd_clone.isSome = true
  · exact ⟨{ w with priv := { w.priv with dnd_icon := none, dnd_clone := none,
                                          dnd_dragged := none },
                    proxy := { w.proxy with parented := false },
                    stage := w.stage.filter (fun a => some a != w.priv.dnd_clone) },
      by simp only [nbtk_widget_dispose, hc, if_true], rfl, rfl, rfl, rfl, rfl, rfl, rfl,
      rfl, rfl, rfl, rfl⟩
  · refine ⟨{ w with priv := { w.priv with dnd_icon := none, dnd_dragged := none } },
      by simp only [nbtk_widget_dispose, hc]; rfl, rfl, rfl, rfl, rfl, rfl, rfl, rfl,
      rfl, rfl, rfl, ?_⟩
    simpa using hc

theorem step_dispose_widget (env : Env) (obj : Nat) (w : World) (h : obj = w.widget) :
    step env (Input.dispose obj) w = nbtk_widget_dispose obj w := by
  simp [step, h]

theorem step_dispose_other (env : Env) (obj : Nat) (w : World) (h : obj ≠ w.widget) :
    step env (Input.dispose obj) w = (g_object_dispose obj w, []) := by
  simp [step, h]

theorem step_dispose_emits_nothing (env : Env) (obj : Nat) (w : World) :
    (step env (Input.dispose obj) w).2 = [] := by
  by_cases h : obj = w.widget
  · rw [step_dispose_widget env obj w h]
    simp [nbtk_widget_dispose]
  · rw [step_dispose_other env obj w h]

theorem widget_dispose_ok (widget child obj : Nat) (w : World) (h : world_ok widget child w) :
    world_ok widget child (nbtk_widget_dispose obj w).1 := by
  obtain ⟨w3, he, f1, f2, f3, _⟩ := widget_dispose_frame obj w
  rw [he]
  apply dispose_ok
  unfold world_ok at *
  rw [f1, f2, f3]
  exact h

theorem widget_dispose_quiet (obj n : Nat) (w : World) (h0 : w.priv.dnd_last_dest ≠ some n)
    (hb : begun w) :
    (nbtk_widget_dispose obj w).1.priv.dnd_last_dest ≠ some n
    ∧ begun (nbtk_widget_dispose obj w).1 := by
  obtain ⟨w3, he, f1, f2, f3, f4, f5, _⟩ := widget_dispose_frame obj w
  rw [he]
  apply dispose_quiet
  · rw [f3]; exact h0
  · unfold begun at *
    rw [f1, f5]
    exact hb

theorem step_ok (env : Env) (widget child : Nat) (i : Input) (w : World)
    (h : world_ok widget child w) : world_ok widget child (step env i w).1 := by
  cases i with
  | event actor e => exact emit_handlers_ok env widget child e _ w [] h
  | dispose obj =>
    by_cases hw : obj = w.widget
    · rw [step_dispose_widget env obj w hw]
      exact widget_dispose_ok widget child obj w h
    · rw [step_dispose_other env obj w hw]
      exact dispose_ok widget child obj w h

theorem run_ok (env : Env) (widget child : Nat) (inputs : List Input) :
    ∀ w : World, world_ok widget child w → world_ok widget child (run env inputs w).1 := by
  induction inputs with
  | nil => intro w h; exact h
  | cons i rest ih =>
    intro w h
    exact ih _ (step_ok env widget child i w h)

theorem step_quiet (env : Env) (widget child n : Nat) (i : Input) (w : World)
    (h : world_ok widget child w) (hb : begun w) (h0 : w.priv.dnd_last_dest ≠ some n)
    (hi : mentions n i = false) (hp : is_press i = false) :
    (step env i w).1.priv.dnd_last_dest ≠ some n ∧ no_leave_to n (step env i w).2
    ∧ begun (step env i w).1 := by
  cases i with
  | event actor e =>
    have hsrc : ∀ a ∈ e.source, a.id ≠ n := by
      simp [mentions] at hi
      exact hi
    have hcb : ∀ h ∈ w.handlers.filter (fun h => h.actor == actor
        && callback_of_event e.type == some h.callback), h.callback ≠ Callback.press_cb := by
      intro h hh hc
      simp [hc] at hh
      simp [is_press] at hp
      cases ht : e.type <;> simp_all [callback_of_event]
    exact emit_handlers_quiet env widget child n e hsrc _ w [] hcb h hb h0
      (by intro e he; simp at he)
  | dispose obj =>
    have hemp : no_leave_to n (step env (Input.dispose obj) w).2 := by
      rw [step_dispose_emits_nothing]
      intro e he
      simp at he
    by_cases hw : obj = w.widget
    · rw [step_dispose_widget env obj w hw] at hemp ⊢
      exact ⟨(widget_dispose_quiet obj n w h0 hb).1, hemp, (widget_dispose_quiet obj n w h0 hb).2⟩
    · rw [step_dispose_other env obj w hw] at hemp ⊢
      exact ⟨(dispose_quiet obj n w h0 hb).1, hemp, (dispose_quiet obj n w h0 hb).2⟩

theorem run_quiet (env : Env) (widget child n : Nat) (inputs : List Input) :
    ∀ w : World, world_ok widget child w → begun w → w.priv.dnd_last_dest ≠ some n →
      (∀ i ∈ inputs, mentions n i = false ∧ is_press i = false) →
      ∀ es ∈ (run env inputs w).2, no_leave_to n es := by
  induction inputs with
  | nil => intro w _ _ _ _ es hes; simp [run] at hes
  | cons i rest ih =>
    intro w h hb h0 hi es hes
    have hi1 := hi i (List.mem_cons_self _ _)
    have hq := step_quiet env widget child n i w h hb h0 hi1.1 hi1.2
    simp only [run, List.mem_cons] at hes
    rcases hes with hes | hes
    · rw [hes]; exact hq.2.1
    · exact ih _ (step_ok env widget child i w h) hq.2.2 hq.1
        (fun j hj => hi j (List.mem_cons_of_mem _ hj)) es hes

theorem world_start_ok (widget child threshold : Nat) (icon : Option Nat) :
    world_ok widget child (world_start widget child threshold icon) := by
  unfold world_ok world_start nbtk_widget_setup_child_dnd
  simp [g_signal_connect, world_new, priv_new]

/-! ## The widget of a world -/

theorem enter_cb_widget (widget : Nat) (event : ClutterEvent) (w : World) :
    (nbtk_widget_dnd_enter_event_cb widget event w).world.widget = w.widget := by
  cases hl : w.priv.dnd_last_dest <;> cases hd : actor_id (walk_up event.source) <;>
    by_cases h1 : is_dnd_widget (walk_up event.source) = true <;>
    simp [nbtk_widget_dnd_enter_event_cb, leave_last_dest, hl, hd, h1, g_object_weak_ref,
      g_object_weak_unref]
  all_goals split_ifs <;> rfl

theorem press_cb_widget (widget child : Nat) (event : ClutterEvent) (w : World) :
    (nbtk_widget_child_dnd_press_cb widget child event w).world.widget = w.widget := by
  by_cases hq : (w.priv.dnd_threshold == 0 || event.button != 1
      || decide (event.click_count > 1)) = true
  · simp only [nbtk_widget_child_dnd_press_cb, hq, if_true]
  · simp only [nbtk_widget_child_dnd_press_cb, hq]
    rfl

theorem motion_cb_widget (env : Env) (widget child : Nat) (event : ClutterEvent) (w : World) :
    (nbtk_widget_child_dnd_motion_cb env widget child event w).world.widget = w.widget := by
  cases hm : w.priv.dnd_motion <;> cases hl : w.priv.dnd_last_dest <;>
    by_cases hq : below_threshold (wrap_gint (event.x - w.priv.dnd_x))
      (wrap_gint (event.y - w.priv.dnd_y)) w.priv.dnd_threshold = true <;>
    simp [nbtk_widget_child_dnd_motion_cb, hm, hl, hq, g_object_weak_ref, g_object_weak_unref,
      g_signal_connect]

theorem release_cb_widget (env : Env) (widget child : Nat) (event : ClutterEvent) (w : World) :
    (nbtk_widget_child_dnd_release_cb env widget child event w).world.widget = w.widget := by
  by_cases hq : (event.type != ClutterEventType.CLUTTER_BUTTON_RELEASE || event.button != 1) = true
  · simp only [nbtk_widget_child_dnd_release_cb, hq, if_true]
  · cases hm : w.priv.dnd_motion <;> cases hg : w.priv.dnd_grab <;>
      cases hl : w.priv.dnd_last_dest <;> cases hc : w.priv.dnd_clone <;>
      by_cases hid : w.priv.dnd_enter_cb_id = 0 <;> cases hdr : w.priv.dnd_dragged <;>
      simp_all [nbtk_widget_child_dnd_release_cb, leave_last_dest, g_object_weak_unref,
        g_signal_handlers_disconnect_by_func, g_signal_handler_disconnect]

theorem run_handler_widget (env : Env) (hd : Handler) (event : ClutterEvent) (w : World) :
    (run_handler env hd event w).world.widget = w.widget := by
  unfold run_handler
  cases hd.callback
  · exact press_cb_widget _ _ _ _
  · exact motion_cb_widget _ _ _ _ _
  · exact release_cb_widget _ _ _ _ _
  · exact enter_cb_widget _ _ _

theorem emit_handlers_widget (env : Env) (event : ClutterEvent) (hs : List Handler) :
    ∀ (w : World) (acc : List Emission), (emit_handlers env event hs w acc).world.widget = w.widget := by
  induction hs with
  | nil => intro w acc; rfl
  | cons hd rest ih =>
    intro w acc
    unfold emit_handlers
    by_cases hmem : hd ∈ w.handlers
    · have hs2 := run_handler_widget env hd event w
      by_cases hh : (run_handler env hd event w).handled = true
      · simpa [hmem, hh] using hs2
      · simpa [hmem, hh, hs2] using ih (run_handler env hd event w).world
          (acc ++ (run_handler env hd event w).emitted)
    · simpa [hmem] using ih w acc

theorem dispose_widget (obj : Nat) (w : World) : (g_object_dispose obj w).widget = w.widget := by
  unfold g_object_dispose
  by_cases hmem : obj ∈ w.weak_refs
  · simp only [hmem, if_true, nbtk_widget_dnd_last_dest_weak_cb]
  · simp only [hmem, if_false]

theorem step_widget (env : Env) (i : Input) (w : World) : (step env i w).1.widget = w.widget := by
  cases i with
  | event actor e => exact emit_handlers_widget env e _ w []
  | dispose obj =>
    by_cases hw : obj = w.widget
    · simp only [step, hw, if_true]
      unfold nbtk_widget_dispose
      simp only [dispose_widget]
      split_ifs <;> rfl
    · simp only [step, hw, if_false]
      exact dispose_widget obj w

theorem run_widget (env : Env) (inputs : List Input) :
    ∀ w : World, (run env inputs w).1.widget = w.widget := by
  induction inputs with
  | nil => intro w; rfl
  | cons i rest ih =>
    intro w
    simp only [run]
    rw [ih, step_widget]

theorem world_start_widget (widget child threshold : Nat) (icon : Option Nat) :
    (world_start widget child threshold icon).widget = widget := by
  unfold world_start nbtk_widget_setup_child_dnd
  simp [g_signal_connect, world_new]

/-! ## Disposal of the last destination -/

theorem dispose_of_destination (obj : Nat) (w : World) (h : w.weak_refs = [obj]) :
    g_object_dispose obj w = no_destination w := by
  unfold g_object_dispose no_destination
  simp [h, nbtk_widget_dnd_last_dest_weak_cb]

/-- When the widget itself is the last destination, its disposal gives the
same world as its disposal where no destination is set, and in that world no
destination is set. -/
theorem widget_dispose_of_destination (obj : Nat) (w : World) (h : w.weak_refs = [obj]) :
    nbtk_widget_dispose obj w = nbtk_widget_dispose obj (no_destination w)
    ∧ (nbtk_widget_dispose obj w).1.priv.dnd_last_dest = none
    ∧ (nbtk_widget_dispose obj w).1.priv.dnd_last_dest_data = none
    ∧ (nbtk_widget_dispose obj w).1.weak_refs = [] := by
  by_cases hc : w.priv.dnd_clone.isSome = true <;>
    simp [nbtk_widget_dispose, hc, no_destination, g_object_dispose, h,
      nbtk_widget_dnd_last_dest_weak_cb]

theorem no_destination_ok (widget child : Nat) (w : World) (h : world_ok widget child w) :
    world_ok widget child (no_destination w) := by
  unfold world_ok no_destination
  exact ⟨rfl, h.2⟩

/-- Claim C8: in any world reached from a new widget by events and disposals,
the disposal of the widget among them, in which a drag is going on
(`dnd_motion` set) and actor `n` is the last destination, the disposal of `n`
emits nothing and leaves `dnd_last_dest` and `dnd_last_dest_data` none and no
weak reference registered; when `n` is not the widget itself, only the
weak-reference callback runs and the world after the disposal is the one in
which no destination is set; in every case the disposal followed by any later
inputs gives the same worlds and the same emissions as it does from the world
in which no destination had been set; and the later enter, motion and release
events of the session, none of which can have the disposed actor on its source
chain, emit no dnd-leave to it. -/
theorem disposed_destination_is_forgotten (env : Env) (widget child threshold : Nat)
    (icon : Option Nat) (history later : List Input) (n : Nat)
    (hdrag : (run env history (world_start widget child threshold icon)).1.priv.dnd_motion = true)
    (hdest : (run env history (world_start widget child threshold icon)).1.priv.dnd_last_dest
      = some n)
    (hlater : ∀ i ∈ later, mentions n i = false ∧ is_press i = false) :
    (step env (Input.dispose n)
        (run env history (world_start widget child threshold icon)).1).1.priv.dnd_last_dest = none
    ∧ (step env (Input.dispose n)
        (run env history (world_start widget child threshold icon)).1).1.priv.dnd_last_dest_data
        = none
    ∧ (step env (Input.dispose n)
        (run env history (world_start widget child threshold icon)).1).1.weak_refs = []
    ∧ (step env (Input.dispose n)
        (run env history (world_start widget child threshold icon)).1).2 = []
    ∧ (n ≠ widget →
        (step env (Input.dispose n) (run env history (world_start widget child threshold icon)).1).1
          = no_destination (run env history (world_start widget child threshold icon)).1)
    ∧ run env (Input.dispose n :: later) (run env history (world_start widget child threshold icon)).1
      = run env (Input.dispose n :: later)
          (no_destination (run env history (world_start widget child threshold icon)).1)
    ∧ ∀ es ∈ (run env (Input.dispose n :: later)
        (run env history (world_start widget child threshold icon)).1).2, no_leave_to n es := by
  have hok := run_ok env widget child history _ (world_start_ok widget child threshold icon)
  have hwid : (run env history (world_start widget child threshold icon)).1.widget = widget := by
    rw [run_widget, world_start_widget]
  have hrefs := hok.1
  rw [hdest] at hrefs
  have hrefs1 : (run env history (world_start widget child threshold icon)).1.weak_refs = [n] := hrefs
  have hstep : step env (Input.dispose n) (run env history (world_start widget child threshold icon)).1
      = step env (Input.dispose n)
          (no_destination (run env history (world_start widget child threshold icon)).1) := by
    by_cases hn : n = widget
    · rw [step_dispose_widget env n _ (by rw [hwid]; exact hn),
        step_dispose_widget env n (no_destination _) (by simp only [no_destination]; rw [hwid]; exact hn)]
      exact (widget_dispose_of_destination n _ hrefs1).1
    · rw [step_dispose_other env n _ (by rw [hwid]; exact hn),
        step_dispose_other env n (no_destination _) (by simp only [no_destination]; rw [hwid]; exact hn),
        dispose_of_destination n _ hrefs1]
      simp [g_object_dispose, no_destination]
  have hrun : run env (Input.dispose n :: later)
        (run env history (world_start widget child threshold icon)).1
      = run env (Input.dispose n :: later)
          (no_destination (run env history (world_start widget child threshold icon)).1) := by
    simp only [run]
    rw [hstep]
  refine ⟨?_, ?_, ?_, step_dispose_emits_nothing env n _, ?_, hrun, ?_⟩
  · by_cases hn : n = widget
    · rw [step_dispose_widget env n _ (by rw [hwid]; exact hn)]
      exact (widget_dispose_of_destination n _ hrefs1).2.1
    · rw [step_dispose_other env n _ (by rw [hwid]; exact hn), dispose_of_destination n _ hrefs1]
      rfl
  · by_cases hn : n = widget
    · rw [step_dispose_widget env n _ (by rw [hwid]; exact hn)]
      exact (widget_dispose_of_destination n _ hrefs1).2.2.1
    · rw [step_dispose_other env n _ (by rw [hwid]; exact hn), dispose_of_destination n _ hrefs1]
      rfl
  · by_cases hn : n = widget
    · rw [step_dispose_widget env n _ (by rw [hwid]; exact hn)]
      exact (widget_dispose_of_destination n _ hrefs1).2.2.2
    · rw [step_dispose_other env n _ (by rw [hwid]; exact hn), dispose_of_destination n _ hrefs1]
      rfl
  · intro hn
    rw [step_dispose_other env n _ (by rw [hwid]; exact hn), dispose_of_destination n _ hrefs1]
  · rw [hrun]
    refine run_quiet env widget child n (Input.dispose n :: later) _
      (no_destination_ok widget child _ hok) (Or.inl hdrag) (by simp [no_destination]) ?_
    intro i hi
    rcases List.mem_cons.mp hi with hi | hi
    · rw [hi]; exact ⟨rfl, rfl⟩
    · exact hlater i hi

/-- Claim C8 at two concrete sessions: the child is dragged over actor 7, actor
7 is disposed, then the pointer moves on and the button is released; and the
widget, which is the last destination right after the drag has begun, is
disposed before the same motion and release. -/
theorem disposed_destination_is_forgotten_witness :
    ((step empty_scene (Input.dispose 7) (run empty_scene
        [Input.event 2 (button_press 0 0 1 1), Input.event 2 (motion 12 0),
         Input.event 2 (enter 12 0 [actor_b])] (world_start 1 2 10 none)).1).1.priv.dnd_last_dest
        = none
      ∧ ∀ es ∈ (run empty_scene
          [Input.dispose 7, Input.event 2 (motion 30 0), Input.event 2 (button_release 30 0 1)]
          (run empty_scene
            [Input.event 2 (button_press 0 0 1 1), Input.event 2 (motion 12 0),
             Input.event 2 (enter 12 0 [actor_b])] (world_start 1 2 10 none)).1).2,
          no_leave_to 7 es)
    ∧ ((step empty_scene (Input.dispose 1) (run empty_scene
        [Input.event 2 (button_press 0 0 1 1), Input.event 2 (motion 12 0)]
        (world_start 1 2 10 none)).1).1.priv.dnd_last_dest = none
      ∧ ∀ es ∈ (run empty_scene
          [Input.dispose 1, Input.event 2 (motion 30 0), Input.event 2 (button_release 30 0 1)]
          (run empty_scene
            [Input.event 2 (button_press 0 0 1 1), Input.event 2 (motion 12 0)]
            (world_start 1 2 10 none)).1).2,
          no_leave_to 1 es) :=
  ⟨⟨(disposed_destination_is_forgotten empty_scene 1 2 10 none
      [Input.event 2 (button_press 0 0 1 1), Input.event 2 (motion 12 0),
       Input.event 2 (enter 12 0 [actor_b])]
      [Input.event 2 (motion 30 0), Input.event 2 (button_release 30 0 1)] 7
      (by decide) (by decide) (by decide)).1,
    (disposed_destination_is_forgotten empty_scene 1 2 10 none
      [Input.event 2 (button_press 0 0 1 1), Input.event 2 (motion 12 0),
       Input.event 2 (enter 12 0 [actor_b])]
      [Input.event 2 (motion 30 0), Input.event 2 (button_release 30 0 1)] 7
      (by decide) (by decide) (by decide)).2.2.2.2.2.2⟩,
   ⟨(disposed_destination_is_forgotten empty_scene 1 2 10 none
      [Input.event 2 (button_press 0 0 1 1), Input.event 2 (motion 12 0)]
      [Input.event 2 (motion 30 0), Input.event 2 (button_release 30 0 1)] 1
      (by decide) (by decide) (by decide)).1,
    (disposed_destination_is_forgotten empty_scene 1 2 10 none
      [Input.event 2 (button_press 0 0 1 1), Input.event 2 (motion 12 0)]
      [Input.event 2 (motion 30 0), Input.event 2 (button_release 30 0 1)] 1
      (by decide) (by decide) (by decide)).2.2.2.2.2.2⟩⟩

/-! ## Enter and leave alternate while dragging -/

theorem alternates_append (n : Nat) (a b : List Emission) :
    ∀ last : Option Signal,
      alternates n last (a ++ b) = (alternates n last a && alternates n (last_after n last a) b) := by
  induction a with
  | nil => intro last; simp [alternates, last_after]
  | cons e rest ih =>
    intro last
    by_cases he : enter_or_leave_to n e = true
    · simp [alternates, last_after, he, ih, Bool.and_assoc]
    · simp [alternates, last_after, he, ih]

theorem last_after_append (n : Nat) (a b : List Emission) :
    ∀ last : Option Signal,
      last_after n last (a ++ b) = last_after n (last_after n last a) b := by
  induction a with
  | nil => intro last; simp [last_after]
  | cons e rest ih => intro last; simp [last_after, ih]

theorem enter_cb_last_dest (widget : Nat) (event : ClutterEvent) (w : World) :
    (nbtk_widget_dnd_enter_event_cb widget event w).world.priv.dnd_last_dest
      = (nearest_dnd_widget event.source).map (fun a => a.id) := by
  have h1 := is_dnd_widget_walk_up event.source
  rw [← walk_up_eq_nearest event.source]
  unfold nbtk_widget_dnd_enter_event_cb
  cases hl : w.priv.dnd_last_dest with
  | none =>
    cases hd : actor_id (walk_up event.source) with
    | none => simp [h1, hd, hl, leave_last_dest]
    | some d => simp [h1, hd, hl, leave_last_dest, g_object_weak_ref]
  | some l =>
    cases hd : actor_id (walk_up event.source) with
    | none => simp [h1, hd, hl, leave_last_dest, g_object_weak_unref]
    | some d =>
      by_cases hdl : d = l
      · simp [h1, hd, hl, leave_last_dest, hdl]
      · simp [h1, hd, hl, leave_last_dest, hdl, g_object_weak_ref, g_object_weak_unref]

theorem enter_cb_alternates (widget n : Nat) (event : ClutterEvent) (w : World)
    (last : Option Signal) (hinv : dest_tracks n last w) :
    alternates n last (nbtk_widget_dnd_enter_event_cb widget event w).emitted = true
    ∧ dest_tracks n (last_after n last (nbtk_widget_dnd_enter_event_cb widget event w).emitted)
        (nbtk_widget_dnd_enter_event_cb widget event w).world := by
  unfold dest_tracks at *
  rw [enter_cb_last_dest, (enter_cb_emitted widget event w).1]
  obtain ⟨h1, h2⟩ := hinv
  cases hl : w.priv.dnd_last_dest with
  | none =>
    cases hd : (nearest_dnd_widget event.source).map (fun a => a.id) with
    | none => simp_all [alternates, last_after]
    | some d =>
      by_cases hdn : d = n <;> simp_all [alternates, last_after, enter_or_leave_to]
  | some l =>
    cases hd : (nearest_dnd_widget event.source).map (fun a => a.id) with
    | none =>
      by_cases hln : l = n <;> simp_all [alternates, last_after, enter_or_leave_to]
    | some d =>
      by_cases hdl : d = l
      · simp_all [alternates, last_after]
      · by_cases hln : l = n <;> by_cases hdn : d = n <;>
          simp_all [alternates, last_after, enter_or_leave_to]

theorem enter_cb_begun (widget : Nat) (event : ClutterEvent) (w : World) (hb : begun w) :
    begun (nbtk_widget_dnd_enter_event_cb widget event w).world := by
  unfold begun at *
  cases hl : w.priv.dnd_last_dest <;> cases hd : actor_id (walk_up event.source) <;>
    cases hi : is_dnd_widget (walk_up event.source) <;>
    simp_all [nbtk_widget_dnd_enter_event_cb, leave_last_dest, g_object_weak_unref,
      g_object_weak_ref]
  split <;> simp_all

theorem motion_cb_alternates (env : Env) (widget child n : Nat) (event : ClutterEvent)
    (w : World) (last : Option Signal) (hinv : dest_tracks n last w)
    (hm : w.priv.dnd_motion = true) :
    alternates n last (nbtk_widget_child_dnd_motion_cb env widget child event w).emitted = true
    ∧ dest_tracks n
        (last_after n last (nbtk_widget_child_dnd_motion_cb env widget child event w).emitted)
        (nbtk_widget_child_dnd_motion_cb env widget child event w).world
    ∧ begun (nbtk_widget_child_dnd_motion_cb env widget child event w).world := by
  unfold dest_tracks begun at *
  by_cases hq : below_threshold (wrap_gint (event.x - w.priv.dnd_x))
      (wrap_gint (event.y - w.priv.dnd_y)) w.priv.dnd_threshold = true
  · simp only [nbtk_widget_child_dnd_motion_cb, hq, if_true]
    exact ⟨rfl, hinv, Or.inl hm⟩
  · simp_all [nbtk_widget_child_dnd_motion_cb, alternates, last_after, enter_or_leave_to]

theorem release_cb_last_dest (env : Env) (widget child : Nat) (event : ClutterEvent) (w : World)
    (hq : ¬ (event.type != ClutterEventType.CLUTTER_BUTTON_RELEASE || event.button != 1) = true) :
    (nbtk_widget_child_dnd_release_cb env widget child event w).world.priv.dnd_last_dest
      = (if w.priv.dnd_motion then none else w.priv.dnd_last_dest)
    ∧ (w.priv.dnd_motion = false →
        (nbtk_widget_child_dnd_release_cb env widget child event w).emitted = []) := by
  cases hm : w.priv.dnd_motion <;> cases hg : w.priv.dnd_grab <;>
    cases hl : w.priv.dnd_last_dest <;> cases hc : w.priv.dnd_clone <;>
    by_cases hid : w.priv.dnd_enter_cb_id = 0 <;> cases hdr : w.priv.dnd_dragged <;>
    simp_all [nbtk_widget_child_dnd_release_cb, leave_last_dest, g_object_weak_unref,
      g_signal_handlers_disconnect_by_func, g_signal_handler_disconnect]

theorem release_cb_begun (env : Env) (widget child : Nat) (event : ClutterEvent) (w : World)
    (hok : world_ok widget child w) (hb : begun w) :
    begun (nbtk_widget_child_dnd_release_cb env widget child event w).world := by
  by_cases hq : (event.type != ClutterEventType.CLUTTER_BUTTON_RELEASE || event.button != 1) = true
  · simp only [nbtk_widget_child_dnd_release_cb, hq, if_true]
    exact hb
  · right
    intro hd hmem hcb
    have hh := release_cb_handlers env widget child event w hq hd hmem
    exact hh.2 ⟨(hok.2 hd hh.1).2, hcb, (hok.2 hd hh.1).1⟩

theorem release_cb_alternates (env : Env) (widget child n : Nat) (event : ClutterEvent)
    (w : World) (last : Option Signal) (hinv : dest_tracks n last w) :
    alternates n last (nbtk_widget_child_dnd_release_cb env widget child event w).emitted = true
    ∧ dest_tracks n
        (last_after n last (nbtk_widget_child_dnd_release_cb env widget child event w).emitted)
        (nbtk_widget_child_dnd_release_cb env widget child event w).world := by
  by_cases hq : (event.type != ClutterEventType.CLUTTER_BUTTON_RELEASE || event.button != 1) = true
  · simp only [nbtk_widget_child_dnd_release_cb, hq, if_true]
    exact ⟨rfl, hinv⟩
  · have hld := release_cb_last_dest env widget child event w hq
    unfold dest_tracks at *
    rw [hld.1]
    cases hm : w.priv.dnd_motion with
    | false =>
      rw [hld.2 hm]
      simpa [alternates, last_after] using hinv
    | true =>
      have hq2 : event.type = ClutterEventType.CLUTTER_BUTTON_RELEASE ∧ event.button = 1 := by
        simpa using hq
      rw [(release_cb_emitted env widget child event w hq2.1 hq2.2 hm).1]
      obtain ⟨h1, h2⟩ := hinv
      cases hd : actor_id (release_walk (env.actor_at_pos event.x event.y)) <;>
        cases hl : w.priv.dnd_last_dest
      · simp_all [alternates, last_after, enter_or_leave_to]
      · rename_i l
        by_cases hln : l = n <;> simp_all [alternates, last_after, enter_or_leave_to]
      · simp_all [alternates, last_after, enter_or_leave_to]
      · rename_i d l
        by_cases hln : l = n <;> simp_all [alternates, last_after, enter_or_leave_to]

theorem run_handler_alternates (env : Env) (widget child n : Nat) (hd : Handler)
    (event : ClutterEvent) (w : World) (last : Option Signal) (hmem : hd ∈ w.handlers)
    (hok : world_ok widget child w) (hcb : hd.callback ≠ Callback.press_cb) (hb : begun w)
    (hinv : dest_tracks n last w) :
    alternates n last (run_handler env hd event w).emitted = true
    ∧ dest_tracks n (last_after n last (run_handler env hd event w).emitted)
        (run_handler env hd event w).world
    ∧ begun (run_handler env hd event w).world := by
  unfold run_handler
  rw [(hok.2 hd hmem).1, (hok.2 hd hmem).2]
  cases hc : hd.callback
  · exact absurd hc hcb
  · have hm : w.priv.dnd_motion = true := by
      rcases hb with hb | hb
      · exact hb
      · exact absurd hc (hb hd hmem)
    exact motion_cb_alternates env widget child n event w last hinv hm
  · exact ⟨(release_cb_alternates env widget child n event w last hinv).1,
      (release_cb_alternates env widget child n event w last hinv).2,
      release_cb_begun env widget child event w hok hb⟩
  · exact ⟨(enter_cb_alternates widget n event w last hinv).1,
      (enter_cb_alternates widget n event w last hinv).2,
      enter_cb_begun widget event w hb⟩

theorem emit_handlers_alternates (env : Env) (widget child n : Nat) (event : ClutterEvent)
    (last : Option Signal) (hs : List Handler) :
    ∀ (w : World) (acc : List Emission), (∀ h ∈ hs, h.callback ≠ Callback.press_cb) →
      world_ok widget child w → begun w →
      alternates n last acc = true → dest_tracks n (last_after n last acc) w →
      alternates n last (emit_handlers env event hs w acc).emitted = true
      ∧ dest_tracks n (last_after n last (emit_handlers env event hs w acc).emitted)
          (emit_handlers env event hs w acc).world
      ∧ begun (emit_handlers env event hs w acc).world := by
  induction hs with
  | nil => intro w acc _ _ hb hacc hinv; exact ⟨hacc, hinv, hb⟩
  | cons hd rest ih =>
    intro w acc hcb h hb hacc hinv
    have hcb1 := hcb hd (List.mem_cons_self _ _)
    have hcb2 : ∀ h ∈ rest, h.callback ≠ Callback.press_cb :=
      fun h hh => hcb h (List.mem_cons_of_mem _ hh)
    unfold emit_handlers
    by_cases hmem : hd ∈ w.handlers
    · have hok := run_handler_ok env widget child hd event w hmem h
      have hq := run_handler_alternates env widget child n hd event w _ hmem h hcb1 hb hinv
      have hacc2 : alternates n last (acc ++ (run_handler env hd event w).emitted) = true := by
        rw [alternates_append, hacc, hq.1]; rfl
      have hinv2 : dest_tracks n
          (last_after n last (acc ++ (run_handler env hd event w).emitted))
          (run_handler env hd event w).world := by
        rw [last_after_append]; exact hq.2.1
      by_cases hh : (run_handler env hd event w).handled = true
      · simpa [hmem, hh] using And.intro hacc2 (And.intro hinv2 hq.2.2)
      · simpa [hmem, hh] using ih _ _ hcb2 hok hq.2.2 hacc2 hinv2
    · simpa [hmem] using ih w acc hcb2 h hb hacc hinv

theorem step_alternates (env : Env) (widget child n : Nat) (i : Input) (w : World)
    (last : Option Signal) (h : world_ok widget child w) (hb : begun w)
    (hinv : dest_tracks n last w) (hp : is_press i = false) (hd : is_dispose i = false) :
    alternates n last (step env i w).2 = true
    ∧ dest_tracks n (last_after n last (step env i w).2) (step env i w).1
    ∧ begun (step env i w).1 := by
  cases i with
  | event actor e =>
    have hcb : ∀ h ∈ w.handlers.filter (fun h => h.actor == actor
        && callback_of_event e.type == some h.callback), h.callback ≠ Callback.press_cb := by
      intro h hh hc
      simp [hc] at hh
      simp [is_press] at hp
      cases ht : e.type <;> simp_all [callback_of_event]
    exact emit_handlers_alternates env widget child n e last _ w [] hcb h hb rfl hinv
  | dispose obj => simp [is_dispose] at hd

/-- While a drag is going on, and after it has ended, no actor receives
dnd-enter twice in a row or dnd-leave twice in a row, whatever enter, motion
and release events follow. -/
theorem dragging_enter_leave_alternate (env : Env) (widget child n : Nat)
    (inputs : List Input) :
    ∀ (w : World) (last : Option Signal), world_ok widget child w → begun w →
      dest_tracks n last w →
      (∀ i ∈ inputs, is_press i = false ∧ is_dispose i = false) →
      alternates n last (run env inputs w).2.flatten = true := by
  induction inputs with
  | nil => intro w last _ _ _ _; rfl
  | cons i rest ih =>
    intro w last h hb hinv hi
    have hi1 := hi i (List.mem_cons_self _ _)
    have hq := step_alternates env widget child n i w last h hb hinv hi1.1 hi1.2
    have hrest := ih _ _ (step_ok env widget child i w h) hq.2.2 hq.2.1
      (fun j hj => hi j (List.mem_cons_of_mem _ hj))
    simp only [run, List.flatten_cons, alternates_append, hq.1, hrest, Bool.and_self]

/-- From the moment a drag has begun in a session of a new widget, the dnd-enter
and dnd-leave signals of every actor alternate over the enter, motion and
release events that follow. -/
theorem dragging_phase_alternates (env : Env) (widget child threshold : Nat)
    (icon : Option Nat) (history later : List Input) (n : Nat)
    (hdrag : (run env history (world_start widget child threshold icon)).1.priv.dnd_motion = true)
    (hlater : ∀ i ∈ later, is_press i = false ∧ is_dispose i = false) :
    alternates n none
      (run env later (run env history (world_start widget child threshold icon)).1).2.flatten
      = true :=
  dragging_enter_leave_alternate env widget child n later _ none
    (run_ok env widget child history _ (world_start_ok widget child threshold icon))
    (Or.inl hdrag) ⟨nofun, nofun⟩ hlater

/-! ## The press takes the pointer grab -/

/-- Claim C14 as stated fails: while the child of the example widget is dragged
with the last point at (12, 0) and threshold 10, the motion to (15, 0) is
dropped: the callback returns FALSE, emits nothing and leaves the proxy where
it was. -/
theorem motion_cb_drops_small_motion_while_dragging :
    example_dragging.priv.dnd_motion = true
    ∧ nbtk_widget_child_dnd_motion_cb empty_scene 1 2 (motion 15 0) example_dragging
      = ⟨example_dragging, false, []⟩ := by
  decide

/-- Claim C14, amended: while Dragging, a motion event whose displacement from
the last handled point, read as unsigned, is below the threshold on both axes
is ignored (FALSE, no emission, state unchanged); every other motion event
moves the proxy by that displacement when `dnd_clone` points to one and moves
nothing when `dnd_clone` is `NULL`, records the point and emits exactly one
dnd-motion to the widget with (child, proxy, x, y). -/
theorem motion_cb_while_dragging (env : Env) (widget child : Nat) (event : ClutterEvent)
    (w : World) (hm : w.priv.dnd_motion = true) :
    (below_threshold (wrap_gint (event.x - w.priv.dnd_x)) (wrap_gint (event.y - w.priv.dnd_y))
        w.priv.dnd_threshold = true →
      nbtk_widget_child_dnd_motion_cb env widget child event w = ⟨w, false, []⟩)
    ∧ (below_threshold (wrap_gint (event.x - w.priv.dnd_x)) (wrap_gint (event.y - w.priv.dnd_y))
        w.priv.dnd_threshold = false →
      (nbtk_widget_child_dnd_motion_cb env widget child event w).handled = true
      ∧ (nbtk_widget_child_dnd_motion_cb env widget child event w).emitted
          = [⟨widget, Signal.DND_MOTION, some child, w.priv.dnd_clone, event.x, event.y⟩]
      ∧ (w.priv.dnd_clone.isSome = true →
          (nbtk_widget_child_dnd_motion_cb env widget child event w).world.proxy.x
            = w.proxy.x + wrap_gint (event.x - w.priv.dnd_x)
          ∧ (nbtk_widget_child_dnd_motion_cb env widget child event w).world.proxy.y
            = w.proxy.y + wrap_gint (event.y - w.priv.dnd_y))
      ∧ (w.priv.dnd_clone = none →
          (nbtk_widget_child_dnd_motion_cb env widget child event w).world.proxy = w.proxy)
      ∧ (nbtk_widget_child_dnd_motion_cb env widget child event w).world.priv.dnd_x = event.x
      ∧ (nbtk_widget_child_dnd_motion_cb env widget child event w).world.priv.dnd_y = event.y) := by
  constructor
  · intro hb
    simp [nbtk_widget_child_dnd_motion_cb, hb]
  · intro hb
    refine ⟨?_, ?_, ?_, ?_, ?_, ?_⟩
    · simp [nbtk_widget_child_dnd_motion_cb, hb, hm]
    · simp [nbtk_widget_child_dnd_motion_cb, hb, hm]
    · intro hc
      simp [nbtk_widget_child_dnd_motion_cb, hb, hm, hc]
    · intro hc
      simp [nbtk_widget_child_dnd_motion_cb, hb, hm, hc]
    · simp [nbtk_widget_child_dnd_motion_cb, hb, hm]
    · simp [nbtk_widget_child_dnd_motion_cb, hb, hm]

/-- Claim C14, amended, at the motion from (12, 0) to (30, 0) in the example
drag. -/
theorem motion_cb_while_dragging_witness :
    (nbtk_widget_child_dnd_motion_cb empty_scene 1 2 (motion 30 0) example_dragging).emitted
      = [⟨1, Signal.DND_MOTION, some 2, example_dragging.priv.dnd_clone, 30, 0⟩] :=
  ((motion_cb_while_dragging empty_scene 1 2 (motion 30 0) example_dragging (by decide)).2
    (by decide)).2.1

/-! ## Release while Armed -/

/-- When the release callback does run on a primary release while `dnd_motion`
is not set, it returns FALSE, emits nothing, clears `dnd_grab` and
`dnd_dragged`, releases the pointer if it was grabbed and disconnects the
motion handler of the child. -/
theorem release_cb_armed (env : Env) (widget child : Nat) (event : ClutterEvent) (w : World)
    (ht : event.type = ClutterEventType.CLUTTER_BUTTON_RELEASE) (hb : event.button = 1)
    (hm : w.priv.dnd_motion = false) :
    (nbtk_widget_child_dnd_release_cb env widget child event w).handled = false
    ∧ (nbtk_widget_child_dnd_release_cb env widget child event w).emitted = []
    ∧ (nbtk_widget_child_dnd_release_cb env widget child event w).world.priv.dnd_grab = false
    ∧ (nbtk_widget_child_dnd_release_cb env widget child event w).world.priv.dnd_dragged = none
    ∧ (w.priv.dnd_grab = true →
        (nbtk_widget_child_dnd_release_cb env widget child event w).world.pointer_grab = none)
    ∧ (∀ h ∈ (nbtk_widget_child_dnd_release_cb env widget child event w).world.handlers,
        ¬ (h.actor = child ∧ h.callback = Callback.motion_cb ∧ h.data = widget)) := by
  have hq : ¬ (event.type != ClutterEventType.CLUTTER_BUTTON_RELEASE || event.button != 1) = true := by
    simp [ht, hb]
  refine ⟨?_, ?_, ?_, ?_, ?_, fun h hh => (release_cb_handlers env widget child event w hq h hh).2⟩
  · simp [nbtk_widget_child_dnd_release_cb, ht, hb, hm]
  · simp [nbtk_widget_child_dnd_release_cb, ht, hb, hm]
  · simp [nbtk_widget_child_dnd_release_cb, ht, hb, hm, g_signal_handlers_disconnect_by_func]
  · simp [nbtk_widget_child_dnd_release_cb, ht, hb, hm, g_signal_handlers_disconnect_by_func]
  · intro hg
    simp [nbtk_widget_child_dnd_release_cb, ht, hb, hm, hg, g_signal_handlers_disconnect_by_func]

/-- Claim C15, at the failing input: a new draggable child, a qualifying press,
then a button 1 release. No release handler is connected yet (the motion
callback connects it when a drag begins), so the release reaches no callback:
afterwards `dnd_grab` is still set, the pointer is still grabbed by the child,
`dnd_dragged` is still the child and the motion handler is still connected. -/
theorem release_while_armed_reaches_no_handler :
    (run empty_scene [Input.event 2 (button_press 0 0 1 1)] example_world).1.priv.dnd_motion = false
    ∧ (run empty_scene [Input.event 2 (button_press 0 0 1 1), Input.event 2 (button_release 0 0 1)]
        example_world).1
      = (run empty_scene [Input.event 2 (button_press 0 0 1 1)] example_world).1
    ∧ (run empty_scene [Input.event 2 (button_press 0 0 1 1), Input.event 2 (button_release 0 0 1)]
        example_world).1.priv.dnd_grab = true
    ∧ (run empty_scene [Input.event 2 (button_press 0 0 1 1), Input.event 2 (button_release 0 0 1)]
        example_world).1.pointer_grab = some 2
    ∧ (run empty_scene [Input.event 2 (button_press 0 0 1 1), Input.event 2 (button_release 0 0 1)]
        example_world).1.priv.dnd_dragged = some 2
    ∧ (⟨2, 2, Callback.motion_cb, 1⟩ : Handler) ∈
        (run empty_scene [Input.event 2 (button_press 0 0 1 1), Input.event 2 (button_release 0 0 1)]
          example_world).1.handlers := by
  decide

/-! ## A press during a session -/

/-- Claim C17 at the failing input: threshold 10, press at (0, 0), motion to
(12, 0), which begins the drag, then a second qualifying press at (50, 50) and
a motion to (70, 50). The second press is not ignored: it returns TRUE,
records the new point, clears `dnd_motion`, grabs the pointer again and
connects two more handlers, overwriting `dnd_enter_cb_id`. The next motion
then begins a second drag: the motion callback finds a last destination set
and logs its warning, dnd-begin is emitted a second time with no dnd-end in
between, and `dnd_clone` is overwritten with a second clone while the first one
is still a child of the stage. The release that follows removes only the
second clone and disconnects only the second enter handler, so the first clone
and the first enter handler stay. The same happens with a single pointer
button, where the release of the first press reaches no handler. -/
theorem second_press_begins_second_drag :
    example_dragging.priv.dnd_motion = true
    ∧ example_dragging.warnings = 0
    ∧ (nbtk_widget_child_dnd_press_cb 1 2 (button_press 50 50 1 1) example_dragging).handled = true
    ∧ (nbtk_widget_child_dnd_press_cb 1 2 (button_press 50 50 1 1) example_dragging).world.priv.dnd_motion
        = false
    ∧ (nbtk_widget_child_dnd_press_cb 1 2 (button_press 50 50 1 1) example_dragging).world.priv.dnd_x
        = 50
    ∧ (nbtk_widget_child_dnd_press_cb 1 2 (button_press 50 50 1 1) example_dragging).world.handlers.length
        = example_dragging.handlers.length + 2
    ∧ count_signal Signal.DND_BEGIN (run empty_scene second_press_inputs example_world).2.flatten = 2
    ∧ count_signal Signal.DND_END (run empty_scene second_press_inputs example_world).2.flatten = 0
    ∧ (run empty_scene second_press_inputs example_world).1.warnings = 1
    ∧ (run empty_scene second_press_inputs example_world).1.priv.dnd_enter_cb_id = 6
    ∧ (run empty_scene second_press_inputs example_world).1.handlers
        = [⟨1, 2, Callback.press_cb, 1⟩, ⟨2, 2, Callback.motion_cb, 1⟩,
           ⟨3, 2, Callback.enter_event_cb, 1⟩, ⟨4, 2, Callback.release_cb, 1⟩,
           ⟨5, 2, Callback.motion_cb, 1⟩, ⟨6, 2, Callback.enter_event_cb, 1⟩,
           ⟨7, 2, Callback.release_cb, 1⟩]
    ∧ (run empty_scene second_press_inputs example_world).1.priv.dnd_clone = some 13
    ∧ (run empty_scene second_press_inputs example_world).1.stage = [3, 13]
    ∧ (run empty_scene (second_press_inputs ++ [Input.event 2 (button_release 70 50 1)])
        example_world).1.stage = [3]
    ∧ (run empty_scene (second_press_inputs ++ [Input.event 2 (button_release 70 50 1)])
        example_world).1.handlers
        = [⟨1, 2, Callback.press_cb, 1⟩, ⟨3, 2, Callback.enter_event_cb, 1⟩,
           ⟨4, 2, Callback.release_cb, 1⟩, ⟨7, 2, Callback.release_cb, 1⟩]
    ∧ count_signal Signal.DND_BEGIN
        (run empty_scene press_release_press_inputs example_world).2.flatten = 2
    ∧ count_signal Signal.DND_END
        (run empty_scene press_release_press_inputs example_world).2.flatten = 0
    ∧ (run empty_scene press_release_press_inputs example_world).1.warnings = 1 := by
  decide

/-- A qualifying press is handled the same way whether or not a session is
active: it returns TRUE, records the new press point, clears `dnd_motion`,
sets `dnd_dragged` to the child, grabs the pointer and connects one more
motion handler and one more enter handler, whose id it stores; the proxy, the
stage and `dnd_clone` are left as they are; and the next motion that fails the
threshold test emits dnd-begin again. -/
theorem press_cb_during_session (env : Env) (widget child : Nat) (event : ClutterEvent)
    (w : World) (hq : 0 < w.priv.dnd_threshold ∧ event.button = 1 ∧ event.click_count ≤ 1) :
    (nbtk_widget_child_dnd_press_cb widget child event w).handled = true
    ∧ (nbtk_widget_child_dnd_press_cb widget child event w).world.priv.dnd_x = event.x
    ∧ (nbtk_widget_child_dnd_press_cb widget child event w).world.priv.dnd_y = event.y
    ∧ (nbtk_widget_child_dnd_press_cb widget child event w).world.priv.dnd_motion = false
    ∧ (nbtk_widget_child_dnd_press_cb widget child event w).world.priv.dnd_dragged = some child
    ∧ (nbtk_widget_child_dnd_press_cb widget child event w).world.handlers
        = w.handlers ++ [⟨w.next_handler_id, child, Callback.motion_cb, widget⟩,
                         ⟨w.next_handler_id + 1, child, Callback.enter_event_cb, widget⟩]
    ∧ (nbtk_widget_child_dnd_press_cb widget child event w).world.priv.dnd_enter_cb_id
        = w.next_handler_id + 1
    ∧ (nbtk_widget_child_dnd_press_cb widget child event w).world.priv.dnd_grab = true
    ∧ (nbtk_widget_child_dnd_press_cb widget child event w).world.pointer_grab = some child
    ∧ (nbtk_widget_child_dnd_press_cb widget child event w).world.proxy = w.proxy
    ∧ (nbtk_widget_child_dnd_press_cb widget child event w).world.stage = w.stage
    ∧ (nbtk_widget_child_dnd_press_cb widget child event w).world.priv.dnd_clone = w.priv.dnd_clone
    ∧ (∀ e : ClutterEvent,
        below_threshold (wrap_gint (e.x - event.x)) (wrap_gint (e.y - event.y))
          w.priv.dnd_threshold = false →
        count_signal Signal.DND_BEGIN
          (nbtk_widget_child_dnd_motion_cb env widget child e
            (nbtk_widget_child_dnd_press_cb widget child event w).world).emitted = 1) := by
  obtain ⟨h1, h2, h3⟩ := hq
  have ht : w.priv.dnd_threshold ≠ 0 := by omega
  have hc : ¬ (1 < event.click_count) := by omega
  have hx : (nbtk_widget_child_dnd_press_cb widget child event w).world.priv.dnd_x = event.x := by
    simp [nbtk_widget_child_dnd_press_cb, ht, h2, hc, g_signal_connect]
  have hy : (nbtk_widget_child_dnd_press_cb widget child event w).world.priv.dnd_y = event.y := by
    simp [nbtk_widget_child_dnd_press_cb, ht, h2, hc, g_signal_connect]
  have hm : (nbtk_widget_child_dnd_press_cb widget child event w).world.priv.dnd_motion = false := by
    simp [nbtk_widget_child_dnd_press_cb, ht, h2, hc, g_signal_connect]
  have hth : (nbtk_widget_child_dnd_press_cb widget child event w).world.priv.dnd_threshold
      = w.priv.dnd_threshold := by
    simp [nbtk_widget_child_dnd_press_cb, ht, h2, hc, g_signal_connect]
  refine ⟨?_, hx, hy, hm, ?_, ?_, ?_, ?_, ?_, ?_, ?_, ?_, ?_⟩
  · simp [nbtk_widget_child_dnd_press_cb, ht, h2, hc]
  · simp [nbtk_widget_child_dnd_press_cb, ht, h2, hc, g_signal_connect]
  · simp [nbtk_widget_child_dnd_press_cb, ht, h2, hc, g_signal_connect]
  · simp [nbtk_widget_child_dnd_press_cb, ht, h2, hc, g_signal_connect]
  · simp [nbtk_widget_child_dnd_press_cb, ht, h2, hc, g_signal_connect]
  · simp [nbtk_widget_child_dnd_press_cb, ht, h2, hc, g_signal_connect]
  · simp [nbtk_widget_child_dnd_press_cb, ht, h2, hc, g_signal_connect]
  · simp [nbtk_widget_child_dnd_press_cb, ht, h2, hc, g_signal_connect]
  · simp [nbtk_widget_child_dnd_press_cb, ht, h2, hc, g_signal_connect]
  · intro e he
    have ha := (motion_cb_armed env widget child e _ hm).2
    rw [hx, hy, hth] at ha
    exact (ha he).1

/-- The second press of the example drag clears `dnd_motion`. -/
theorem press_cb_during_session_witness :
    (nbtk_widget_child_dnd_press_cb 1 2 (button_press 50 50 1 1) example_dragging).world.priv.dnd_motion
      = false :=
  (press_cb_during_session empty_scene 1 2 (button_press 50 50 1 1) example_dragging
    (by decide)).2.2.2.1

/-! ## The state after a release while dragging -/

theorem enter_cb_frame (widget : Nat) (event : ClutterEvent) (w : World) :
    (nbtk_widget_dnd_enter_event_cb widget event w).world.handlers = w.handlers
    ∧ (nbtk_widget_dnd_enter_event_cb widget event w).world.pointer_grab = w.pointer_grab
    ∧ (nbtk_widget_dnd_enter_event_cb widget event w).world.priv.dnd_grab = w.priv.dnd_grab
    ∧ (nbtk_widget_dnd_enter_event_cb widget event w).world.priv.dnd_motion = w.priv.dnd_motion
    ∧ (nbtk_widget_dnd_enter_event_cb widget event w).world.priv.dnd_clone = w.priv.dnd_clone
    ∧ ((w.priv.dnd_last_dest = none → w.priv.dnd_last_dest_data = none) →
        (nbtk_widget_dnd_enter_event_cb widget event w).world.priv.dnd_last_dest = none →
        (nbtk_widget_dnd_enter_event_cb widget event w).world.priv.dnd_last_dest_data = none) := by
  have h1 := is_dnd_widget_walk_up event.source
  unfold nbtk_widget_dnd_enter_event_cb
  cases hl : w.priv.dnd_last_dest with
  | none =>
    cases hd : actor_id (walk_up event.source) with
    | none => simp [h1, hd, hl, leave_last_dest]
    | some d => simp [h1, hd, hl, leave_last_dest, g_object_weak_ref]
  | some l =>
    cases hd : actor_id (walk_up event.source) with
    | none => simp [h1, hd, hl, leave_last_dest, g_object_weak_unref]
    | some d =>
      by_cases hdl : d = l
      · simp [h1, hd, hl, leave_last_dest, hdl]
      · simp [h1, hd, hl, leave_last_dest, hdl, g_object_weak_ref, g_object_weak_unref]

theorem enter_cb_session_ok (widget child : Nat) (event : ClutterEvent) (w : World)
    (hs : session_ok child w) :
    session_ok child (nbtk_widget_dnd_enter_event_cb widget event w).world := by
  unfold session_ok at *
  obtain ⟨h1, h2, h3⟩ := hs
  obtain ⟨f1, f2, f3, f4, f5, f6⟩ := enter_cb_frame widget event w
  rw [f1, f2, f3, f4, f5]
  exact ⟨f6 h1, h2, h3⟩

theorem press_cb_session_ok (widget child : Nat) (event : ClutterEvent) (w : World)
    (hs : session_ok child w) :
    session_ok child (nbtk_widget_child_dnd_press_cb widget child event w).world := by
  unfold session_ok at *
  by_cases hq : (w.priv.dnd_threshold == 0 || event.button != 1 || decide (event.click_count > 1)) = true
  · simp only [nbtk_widget_child_dnd_press_cb, hq, if_true]
    exact hs
  · obtain ⟨h1, h2, h3⟩ := hs
    simp only [nbtk_widget_child_dnd_press_cb, hq, g_signal_connect]
    simp
    exact h1

theorem motion_cb_session_ok (env : Env) (widget child : Nat) (event : ClutterEvent) (w : World)
    (hs : session_ok child w) (hconn : ∃ h ∈ w.handlers, h.callback = Callback.motion_cb) :
    session_ok child (nbtk_widget_child_dnd_motion_cb env widget child event w).world := by
  unfold session_ok at *
  obtain ⟨h1, h2, h3⟩ := hs
  have hg := h2 hconn
  by_cases hq : below_threshold (wrap_gint (event.x - w.priv.dnd_x))
      (wrap_gint (event.y - w.priv.dnd_y)) w.priv.dnd_threshold = true
  · simp only [nbtk_widget_child_dnd_motion_cb, hq, if_true]
    exact ⟨h1, h2, h3⟩
  · cases hm : w.priv.dnd_motion
    · cases hl : w.priv.dnd_last_dest <;>
        simp_all [nbtk_widget_child_dnd_motion_cb, g_object_weak_unref, g_object_weak_ref,
          g_signal_connect]
    · simp_all [nbtk_widget_child_dnd_motion_cb]

theorem release_cb_frame (env : Env) (widget child : Nat) (event : ClutterEvent) (w : World)
    (hq : ¬ (event.type != ClutterEventType.CLUTTER_BUTTON_RELEASE || event.button != 1) = true) :
    (nbtk_widget_child_dnd_release_cb env widget child event w).world.priv.dnd_motion = false
    ∧ (nbtk_widget_child_dnd_release_cb env widget child event w).world.priv.dnd_grab = false
    ∧ (nbtk_widget_child_dnd_release_cb env widget child event w).world.priv.dnd_dragged = none
    ∧ ((w.priv.dnd_last_dest = none → w.priv.dnd_last_dest_data = none) →
        (nbtk_widget_child_dnd_release_cb env widget child event w).world.priv.dnd_last_dest = none →
        (nbtk_widget_child_dnd_release_cb env widget child event w).world.priv.dnd_last_dest_data
          = none) := by
  cases hm : w.priv.dnd_motion <;> cases hg : w.priv.dnd_grab <;>
    cases hl : w.priv.dnd_last_dest <;> cases hc : w.priv.dnd_clone <;>
    by_cases hid : w.priv.dnd_enter_cb_id = 0 <;> cases hdr : w.priv.dnd_dragged <;>
    simp_all [nbtk_widget_child_dnd_release_cb, leave_last_dest, g_object_weak_unref,
      g_signal_handlers_disconnect_by_func, g_signal_handler_disconnect]

theorem release_cb_session_ok (env : Env) (widget child : Nat) (event : ClutterEvent) (w : World)
    (hok : world_ok widget child w) (hs : session_ok child w) :
    session_ok child (nbtk_widget_child_dnd_release_cb env widget child event w).world := by
  by_cases hq : (event.type != ClutterEventType.CLUTTER_BUTTON_RELEASE || event.button != 1) = true
  · simp only [nbtk_widget_child_dnd_release_cb, hq, if_true]
    exact hs
  · have hh := release_cb_handlers env widget child event w hq
    obtain ⟨f1, f2, f3, f4⟩ := release_cb_frame env widget child event w hq
    unfold session_ok at *
    obtain ⟨h1, h2, h3⟩ := hs
    refine ⟨f4 h1, ?_, ?_⟩
    · intro ⟨h, hmem, hcb⟩
      exact absurd ⟨(hok.2 h (hh h hmem).1).2, hcb, (hok.2 h (hh h hmem).1).1⟩ (hh h hmem).2
    · intro hm
      rw [f1] at hm
      cases hm

theorem run_handler_session_ok (env : Env) (widget child : Nat) (hd : Handler)
    (event : ClutterEvent) (w : World) (hmem : hd ∈ w.handlers)
    (hok : world_ok widget child w) (hs : session_ok child w) :
    session_ok child (run_handler env hd event w).world := by
  unfold run_handler
  rw [(hok.2 hd hmem).1, (hok.2 hd hmem).2]
  cases hc : hd.callback
  · exact press_cb_session_ok widget child event w hs
  · exact motion_cb_session_ok env widget child event w hs ⟨hd, hmem, hc⟩
  · exact release_cb_session_ok env widget child event w hok hs
  · exact enter_cb_session_ok widget child event w hs

theorem emit_handlers_session_ok (env : Env) (widget child : Nat) (event : ClutterEvent)
    (hs : List Handler) :
    ∀ (w : World) (acc : List Emission), world_ok widget child w → session_ok child w →
      session_ok child (emit_handlers env event hs w acc).world := by
  induction hs with
  | nil => intro w acc _ h; exact h
  | cons hd rest ih =>
    intro w acc hok h
    unfold emit_handlers
    by_cases hmem : hd ∈ w.handlers
    · have hok2 := run_handler_ok env widget child hd event w hmem hok
      have hs2 := run_handler_session_ok env widget child hd event w hmem hok h
      by_cases hh : (run_handler env hd event w).handled = true
      · simpa [hmem, hh] using hs2
      · simpa [hmem, hh] using ih _ _ hok2 hs2
    · simpa [hmem] using ih w acc hok h

theorem dispose_session_ok (child obj : Nat) (w : World) (hs : session_ok child w) :
    session_ok child (g_object_dispose obj w) := by
  unfold session_ok at *
  unfold g_object_dispose
  by_cases hmem : obj ∈ w.weak_refs
  · simp only [hmem, if_true, nbtk_widget_dnd_last_dest_weak_cb]
    exact ⟨fun _ => trivial, hs.2.1, hs.2.2⟩
  · simp only [hmem, if_false]
    exact hs

/-- The session invariant holds along every run in which the widget itself is
not disposed of. -/
theorem run_session_ok (env : Env) (widget child : Nat) (inputs : List Input) :
    ∀ w : World, world_ok widget child w → session_ok child w →
      (∀ i ∈ inputs, i ≠ Input.dispose w.widget) →
      session_ok child (run env inputs w).1 := by
  induction inputs with
  | nil => intro w _ h _; exact h
  | cons i rest ih =>
    intro w hok h hnd
    refine ih _ (step_ok env widget child i w hok) ?_ ?_
    · cases i with
      | event actor e => exact emit_handlers_session_ok env widget child e _ w [] hok h
      | dispose obj =>
        have hne : obj ≠ w.widget := fun hc => hnd _ (List.mem_cons_self _ _) (by rw [hc])
        rw [step_dispose_other env obj w hne]
        exact dispose_session_ok child obj w h
    · intro j hj
      rw [step_widget]
      exact hnd j (List.mem_cons_of_mem _ hj)

theorem world_start_session_ok (widget child threshold : Nat) (icon : Option Nat) :
    session_ok child (world_start widget child threshold icon) := by
  unfold session_ok world_start nbtk_widget_setup_child_dnd
  simp [g_signal_connect, world_new, priv_new]

theorem enter_cb_release_connected (widget : Nat) (event : ClutterEvent) (w : World)
    (hs : release_connected w) :
    release_connected (nbtk_widget_dnd_enter_event_cb widget event w).world := by
  unfold release_connected at *
  obtain ⟨f1, _, _, f4, _, _⟩ := enter_cb_frame widget event w
  rw [f1, f4]
  exact hs

theorem press_cb_release_connected (widget child : Nat) (event : ClutterEvent) (w : World)
    (hs : release_connected w) :
    release_connected (nbtk_widget_child_dnd_press_cb widget child event w).world := by
  unfold release_connected at *
  by_cases hq : (w.priv.dnd_threshold == 0 || event.button != 1 || decide (event.click_count > 1)) = true
  · simp only [nbtk_widget_child_dnd_press_cb, hq, if_true]
    exact hs
  · simp only [nbtk_widget_child_dnd_press_cb, hq, g_signal_connect]
    simp

theorem motion_cb_release_connected (env : Env) (widget child : Nat) (event : ClutterEvent)
    (w : World) (hs : release_connected w) :
    release_connected (nbtk_widget_child_dnd_motion_cb env widget child event w).world := by
  unfold release_connected at *
  by_cases hq : below_threshold (wrap_gint (event.x - w.priv.dnd_x))
      (wrap_gint (event.y - w.priv.dnd_y)) w.priv.dnd_threshold = true
  · simp only [nbtk_widget_child_dnd_motion_cb, hq, if_true]
    exact hs
  · cases hm : w.priv.dnd_motion
    · cases hl : w.priv.dnd_last_dest <;>
        simp [nbtk_widget_child_dnd_motion_cb, hq, hm, hl, g_object_weak_unref, g_object_weak_ref,
          g_signal_connect] <;>
        exact ⟨_, Or.inr rfl, rfl⟩
    · simp_all [nbtk_widget_child_dnd_motion_cb]

theorem release_cb_release_connected (env : Env) (widget child : Nat) (event : ClutterEvent)
    (w : World) (hs : release_connected w) :
    release_connected (nbtk_widget_child_dnd_release_cb env widget child event w).world := by
  by_cases hq : (event.type != ClutterEventType.CLUTTER_BUTTON_RELEASE || event.button != 1) = true
  · simp only [nbtk_widget_child_dnd_release_cb, hq, if_true]
    exact hs
  · intro hm
    rw [(release_cb_frame env widget child event w hq).1] at hm
    cases hm

theorem run_handler_release_connected (env : Env) (hd : Handler) (event : ClutterEvent)
    (w : World) (hs : release_connected w) :
    release_connected (run_handler env hd event w).world := by
  unfold run_handler
  cases hc : hd.callback
  · exact press_cb_release_connected _ _ event w hs
  · exact motion_cb_release_connected env _ _ event w hs
  · exact release_cb_release_connected env _ _ event w hs
  · exact enter_cb_release_connected _ event w hs

theorem emit_handlers_release_connected (env : Env) (event : ClutterEvent) (hs : List Handler) :
    ∀ (w : World) (acc : List Emission), release_connected w →
      release_connected (emit_handlers env event hs w acc).world := by
  induction hs with
  | nil => intro w acc h; exact h
  | cons hd rest ih =>
    intro w acc h
    unfold emit_handlers
    by_cases hmem : hd ∈ w.handlers
    · have hs2 := run_handler_release_connected env hd event w h
      by_cases hh : (run_handler env hd event w).handled = true
      · simpa [hmem, hh] using hs2
      · simpa [hmem, hh] using ih _ _ hs2
    · simpa [hmem] using ih w acc h

theorem dispose_release_connected (obj : Nat) (w : World) (hs : release_connected w) :
    release_connected (g_object_dispose obj w) := by
  unfold release_connected at *
  unfold g_object_dispose
  by_cases hmem : obj ∈ w.weak_refs
  · simp only [hmem, if_true, nbtk_widget_dnd_last_dest_weak_cb]
    exact hs
  · simp only [hmem, if_false]
    exact hs

theorem run_release_connected (env : Env) (inputs : List Input) :
    ∀ w : World, release_connected w → release_connected (run env inputs w).1 := by
  induction inputs with
  | nil => intro w h; exact h
  | cons i rest ih =>
    intro w h
    refine ih _ ?_
    cases i with
    | event actor e => exact emit_handlers_release_connected env e _ w [] h
    | dispose obj =>
      by_cases hw : obj = w.widget
      · rw [step_dispose_widget env obj w hw]
        obtain ⟨w3, he, f1, _, _, _, f5, _⟩ := widget_dispose_frame obj w
        rw [he]
        apply dispose_release_connected
        unfold release_connected at *
        rw [f1, f5]
        exact h
      · rw [step_dispose_other env obj w hw]
        exact dispose_release_connected obj w h

theorem world_start_release_connected (widget child threshold : Nat) (icon : Option Nat) :
    release_connected (world_start widget child threshold icon) := by
  unfold release_connected world_start nbtk_widget_setup_child_dnd
  simp [g_signal_connect, world_new, priv_new]

/-- Delivery of a primary release to the child while `dnd_motion` is set and a
release handler is connected runs the release callback once: the first
release handler returns TRUE and the emission stops there. -/
theorem release_event_runs_release_cb (env : Env) (widget child : Nat) (event : ClutterEvent)
    (w : World) (hok : world_ok widget child w)
    (hc : ∃ h ∈ w.handlers, h.callback = Callback.release_cb)
    (ht : event.type = ClutterEventType.CLUTTER_BUTTON_RELEASE) (hb : event.button = 1)
    (hm : w.priv.dnd_motion = true) :
    clutter_actor_event env child event w
      = ⟨(nbtk_widget_child_dnd_release_cb env widget child event w).world, true,
         (nbtk_widget_child_dnd_release_cb env widget child event w).emitted⟩ := by
  obtain ⟨h0, hmem0, hcb0⟩ := hc
  unfold clutter_actor_event
  simp only [ht, callback_of_event]
  have hin : h0 ∈ w.handlers.filter
      (fun h => h.actor == child && some Callback.release_cb == some h.callback) := by
    rw [List.mem_filter]
    refine ⟨hmem0, ?_⟩
    simp [(hok.2 h0 hmem0).2, hcb0]
  cases hL : w.handlers.filter
      (fun h => h.actor == child && some Callback.release_cb == some h.callback) with
  | nil => rw [hL] at hin; cases hin
  | cons h rest =>
    have hmemL : h ∈ w.handlers.filter
        (fun h => h.actor == child && some Callback.release_cb == some h.callback) := by
      rw [hL]; exact List.mem_cons_self _ _
    rw [List.mem_filter] at hmemL
    obtain ⟨hmem, hp⟩ := hmemL
    have hcb : h.callback = Callback.release_cb := by
      simp at hp
      exact hp.2.symm
    have hrun : run_handler env h event w
        = nbtk_widget_child_dnd_release_cb env widget child event w := by
      unfold run_handler
      rw [hcb, (hok.2 h hmem).1, (hok.2 h hmem).2]
    have hh := (release_cb_emitted env widget child event w ht hb hm).2
    unfold emit_handlers
    simp [hmem, hrun, hh]

/-- In every world reached from a new widget, without a disposal of the widget,
in which a drag is going on, a primary release handled by the release callback
leaves every session field reset: `dnd_motion` and `dnd_grab` false and the
pointer released, `dnd_clone` none and the proxy out of its parent,
`dnd_dragged` none, `dnd_last_dest` and `dnd_last_dest_data` none with no weak
reference left, `dnd_enter_cb_id` 0, and no motion handler connected; the enter
handler whose id was stored in `dnd_enter_cb_id` is disconnected when the
dragged actor is the child, and every handler left was connected before; and
the delivery of the release event to the child runs exactly this callback,
once. Enter handlers connected by earlier presses are not disconnected. -/
theorem release_cb_resets_session (env : Env) (widget child threshold : Nat)
    (icon : Option Nat) (history : List Input) (event : ClutterEvent)
    (hnd : ∀ i ∈ history, keeps_widget widget i = true)
    (hdrag : (run env history (world_start widget child threshold icon)).1.priv.dnd_motion = true)
    (ht : event.type = ClutterEventType.CLUTTER_BUTTON_RELEASE) (hb : event.button = 1) :
    (nbtk_widget_child_dnd_release_cb env widget child event
        (run env history (world_start widget child threshold icon)).1).handled = true
    ∧ (nbtk_widget_child_dnd_release_cb env widget child event
        (run env history (world_start widget child threshold icon)).1).world.priv
      = { (run env history (world_start widget child threshold icon)).1.priv with
            dnd_motion := false, dnd_grab := false, dnd_clone := none, dnd_dragged := none,
            dnd_last_dest := none, dnd_last_dest_data := none, dnd_enter_cb_id := 0 }
    ∧ (nbtk_widget_child_dnd_release_cb env widget child event
        (run env history (world_start widget child threshold icon)).1).world.pointer_grab = none
    ∧ (nbtk_widget_child_dnd_release_cb env widget child event
        (run env history (world_start widget child threshold icon)).1).world.proxy.parented = false
    ∧ (nbtk_widget_child_dnd_release_cb env widget child event
        (run env history (world_start widget child threshold icon)).1).world.weak_refs = []
    ∧ (∀ h ∈ (nbtk_widget_child_dnd_release_cb env widget child event
        (run env history (world_start widget child threshold icon)).1).world.handlers,
        h.callback ≠ Callback.motion_cb
        ∧ h ∈ (run env history (world_start widget child threshold icon)).1.handlers
        ∧ ((run env history (world_start widget child threshold icon)).1.priv.dnd_dragged
              = some child →
            (run env history (world_start widget child threshold icon)).1.priv.dnd_enter_cb_id ≠ 0 →
            h.id ≠ (run env history (world_start widget child threshold icon)).1.priv.dnd_enter_cb_id))
    ∧ clutter_actor_event env child event (run env history (world_start widget child threshold icon)).1
      = ⟨(nbtk_widget_child_dnd_release_cb env widget child event
            (run env history (world_start widget child threshold icon)).1).world, true,
         (nbtk_widget_child_dnd_release_cb env widget child event
            (run env history (world_start widget child threshold icon)).1).emitted⟩ := by
  have hok := run_ok env widget child history _ (world_start_ok widget child threshold icon)
  have hrc := run_release_connected env history _
    (world_start_release_connected widget child threshold icon)
  have hs := run_session_ok env widget child history _
    (world_start_ok widget child threshold icon) (world_start_session_ok widget child threshold icon)
    (by
      intro i hi hc
      have hk := hnd i hi
      rw [hc, world_start_widget] at hk
      simp [keeps_widget] at hk)
  generalize (run env history (world_start widget child threshold icon)).1 = w at *
  have hq : ¬ (event.type != ClutterEventType.CLUTTER_BUTTON_RELEASE || event.button != 1) = true := by
    simp [ht, hb]
  obtain ⟨h1, h2, h3⟩ := hs
  obtain ⟨hg, hp, hc⟩ := h3 hdrag
  have hrefs := hok.1
  refine ⟨(release_cb_emitted env widget child event w ht hb hdrag).2, ?_, ?_, ?_, ?_, ?_,
    release_event_runs_release_cb env widget child event w hok (hrc hdrag) ht hb hdrag⟩
  · cases hl : w.priv.dnd_last_dest <;> cases hcl : w.priv.dnd_clone <;>
      by_cases hid : w.priv.dnd_enter_cb_id = 0 <;> cases hdr : w.priv.dnd_dragged <;>
      simp_all [nbtk_widget_child_dnd_release_cb, leave_last_dest, g_object_weak_unref,
        g_signal_handlers_disconnect_by_func, g_signal_handler_disconnect]
  · cases hl : w.priv.dnd_last_dest <;> cases hcl : w.priv.dnd_clone <;>
      by_cases hid : w.priv.dnd_enter_cb_id = 0 <;> cases hdr : w.priv.dnd_dragged <;>
      simp_all [nbtk_widget_child_dnd_release_cb, leave_last_dest, g_object_weak_unref,
        g_signal_handlers_disconnect_by_func, g_signal_handler_disconnect]
  · cases hl : w.priv.dnd_last_dest <;> cases hcl : w.priv.dnd_clone <;>
      by_cases hid : w.priv.dnd_enter_cb_id = 0 <;> cases hdr : w.priv.dnd_dragged <;>
      simp_all [nbtk_widget_child_dnd_release_cb, leave_last_dest, g_object_weak_unref,
        g_signal_handlers_disconnect_by_func, g_signal_handler_disconnect]
  · cases hl : w.priv.dnd_last_dest <;> cases hcl : w.priv.dnd_clone <;>
      by_cases hid : w.priv.dnd_enter_cb_id = 0 <;> cases hdr : w.priv.dnd_dragged <;>
      simp_all [nbtk_widget_child_dnd_release_cb, leave_last_dest, g_object_weak_unref,
        g_signal_handlers_disconnect_by_func, g_signal_handler_disconnect]
  · intro h hmem
    have hh := release_cb_handlers env widget child event w hq h hmem
    refine ⟨fun hcb => hh.2 ⟨(hok.2 h hh.1).2, hcb, (hok.2 h hh.1).1⟩, hh.1, ?_⟩
    intro hdr hid hc
    have hact := (hok.2 h hh.1).2
    cases hl : w.priv.dnd_last_dest <;> cases hcl : w.priv.dnd_clone <;>
      simp_all [nbtk_widget_child_dnd_release_cb, leave_last_dest, g_object_weak_unref,
        g_signal_handlers_disconnect_by_func, g_signal_handler_disconnect]

/-- The release that ends the example drag releases the pointer. -/
theorem release_cb_resets_session_example :
    (nbtk_widget_child_dnd_release_cb empty_scene 1 2 (button_release 12 0 1)
        (run empty_scene [Input.event 2 (button_press 0 0 1 1), Input.event 2 (motion 12 0)]
          (world_start 1 2 10 none)).1).world.pointer_grab = none :=
  (release_cb_resets_session empty_scene 1 2 10 none
    [Input.event 2 (button_press 0 0 1 1), Input.event 2 (motion 12 0)] (button_release 12 0 1)
    (by decide) (by decide) (by decide) (by decide)).2.2.1

/-- Claim C16 at the failing input: threshold 10, a click on the child (press at
(0, 0) and the release of the button, which reaches no handler) followed by a
drag (press at (0, 0), motion to (12, 0)) and the release at (12, 0) that ends
it. The release returns TRUE and emits the dnd-leave of the widget and then
dnd-end; afterwards every field the claim lists is reset, no proxy is on the
stage, and both motion handlers and the enter handler of the second press
(id 5, the one recorded in `dnd_enter_cb_id`) are disconnected. The enter
handler of the first press (id 3) is still connected, so the engine is not back
in Idle: when the pointer then enters the drop-capable actor 7, the handler
emits dnd-enter to it with no dragged actor and no proxy and makes it the last
destination, with a weak reference on it. After a drag that no click
precedes, the same release leaves no enter handler and the same enter event
emits nothing. -/
theorem release_leaves_earlier_enter_handler :
    (run empty_scene click_then_drag_inputs example_world).1.priv.dnd_motion = true
    ∧ (run empty_scene click_then_drag_inputs example_world).1.priv.dnd_enter_cb_id = 5
    ∧ (run empty_scene click_then_drag_inputs example_world).1.handlers
        = [⟨1, 2, Callback.press_cb, 1⟩, ⟨2, 2, Callback.motion_cb, 1⟩,
           ⟨3, 2, Callback.enter_event_cb, 1⟩, ⟨4, 2, Callback.motion_cb, 1⟩,
           ⟨5, 2, Callback.enter_event_cb, 1⟩, ⟨6, 2, Callback.release_cb, 1⟩]
    ∧ (step empty_scene (Input.event 2 (button_release 12 0 1))
        (run empty_scene click_then_drag_inputs example_world).1).2
        = [⟨1, Signal.DND_LEAVE, some 2, some 3, 12, 0⟩,
           ⟨1, Signal.DND_END, some 2, some 3, 12, 0⟩]
    ∧ (step empty_scene (Input.event 2 (button_release 12 0 1))
        (run empty_scene click_then_drag_inputs example_world).1).1.priv
        = { dnd_last_dest := none, dnd_last_dest_data := none, dnd_clone := none,
            dnd_dragged := none, dnd_icon := none, dnd_threshold := 10, dnd_x := 12, dnd_y := 0,
            dnd_enter_cb_id := 0, dnd_motion := false, dnd_grab := false }
    ∧ (step empty_scene (Input.event 2 (button_release 12 0 1))
        (run empty_scene click_then_drag_inputs example_world).1).1.pointer_grab = none
    ∧ (step empty_scene (Input.event 2 (button_release 12 0 1))
        (run empty_scene click_then_drag_inputs example_world).1).1.stage = []
    ∧ (step empty_scene (Input.event 2 (button_release 12 0 1))
        (run empty_scene click_then_drag_inputs example_world).1).1.weak_refs = []
    ∧ (step empty_scene (Input.event 2 (button_release 12 0 1))
        (run empty_scene click_then_drag_inputs example_world).1).1.handlers
        = [⟨1, 2, Callback.press_cb, 1⟩, ⟨3, 2, Callback.enter_event_cb, 1⟩,
           ⟨6, 2, Callback.release_cb, 1⟩]
    ∧ (step empty_scene (Input.event 2 (enter 20 0 [actor_b]))
        (step empty_scene (Input.event 2 (button_release 12 0 1))
          (run empty_scene click_then_drag_inputs example_world).1).1).2
        = [⟨7, Signal.DND_ENTER, none, none, 20, 0⟩]
    ∧ (step empty_scene (Input.event 2 (enter 20 0 [actor_b]))
        (step empty_scene (Input.event 2 (button_release 12 0 1))
          (run empty_scene click_then_drag_inputs example_world).1).1).1.priv.dnd_last_dest = some 7
    ∧ (step empty_scene (Input.event 2 (enter 20 0 [actor_b]))
        (step empty_scene (Input.event 2 (button_release 12 0 1))
          (run empty_scene click_then_drag_inputs example_world).1).1).1.weak_refs = [7]
    ∧ (step empty_scene (Input.event 2 (button_release 12 0 1)) example_dragging).1.handlers
        = [⟨1, 2, Callback.press_cb, 1⟩, ⟨4, 2, Callback.release_cb, 1⟩]
    ∧ (step empty_scene (Input.event 2 (enter 20 0 [actor_b]))
        (step empty_scene (Input.event 2 (button_release 12 0 1)) example_dragging).1).2 = [] := by
  decide

/-! ## Destination resolution -/

theorem release_walk_eq_walk_up (chain : List Actor) : release_walk chain = walk_up chain := by
  cases chain with
  | nil => rfl
  | cons a rest => simp [walk_up, release_walk]

theorem walk_up_head (chain : List Actor) :
    (walk_up chain).head? = nearest_dnd_widget chain := by
  induction chain with
  | nil => rfl
  | cons a rest ih =>
    unfold nearest_dnd_widget at *
    cases h : (a.is_widget && decide (0 < a.dnd_threshold)) with
    | false => simpa [walk_up, not_dnd_widget_eq, h, List.find?_cons] using ih
    | true => simp [walk_up, not_dnd_widget_eq, h, List.find?_cons]

theorem walk_up_skipped (chain : List Actor) :
    ∃ skipped : List Actor, chain = skipped ++ walk_up chain
      ∧ ∀ a ∈ skipped, ¬ (a.is_widget = true ∧ 0 < a.dnd_threshold) := by
  induction chain with
  | nil => exact ⟨[], rfl, by simp⟩
  | cons a rest ih =>
    obtain ⟨skipped, hs1, hs2⟩ := ih
    cases h : (a.is_widget && decide (0 < a.dnd_threshold)) with
    | false =>
      refine ⟨a :: skipped, ?_, ?_⟩
      · simp [walk_up, not_dnd_widget_eq, h]
        exact hs1
      · intro b hb
        rcases List.mem_cons.mp hb with hb | hb
        · subst hb
          simpa using h
        · exact hs2 b hb
    | true =>
      exact ⟨[], by simp [walk_up, not_dnd_widget_eq, h], by simp⟩

/-- Claim C18: on every parent chain the walk of the enter callback and the walk
of the release callback stop at the same actor, which is the nearest
ancestor-or-self of the hit actor that is a widget with a positive
`dnd_threshold`, or at `NULL` when the chain has none; the test that follows
the walk in the enter callback accepts exactly the case where there is one; and
every actor passed over before the result is not such a widget. -/
theorem destination_walks_agree (chain : List Actor) :
    walk_up chain = release_walk chain
    ∧ (walk_up chain).head? = nearest_dnd_widget chain
    ∧ (release_walk chain).head? = nearest_dnd_widget chain
    ∧ is_dnd_widget (walk_up chain) = (nearest_dnd_widget chain).isSome
    ∧ (nearest_dnd_widget chain = none ↔
        ∀ a ∈ chain, ¬ (a.is_widget = true ∧ 0 < a.dnd_threshold))
    ∧ ∃ skipped : List Actor, chain = skipped ++ walk_up chain
        ∧ ∀ a ∈ skipped, ¬ (a.is_widget = true ∧ 0 < a.dnd_threshold) := by
  refine ⟨(release_walk_eq_walk_up chain).symm, walk_up_head chain,
    by rw [release_walk_eq_walk_up]; exact walk_up_head chain, ?_, ?_, walk_up_skipped chain⟩
  · rw [is_dnd_widget_walk_up, walk_up_eq_nearest]
    cases nearest_dnd_widget chain <;> rfl
  · unfold nearest_dnd_widget
    simp [List.find?_eq_none]

/-- Claim C19 as stated fails: actor 8 is a widget with threshold 5 whose
`dnd_disabled` flag is set; when the pointer enters it during the example drag
it becomes the last destination and receives dnd-enter, and a release over it
sends it dnd-dropped. -/
theorem dnd_disabled_actor_is_chosen :
    actor_disabled.dnd_disabled = true
    ∧ (nbtk_widget_dnd_enter_event_cb 1 (enter 12 0 [actor_disabled])
        example_dragging).world.priv.dnd_last_dest = some 8
    ∧ emissions_of Signal.DND_ENTER
        (nbtk_widget_dnd_enter_event_cb 1 (enter 12 0 [actor_disabled]) example_dragging).emitted
      = [⟨8, Signal.DND_ENTER, some 2, some 3, 12, 0⟩]
    ∧ emissions_of Signal.DND_DROPPED
        (nbtk_widget_child_dnd_release_cb disabled_scene 1 2
          (button_release 12 0 1) example_dragging).emitted
      = [⟨8, Signal.DND_DROPPED, some 2, some 3, 12, 0⟩] := by
  decide

/-- Claim C19, amended: destination resolution does not read the per-child
`dnd_disabled` flag: on motion and on release the actor chosen is the nearest
ancestor-or-self that is a widget with a positive `dnd_threshold`, whatever the
flags on the chain are. The flag only decides whether
`nbtk_widget_setup_child_dnd` connects the press handler, that is whether the
child can be dragged. -/
theorem destination_ignores_dnd_disabled (flag : Actor → Bool) (chain : List Actor) :
    actor_id (walk_up (with_dnd_disabled flag chain)) = actor_id (walk_up chain)
    ∧ actor_id (release_walk (with_dnd_disabled flag chain)) = actor_id (release_walk chain)
    ∧ actor_id (walk_up chain) = (nearest_dnd_widget chain).map (fun a => a.id)
    ∧ actor_id (release_walk chain) = (nearest_dnd_widget chain).map (fun a => a.id)
    ∧ (∀ (widget child : Nat) (w : World),
        nbtk_widget_setup_child_dnd widget child (some true) w = w
        ∧ (nbtk_widget_setup_child_dnd widget child (some false) w).handlers
            = w.handlers ++ [⟨w.next_handler_id, child, Callback.press_cb, widget⟩]) := by
  have hw : actor_id (walk_up (with_dnd_disabled flag chain)) = actor_id (walk_up chain) := by
    induction chain with
    | nil => rfl
    | cons a rest ih =>
      unfold with_dnd_disabled at *
      by_cases h : not_dnd_widget a = true
      · have h2 : not_dnd_widget { a with dnd_disabled := flag a } = true := by
          simpa [not_dnd_widget] using h
        simpa [walk_up, h, h2] using ih
      · have h2 : ¬ not_dnd_widget { a with dnd_disabled := flag a } = true := by
          simpa [not_dnd_widget] using h
        simp [walk_up, h, h2, actor_id]
  refine ⟨hw, by rw [release_walk_eq_walk_up, release_walk_eq_walk_up]; exact hw, walk_up_eq_nearest chain, release_walk_eq_nearest chain, ?_⟩
  intro widget child w
  simp [nbtk_widget_setup_child_dnd, g_signal_connect]

/-! ## The default dropped handler -/

/-- Claim C20: the default dropped handler of an actor calls no handler when the
actor has no strict ancestor that is a widget; otherwise the first handler it
calls is the class handler of the nearest such ancestor, if that handler is
not NULL. Every call passes (dragged, icon, x, y) unchanged to a strict ancestor
that is a widget, so never to the actor itself, and when every widget has the
default handler the calls are one per widget ancestor, in order from the
nearest one to the root, and then stop. -/
theorem default_dropped_goes_up (klass : Nat → DropHandler) (actor : List Actor)
    (dragged icon : Option Nat) (x y : Int) :
    (nearest_widget_ancestor actor = none →
      nbtk_widget_dnd_dropped klass actor dragged icon x y = [])
    ∧ (∀ p : Actor, nearest_widget_ancestor actor = some p →
        (nbtk_widget_dnd_dropped klass actor dragged icon x y).head?
          = (if klass p.id = DropHandler.no_handler then none
             else some ⟨p.id, klass p.id, dragged, icon, x, y⟩))
    ∧ (∀ c ∈ nbtk_widget_dnd_dropped klass actor dragged icon x y,
        c.dragged = dragged ∧ c.icon = icon ∧ c.x = x ∧ c.y = y ∧ c.handler = klass c.target
        ∧ ∃ a ∈ actor.tail, a.id = c.target ∧ a.is_widget = true)
    ∧ ((∀ a ∈ actor.tail, a.id ∉ (actor.head?.map (fun s => s.id)).toList) →
        ∀ c ∈ nbtk_widget_dnd_dropped klass actor dragged icon x y,
          some c.target ≠ actor.head?.map (fun s => s.id))
    ∧ ((∀ n, klass n = DropHandler.widget_default) →
        nbtk_widget_dnd_dropped klass actor dragged icon x y
          = (actor.tail.filter (fun a => a.is_widget)).map
              (fun a => ⟨a.id, DropHandler.widget_default, dragged, icon, x, y⟩)) := by
  unfold nbtk_widget_dnd_dropped nearest_widget_ancestor
  generalize actor.tail = parents
  have hmem : ∀ c ∈ dnd_dropped_from klass dragged icon x y parents,
      c.dragged = dragged ∧ c.icon = icon ∧ c.x = x ∧ c.y = y ∧ c.handler = klass c.target
      ∧ ∃ a ∈ parents, a.id = c.target ∧ a.is_widget = true := by
    induction parents with
    | nil => intro c hc; simp [dnd_dropped_from] at hc
    | cons p rest ih =>
      intro c hc
      cases hw : p.is_widget with
      | false =>
        simp [dnd_dropped_from, hw] at hc
        obtain ⟨h1, h2, h3, h4, h5, a, ha, hid, hwa⟩ := ih c hc
        exact ⟨h1, h2, h3, h4, h5, a, List.mem_cons_of_mem _ ha, hid, hwa⟩
      | true =>
        cases hk : klass p.id with
        | no_handler => simp [dnd_dropped_from, hw, hk] at hc
        | subclass k =>
          simp [dnd_dropped_from, hw, hk] at hc
          subst hc
          exact ⟨rfl, rfl, rfl, rfl, hk.symm, p, List.mem_cons_self _ _, rfl, hw⟩
        | widget_default =>
          simp [dnd_dropped_from, hw, hk] at hc
          rcases hc with hc | hc
          · subst hc
            exact ⟨rfl, rfl, rfl, rfl, hk.symm, p, List.mem_cons_self _ _, rfl, hw⟩
          · obtain ⟨h1, h2, h3, h4, h5, a, ha, hid, hwa⟩ := ih c hc
            exact ⟨h1, h2, h3, h4, h5, a, List.mem_cons_of_mem _ ha, hid, hwa⟩
  refine ⟨?_, ?_, hmem, ?_, ?_⟩
  · intro hnone
    induction parents with
    | nil => rfl
    | cons p rest ih =>
      cases hw : p.is_widget with
      | false =>
        simp [List.find?_cons, hw] at hnone
        simp only [dnd_dropped_from, hw]
        exact ih (fun c hc => by
          obtain ⟨h1, h2, h3, h4, h5, a, ha, hid, hwa⟩ := hmem c (by
            simpa [dnd_dropped_from, hw] using hc)
          rcases List.mem_cons.mp ha with ha | ha
          · subst ha; rw [hw] at hwa; cases hwa
          · exact ⟨h1, h2, h3, h4, h5, a, ha, hid, hwa⟩) (by simpa using hnone)
      | true => simp [List.find?_cons, hw] at hnone
  · intro p hp
    induction parents with
    | nil => simp at hp
    | cons q rest ih =>
      cases hw : q.is_widget with
      | false =>
        simp [List.find?_cons, hw] at hp
        simp only [dnd_dropped_from, hw]
        exact ih (fun c hc => by
          obtain ⟨h1, h2, h3, h4, h5, a, ha, hid, hwa⟩ := hmem c (by
            simpa [dnd_dropped_from, hw] using hc)
          rcases List.mem_cons.mp ha with ha | ha
          · subst ha; rw [hw] at hwa; cases hwa
          · exact ⟨h1, h2, h3, h4, h5, a, ha, hid, hwa⟩) hp
      | true =>
        simp [List.find?_cons, hw] at hp
        subst hp
        cases hk : klass q.id <;> simp [dnd_dropped_from, hw, hk]
  · intro hself c hc heq
    obtain ⟨_, _, _, _, _, a, ha, hid, _⟩ := hmem c hc
    apply hself a ha
    rw [hid]
    rw [← heq]
    simp
  · intro hall
    clear hmem
    induction parents with
    | nil => rfl
    | cons p rest ih =>
      cases hw : p.is_widget with
      | false => simpa [dnd_dropped_from, hw] using ih
      | true => simpa [dnd_dropped_from, hw, hall p.id] using ih

/-- The calls of the default dropped handler in full: going up the widget
ancestors, it calls the default handler of each one until it meets a widget
whose class handler is not the default one, calls that handler unless it is
NULL, and stops. -/
theorem default_dropped_calls (klass : Nat → DropHandler) (dragged icon : Option Nat)
    (x y : Int) (parents : List Actor) :
    dnd_dropped_from klass dragged icon x y parents
      = (((parents.filter (fun a => a.is_widget)).takeWhile
            (fun a => klass a.id == DropHandler.widget_default)).map
          (fun a => ⟨a.id, DropHandler.widget_default, dragged, icon, x, y⟩))
        ++ (match ((parents.filter (fun a => a.is_widget)).dropWhile
              (fun a => klass a.id == DropHandler.widget_default)).head? with
            | some p =>
              if klass p.id = DropHandler.no_handler then []
              else [⟨p.id, klass p.id, dragged, icon, x, y⟩]
            | none => []) := by
  induction parents with
  | nil => rfl
  | cons p rest ih =>
    cases hw : p.is_widget with
    | false => simpa [dnd_dropped_from, hw] using ih
    | true =>
      cases hk : klass p.id with
      | no_handler => simp [dnd_dropped_from, hw, hk, List.takeWhile, List.dropWhile]
      | subclass k => simp [dnd_dropped_from, hw, hk, List.takeWhile, List.dropWhile]
      | widget_default =>
        simp only [dnd_dropped_from, hw, hk, ih]
        simp [hw, hk, List.takeWhile, List.dropWhile]

/-- Example of the default dropped handler: actor 6 sits in widget 9, whose
threshold is 0 and whose class handler is the default one, inside widget 7,
whose class installs its own handler. The default handler of actor 6 calls the
handler of widget 9, which calls the handler of widget 7. -/
theorem default_dropped_example :
    nbtk_widget_dnd_dropped
        (fun n => if n = 7 then DropHandler.subclass 1 else DropHandler.widget_default)
        [actor_texture, actor_plain_widget, actor_b] (some 2) (some 3) 12 0
      = [⟨9, DropHandler.widget_default, some 2, some 3, 12, 0⟩,
         ⟨7, DropHandler.subclass 1, some 2, some 3, 12, 0⟩] := by
  decide

/-! ## Every leave follows an entry -/

theorem leaves_follow_entry_append (a b : List Emission) :
    ∀ cur : Option Nat,
      leaves_follow_entry cur (a ++ b)
        = (leaves_follow_entry cur a && leaves_follow_entry (entered_after cur a) b) := by
  induction a with
  | nil => intro cur; simp [leaves_follow_entry, entered_after]
  | cons e rest ih => intro cur; simp [leaves_follow_entry, entered_after, ih, Bool.and_assoc]

theorem entered_after_append (a b : List Emission) :
    ∀ cur : Option Nat,
      entered_after cur (a ++ b) = entered_after (entered_after cur a) b := by
  induction a with
  | nil => intro cur; simp [entered_after]
  | cons e rest ih => intro cur; simp [entered_after, ih]

theorem enter_cb_entered (widget : Nat) (event : ClutterEvent) (w : World) (cur : Option Nat)
    (hinv : dest_entered cur w) :
    leaves_follow_entry cur (nbtk_widget_dnd_enter_event_cb widget event w).emitted = true
    ∧ dest_entered (entered_after cur (nbtk_widget_dnd_enter_event_cb widget event w).emitted)
        (nbtk_widget_dnd_enter_event_cb widget event w).world := by
  unfold dest_entered at *
  rw [enter_cb_last_dest, (enter_cb_emitted widget event w).1]
  cases hl : w.priv.dnd_last_dest with
  | none =>
    cases hd : (nearest_dnd_widget event.source).map (fun a => a.id) with
    | none => simp_all [leaves_follow_entry, entered_after]
    | some d => simp_all [leaves_follow_entry, entered_after, entry_step]
  | some l =>
    have hc := hinv l hl
    cases hd : (nearest_dnd_widget event.source).map (fun a => a.id) with
    | none => simp_all [leaves_follow_entry, entered_after, entry_step]
    | some d =>
      by_cases hdl : d = l
      · simp_all [leaves_follow_entry, entered_after]
      · simp_all [leaves_follow_entry, entered_after, entry_step]

theorem press_cb_entered (widget child : Nat) (event : ClutterEvent) (w : World)
    (cur : Option Nat) (hinv : dest_entered cur w) :
    leaves_follow_entry cur (nbtk_widget_child_dnd_press_cb widget child event w).emitted = true
    ∧ dest_entered (entered_after cur (nbtk_widget_child_dnd_press_cb widget child event w).emitted)
        (nbtk_widget_child_dnd_press_cb widget child event w).world := by
  unfold dest_entered at *
  by_cases hq : (w.priv.dnd_threshold == 0 || event.button != 1 || decide (event.click_count > 1)) = true
  · simp only [nbtk_widget_child_dnd_press_cb, hq, if_true]
    exact ⟨rfl, hinv⟩
  · simp only [nbtk_widget_child_dnd_press_cb, hq, g_signal_connect]
    simpa [leaves_follow_entry, entered_after] using hinv

theorem motion_cb_entered (env : Env) (widget child : Nat) (event : ClutterEvent) (w : World)
    (cur : Option Nat) (hinv : dest_entered cur w) :
    leaves_follow_entry cur (nbtk_widget_child_dnd_motion_cb env widget child event w).emitted = true
    ∧ dest_entered
        (entered_after cur (nbtk_widget_child_dnd_motion_cb env widget child event w).emitted)
        (nbtk_widget_child_dnd_motion_cb env widget child event w).world := by
  unfold dest_entered at *
  by_cases hq : below_threshold (wrap_gint (event.x - w.priv.dnd_x))
      (wrap_gint (event.y - w.priv.dnd_y)) w.priv.dnd_threshold = true
  · simp only [nbtk_widget_child_dnd_motion_cb, hq, if_true]
    exact ⟨rfl, hinv⟩
  · cases hm : w.priv.dnd_motion
    · cases hl : w.priv.dnd_last_dest <;>
        simp [nbtk_widget_child_dnd_motion_cb, hq, hm, hl, g_object_weak_unref, g_object_weak_ref,
          g_signal_connect, leaves_follow_entry, entered_after, entry_step]
    · simpa [nbtk_widget_child_dnd_motion_cb, hq, hm, leaves_follow_entry, entered_after,
        entry_step] using hinv

theorem release_cb_entered (env : Env) (widget child : Nat) (event : ClutterEvent) (w : World)
    (cur : Option Nat) (hinv : dest_entered cur w) :
    leaves_follow_entry cur (nbtk_widget_child_dnd_release_cb env widget child event w).emitted = true
    ∧ dest_entered
        (entered_after cur (nbtk_widget_child_dnd_release_cb env widget child event w).emitted)
        (nbtk_widget_child_dnd_release_cb env widget child event w).world := by
  by_cases hq : (event.type != ClutterEventType.CLUTTER_BUTTON_RELEASE || event.button != 1) = true
  · simp only [nbtk_widget_child_dnd_release_cb, hq, if_true]
    exact ⟨rfl, hinv⟩
  · have hld := release_cb_last_dest env widget child event w hq
    unfold dest_entered at *
    rw [hld.1]
    cases hm : w.priv.dnd_motion with
    | false =>
      rw [hld.2 hm]
      simpa [leaves_follow_entry, entered_after] using hinv
    | true =>
      have hq2 : event.type = ClutterEventType.CLUTTER_BUTTON_RELEASE ∧ event.button = 1 := by
        simpa using hq
      rw [(release_cb_emitted env widget child event w hq2.1 hq2.2 hm).1]
      cases hd : actor_id (release_walk (env.actor_at_pos event.x event.y)) <;>
        cases hl : w.priv.dnd_last_dest
      · simp [leaves_follow_entry, entered_after, entry_step]
      · rename_i l
        have hc := hinv l hl
        simp [leaves_follow_entry, entered_after, entry_step, hc]
      · simp [leaves_follow_entry, entered_after, entry_step]
      · rename_i d l
        have hc := hinv l hl
        simp [leaves_follow_entry, entered_after, entry_step, hc]

theorem run_handler_entered (env : Env) (hd : Handler) (event : ClutterEvent) (w : World)
    (cur : Option Nat) (hinv : dest_entered cur w) :
    leaves_follow_entry cur (run_handler env hd event w).emitted = true
    ∧ dest_entered (entered_after cur (run_handler env hd event w).emitted)
        (run_handler env hd event w).world := by
  unfold run_handler
  cases hc : hd.callback
  · exact press_cb_entered _ _ event w cur hinv
  · exact motion_cb_entered env _ _ event w cur hinv
  · exact release_cb_entered env _ _ event w cur hinv
  · exact enter_cb_entered _ event w cur hinv

theorem emit_handlers_entered (env : Env) (event : ClutterEvent) (cur : Option Nat)
    (hs : List Handler) :
    ∀ (w : World) (acc : List Emission),
      leaves_follow_entry cur acc = true → dest_entered (entered_after cur acc) w →
      leaves_follow_entry cur (emit_handlers env event hs w acc).emitted = true
      ∧ dest_entered (entered_after cur (emit_handlers env event hs w acc).emitted)
          (emit_handlers env event hs w acc).world := by
  induction hs with
  | nil => intro w acc hacc hinv; exact ⟨hacc, hinv⟩
  | cons hd rest ih =>
    intro w acc hacc hinv
    unfold emit_handlers
    by_cases hmem : hd ∈ w.handlers
    · have hq := run_handler_entered env hd event w _ hinv
      have hacc2 : leaves_follow_entry cur (acc ++ (run_handler env hd event w).emitted) = true := by
        rw [leaves_follow_entry_append, hacc, hq.1]; rfl
      have hinv2 : dest_entered
          (entered_after cur (acc ++ (run_handler env hd event w).emitted))
          (run_handler env hd event w).world := by
        rw [entered_after_append]; exact hq.2
      by_cases hh : (run_handler env hd event w).handled = true
      · simpa [hmem, hh] using And.intro hacc2 hinv2
      · simpa [hmem, hh] using ih _ _ hacc2 hinv2
    · simpa [hmem] using ih w acc hacc hinv

theorem dispose_entered (obj : Nat) (w : World) (cur : Option Nat) (hinv : dest_entered cur w) :
    dest_entered cur (g_object_dispose obj w) := by
  unfold dest_entered at *
  unfold g_object_dispose
  by_cases hmem : obj ∈ w.weak_refs
  · simp [hmem, nbtk_widget_dnd_last_dest_weak_cb]
  · simpa [hmem] using hinv

theorem run_entered (env : Env) (inputs : List Input) :
    ∀ (w : World) (cur : Option Nat), dest_entered cur w →
      leaves_follow_entry cur (run env inputs w).2.flatten = true := by
  induction inputs with
  | nil => intro w cur _; rfl
  | cons i rest ih =>
    intro w cur hinv
    cases i with
    | event actor e =>
      have hq := emit_handlers_entered env e cur
        (w.handlers.filter (fun h => h.actor == actor
          && callback_of_event e.type == some h.callback)) w [] rfl hinv
      have hrest := ih _ _ hq.2
      simp only [run, step, clutter_actor_event, List.flatten_cons, leaves_follow_entry_append]
      simp only [clutter_actor_event] at hq hrest
      rw [hq.1, hrest]
      rfl
    | dispose obj =>
      have hinv2 : dest_entered cur (step env (Input.dispose obj) w).1 := by
        by_cases hw : obj = w.widget
        · rw [step_dispose_widget env obj w hw]
          obtain ⟨w3, he, _, _, f3, _⟩ := widget_dispose_frame obj w
          rw [he]
          apply dispose_entered
          unfold dest_entered at *
          rw [f3]
          exact hinv
        · rw [step_dispose_other env obj w hw]
          exact dispose_entered obj w cur hinv
      have hrest := ih _ _ hinv2
      simp only [run, List.flatten_cons, step_dispose_emits_nothing, List.nil_append]
      exact hrest

/-- Claim C21 as stated fails: in the scenario (threshold 10, press at (0, 0),
motion to (12, 0), then the pointer enters the drop-capable actor 7) the
destination notifications are a dnd-leave to the widget, which never received
a dnd-enter, and then the dnd-enter to actor 7. -/
theorem first_enter_follows_leave_of_origin :
    destination_notifications
      (run drop_scene
        [Input.event 2 (button_press 0 0 1 1), Input.event 2 (motion 12 0),
         Input.event 2 (enter 12 0 [actor_b])] example_world).2.flatten
      = [⟨1, Signal.DND_LEAVE, some 2, some 3, 12, 0⟩,
         ⟨7, Signal.DND_ENTER, some 2, some 3, 12, 0⟩] := by
  decide

/-- Claim C21, amended: in every run of a new widget each dnd-leave goes to the
actor that was entered last and not left since, where an actor is entered by
a dnd-enter and the widget itself by the dnd-begin it receives, and dnd-end
leaves none entered. The motion that begins a drag makes the widget the last
destination without any dnd-enter or dnd-leave, so the first enter event over
another destination after it emits dnd-leave to the widget and then dnd-enter
to that destination. -/
theorem leaves_follow_enter_or_begin (env : Env) (widget child threshold : Nat)
    (icon : Option Nat) (history : List Input) (event : ClutterEvent) (w : World) :
    leaves_follow_entry none
      (run env history (world_start widget child threshold icon)).2.flatten = true
    ∧ ((w.priv.dnd_motion = false
        ∧ below_threshold (wrap_gint (event.x - w.priv.dnd_x)) (wrap_gint (event.y - w.priv.dnd_y))
            w.priv.dnd_threshold = false) →
      destination_notifications
          (nbtk_widget_child_dnd_motion_cb env widget child event w).emitted = []
      ∧ (nbtk_widget_child_dnd_motion_cb env widget child event w).world.priv.dnd_last_dest
          = some widget)
    ∧ (∀ b : Actor, (w.priv.dnd_last_dest = some widget ∧ b.is_widget = true
          ∧ 0 < b.dnd_threshold ∧ b.id ≠ widget ∧ event.source = [b]) →
        destination_notifications (nbtk_widget_dnd_enter_event_cb widget event w).emitted
          = [⟨widget, Signal.DND_LEAVE, w.priv.dnd_dragged, w.priv.dnd_clone, event.x, event.y⟩,
             ⟨b.id, Signal.DND_ENTER, w.priv.dnd_dragged, w.priv.dnd_clone, event.x, event.y⟩]) := by
  refine ⟨run_entered env history _ none ?_, ?_, ?_⟩
  · intro l hl
    simp [world_start, nbtk_widget_setup_child_dnd, g_signal_connect, world_new, priv_new] at hl
  · rintro ⟨hm, hb⟩
    cases hl : w.priv.dnd_last_dest <;>
      simp [nbtk_widget_child_dnd_motion_cb, hb, hm, hl, g_object_weak_unref, g_object_weak_ref,
        g_signal_connect, destination_notifications]
  · rintro b ⟨hl, hw, ht, hne, hs⟩
    have hnear : (nearest_dnd_widget event.source).map (fun a => a.id) = some b.id := by
      simp [nearest_dnd_widget, hs, List.find?_cons, hw, ht]
    rw [(enter_cb_emitted widget event w).1, hnear, hl]
    have hne2 : ¬ (some b.id = some widget) := by
      intro h
      exact hne (Option.some.inj h)
    simp [hne2, destination_notifications]

/-! ## The warning of the motion callback -/

/-- Claim C22, at the failing input (threshold 10): a qualifying press at
(0, 0), an enter event over the drop-capable actor 7 while the session is
still Armed, then the motion to (12, 0). Before that motion `dnd_motion` is
false, the threshold is reached and `dnd_last_dest` is actor 7, not none; the
motion begins the drag and counts one warning. -/
theorem last_destination_set_at_drag_begin :
    (run empty_scene
        [Input.event 2 (button_press 0 0 1 1), Input.event 2 (enter 5 0 [actor_b])]
        example_world).1.priv.dnd_motion = false
    ∧ (run empty_scene
        [Input.event 2 (button_press 0 0 1 1), Input.event 2 (enter 5 0 [actor_b])]
        example_world).1.priv.dnd_last_dest = some 7
    ∧ (run empty_scene
        [Input.event 2 (button_press 0 0 1 1), Input.event 2 (enter 5 0 [actor_b])]
        example_world).1.warnings = 0
    ∧ count_signal Signal.DND_BEGIN
        (nbtk_widget_child_dnd_motion_cb empty_scene 1 2 (motion 12 0)
          (run empty_scene
            [Input.event 2 (button_press 0 0 1 1), Input.event 2 (enter 5 0 [actor_b])]
            example_world).1).emitted = 1
    ∧ (run empty_scene
        [Input.event 2 (button_press 0 0 1 1), Input.event 2 (enter 5 0 [actor_b]),
         Input.event 2 (motion 12 0)]
        example_world).1.warnings = 1 := by
  decide

/-- The warning is counted exactly when the motion that begins a drag finds a
last destination set. -/
theorem motion_cb_warns_iff (env : Env) (widget child : Nat) (event : ClutterEvent) (w : World) :
    (nbtk_widget_child_dnd_motion_cb env widget child event w).world.warnings
      = (if below_threshold (wrap_gint (event.x - w.priv.dnd_x))
              (wrap_gint (event.y - w.priv.dnd_y)) w.priv.dnd_threshold = false
            ∧ w.priv.dnd_motion = false ∧ w.priv.dnd_last_dest ≠ none
         then w.warnings + 1 else w.warnings) := by
  by_cases hq : below_threshold (wrap_gint (event.x - w.priv.dnd_x))
      (wrap_gint (event.y - w.priv.dnd_y)) w.priv.dnd_threshold = true
  · simp [nbtk_widget_child_dnd_motion_cb, hq]
  · cases hm : w.priv.dnd_motion <;> cases hl : w.priv.dnd_last_dest <;>
      simp [nbtk_widget_child_dnd_motion_cb, hq, hm, hl, g_object_weak_unref, g_object_weak_ref,
        g_signal_connect]

/-! ## Disposal of the widget during a drag -/

/-- Claim C23 as stated fails: when widget 1 is disposed during the example
drag, and during the drag over actor 7, no dnd-end is emitted, `dnd_grab`
stays set and the pointer stays grabbed by the child; over actor 7 the last
destination and its weak reference stay as well. -/
theorem dispose_while_dragging_emits_no_end :
    example_dragging.priv.dnd_motion = true
    ∧ count_signal Signal.DND_END (nbtk_widget_dispose 1 example_dragging).2 = 0
    ∧ (nbtk_widget_dispose 1 example_dragging).1.priv.dnd_grab = true
    ∧ (nbtk_widget_dispose 1 example_dragging).1.pointer_grab = some 2
    ∧ example_over_b.priv.dnd_last_dest = some 7
    ∧ (nbtk_widget_dispose 1 example_over_b).1.priv.dnd_last_dest = some 7
    ∧ (nbtk_widget_dispose 1 example_over_b).1.weak_refs = [7] := by
  decide

/-- Claim C23, amended: the disposal of the widget, during a drag or not, emits
no signal; it forgets the custom icon, takes the proxy out of its parent and
forgets it, and releases the dragged actor. It leaves `dnd_motion`,
`dnd_grab`, the pointer grab and the connected handlers as they were, and it
clears the last destination only when that is the widget itself, whose weak
references the disposal drops. -/
theorem dispose_clears_references_only (widget : Nat) (w : World) :
    (nbtk_widget_dispose widget w).2 = []
    ∧ (nbtk_widget_dispose widget w).1.priv.dnd_icon = none
    ∧ (nbtk_widget_dispose widget w).1.priv.dnd_clone = none
    ∧ (w.priv.dnd_clone.isSome = true → (nbtk_widget_dispose widget w).1.proxy.parented = false)
    ∧ (nbtk_widget_dispose widget w).1.priv.dnd_dragged = none
    ∧ (nbtk_widget_dispose widget w).1.priv.dnd_motion = w.priv.dnd_motion
    ∧ (nbtk_widget_dispose widget w).1.priv.dnd_grab = w.priv.dnd_grab
    ∧ (nbtk_widget_dispose widget w).1.pointer_grab = w.pointer_grab
    ∧ (nbtk_widget_dispose widget w).1.handlers = w.handlers
    ∧ (nbtk_widget_dispose widget w).1.priv.dnd_last_dest
        = (if widget ∈ w.weak_refs then none else w.priv.dnd_last_dest)
    ∧ (nbtk_widget_dispose widget w).1.weak_refs = w.weak_refs.filter (fun o => o != widget) := by
  have hf : widget ∉ w.weak_refs → w.weak_refs.filter (fun o => o != widget) = w.weak_refs := by
    intro hmem
    rw [List.filter_eq_self]
    intro a ha
    have : a ≠ widget := fun h => hmem (h ▸ ha)
    simpa using this
  cases hc : w.priv.dnd_clone <;> by_cases hmem : widget ∈ w.weak_refs <;>
    simp [nbtk_widget_dispose, g_object_dispose, nbtk_widget_dnd_last_dest_weak_cb, hc, hmem, hf]

/-! ## The proxy follows the pointer -/

theorem small_coords_iff (e : ClutterEvent) :
    small_coords e = true ↔
      (-8388608 ≤ e.x ∧ e.x < 8388608 ∧ -8388608 ≤ e.y ∧ e.y < 8388608) := by
  simp [small_coords, and_assoc]

theorem enter_cb_point (widget : Nat) (event : ClutterEvent) (w : World) :
    (nbtk_widget_dnd_enter_event_cb widget event w).world.priv.dnd_x = w.priv.dnd_x
    ∧ (nbtk_widget_dnd_enter_event_cb widget event w).world.priv.dnd_y = w.priv.dnd_y
    ∧ (nbtk_widget_dnd_enter_event_cb widget event w).world.priv.dnd_motion = w.priv.dnd_motion
    ∧ (nbtk_widget_dnd_enter_event_cb widget event w).world.proxy = w.proxy := by
  have h1 := is_dnd_widget_walk_up event.source
  unfold nbtk_widget_dnd_enter_event_cb
  cases hl : w.priv.dnd_last_dest with
  | none =>
    cases hd : actor_id (walk_up event.source) with
    | none => simp [h1, hd, hl, leave_last_dest]
    | some d => simp [h1, hd, hl, leave_last_dest, g_object_weak_ref]
  | some l =>
    cases hd : actor_id (walk_up event.source) with
    | none => simp [h1, hd, hl, leave_last_dest, g_object_weak_unref]
    | some d =>
      by_cases hdl : d = l
      · simp [h1, hd, hl, leave_last_dest, hdl]
      · simp [h1, hd, hl, leave_last_dest, hdl, g_object_weak_ref, g_object_weak_unref]

theorem enter_cb_proxy_tracks (widget : Nat) (event : ClutterEvent) (w : World)
    (hs : proxy_tracks w) :
    proxy_tracks (nbtk_widget_dnd_enter_event_cb widget event w).world := by
  unfold proxy_tracks at *
  obtain ⟨f1, f2, f3, f4⟩ := enter_cb_point widget event w
  have f5 := (enter_cb_frame widget event w).2.2.2.2.1
  rw [f1, f2, f3, f4, f5]
  exact hs

theorem press_cb_proxy_tracks (widget child : Nat) (event : ClutterEvent) (w : World)
    (he : small_coords event = true) (hs : proxy_tracks w) :
    proxy_tracks (nbtk_widget_child_dnd_press_cb widget child event w).world := by
  rw [small_coords_iff] at he
  unfold proxy_tracks at *
  by_cases hq : (w.priv.dnd_threshold == 0 || event.button != 1 || decide (event.click_count > 1)) = true
  · simp only [nbtk_widget_child_dnd_press_cb, hq, if_true]
    exact hs
  · simp only [nbtk_widget_child_dnd_press_cb, hq, g_signal_connect]
    simpa using he

/-- A motion whose coordinates are small and that the callback handles leaves
`dnd_motion` set and the recorded point at the pointer; the proxy is at the
pointer when `dnd_clone` points to one, which it does when the motion begins
the drag or a proxy existed before. -/
theorem motion_cb_handled_point (env : Env) (widget child : Nat) (event : ClutterEvent)
    (w : World) (he : small_coords event = true) (hs : proxy_tracks w)
    (hr : (nbtk_widget_child_dnd_motion_cb env widget child event w).handled = true) :
    (nbtk_widget_child_dnd_motion_cb env widget child event w).world.priv.dnd_motion = true
    ∧ (nbtk_widget_child_dnd_motion_cb env widget child event w).world.priv.dnd_x = event.x
    ∧ (nbtk_widget_child_dnd_motion_cb env widget child event w).world.priv.dnd_y = event.y
    ∧ ((nbtk_widget_child_dnd_motion_cb env widget child event w).world.priv.dnd_clone.isSome = true →
        (nbtk_widget_child_dnd_motion_cb env widget child event w).world.proxy.x = event.x
        ∧ (nbtk_widget_child_dnd_motion_cb env widget child event w).world.proxy.y = event.y)
    ∧ ((w.priv.dnd_motion = true → w.priv.dnd_clone.isSome = true) →
        (nbtk_widget_child_dnd_motion_cb env widget child event w).world.priv.dnd_clone.isSome
          = true) := by
  rw [small_coords_iff] at he
  obtain ⟨⟨b1, b2, b3, b4⟩, hp⟩ := hs
  by_cases hq : below_threshold (wrap_gint (event.x - w.priv.dnd_x))
      (wrap_gint (event.y - w.priv.dnd_y)) w.priv.dnd_threshold = true
  · simp [nbtk_widget_child_dnd_motion_cb, hq] at hr
  · cases hm : w.priv.dnd_motion
    · cases hl : w.priv.dnd_last_dest <;>
        simp [nbtk_widget_child_dnd_motion_cb, hq, hm, hl, g_object_weak_unref, g_object_weak_ref,
          g_signal_connect]
    · cases hc : w.priv.dnd_clone with
      | none => simp [nbtk_widget_child_dnd_motion_cb, hq, hm, hc]
      | some c =>
        obtain ⟨px, py⟩ := hp hm (by simp [hc])
        have hx : wrap_gint (event.x - w.priv.dnd_x) = event.x - w.priv.dnd_x :=
          wrap_gint_of_range _ (by omega) (by omega)
        have hy : wrap_gint (event.y - w.priv.dnd_y) = event.y - w.priv.dnd_y :=
          wrap_gint_of_range _ (by omega) (by omega)
        have hq2 : ¬ below_threshold (event.x - w.priv.dnd_x) (event.y - w.priv.dnd_y)
            w.priv.dnd_threshold = true := by
          rw [hx, hy] at hq
          exact hq
        simp only [nbtk_widget_child_dnd_motion_cb, hx, hy, hq2, hm, px, py, hc]
        simp [hm, hc]

theorem motion_cb_proxy_tracks (env : Env) (widget child : Nat) (event : ClutterEvent)
    (w : World) (he : small_coords event = true) (hs : proxy_tracks w) :
    proxy_tracks (nbtk_widget_child_dnd_motion_cb env widget child event w).world := by
  by_cases hq : below_threshold (wrap_gint (event.x - w.priv.dnd_x))
      (wrap_gint (event.y - w.priv.dnd_y)) w.priv.dnd_threshold = true
  · simp only [nbtk_widget_child_dnd_motion_cb, hq, if_true]
    exact hs
  · have hr : (nbtk_widget_child_dnd_motion_cb env widget child event w).handled = true := by
      simp [nbtk_widget_child_dnd_motion_cb, hq]
    obtain ⟨_, f2, f3, f4, _⟩ := motion_cb_handled_point env widget child event w he hs hr
    rw [small_coords_iff] at he
    unfold proxy_tracks
    rw [f2, f3]
    exact ⟨he, fun _ hc => f4 hc⟩

theorem release_cb_point (env : Env) (widget child : Nat) (event : ClutterEvent) (w : World)
    (hq : ¬ (event.type != ClutterEventType.CLUTTER_BUTTON_RELEASE || event.button != 1) = true) :
    (nbtk_widget_child_dnd_release_cb env widget child event w).world.priv.dnd_x = w.priv.dnd_x
    ∧ (nbtk_widget_child_dnd_release_cb env widget child event w).world.priv.dnd_y = w.priv.dnd_y := by
  cases hm : w.priv.dnd_motion <;> cases hg : w.priv.dnd_grab <;>
    cases hl : w.priv.dnd_last_dest <;> cases hc : w.priv.dnd_clone <;>
    by_cases hid : w.priv.dnd_enter_cb_id = 0 <;> cases hdr : w.priv.dnd_dragged <;>
    simp_all [nbtk_widget_child_dnd_release_cb, leave_last_dest, g_object_weak_unref,
      g_signal_handlers_disconnect_by_func, g_signal_handler_disconnect]

theorem release_cb_proxy_tracks (env : Env) (widget child : Nat) (event : ClutterEvent)
    (w : World) (hs : proxy_tracks w) :
    proxy_tracks (nbtk_widget_child_dnd_release_cb env widget child event w).world := by
  by_cases hq : (event.type != ClutterEventType.CLUTTER_BUTTON_RELEASE || event.button != 1) = true
  · simp only [nbtk_widget_child_dnd_release_cb, hq, if_true]
    exact hs
  · obtain ⟨f1, f2⟩ := release_cb_point env widget child event w hq
    have f3 := (release_cb_frame env widget child event w hq).1
    unfold proxy_tracks at *
    rw [f1, f2, f3]
    exact ⟨hs.1, fun hc => by simp at hc⟩

theorem run_handler_proxy_tracks (env : Env) (hd : Handler) (event : ClutterEvent) (w : World)
    (he : small_coords event = true) (hs : proxy_tracks w) :
    proxy_tracks (run_handler env hd event w).world := by
  unfold run_handler
  cases hc : hd.callback
  · exact press_cb_proxy_tracks _ _ event w he hs
  · exact motion_cb_proxy_tracks env _ _ event w he hs
  · exact release_cb_proxy_tracks env _ _ event w hs
  · exact enter_cb_proxy_tracks _ event w hs

theorem emit_handlers_proxy_tracks (env : Env) (event : ClutterEvent)
    (he : small_coords event = true) (hs : List Handler) :
    ∀ (w : World) (acc : List Emission), proxy_tracks w →
      proxy_tracks (emit_handlers env event hs w acc).world := by
  induction hs with
  | nil => intro w acc h; exact h
  | cons hd rest ih =>
    intro w acc h
    unfold emit_handlers
    by_cases hmem : hd ∈ w.handlers
    · have hs2 := run_handler_proxy_tracks env hd event w he h
      by_cases hh : (run_handler env hd event w).handled = true
      · simpa [hmem, hh] using hs2
      · simpa [hmem, hh] using ih _ _ hs2
    · simpa [hmem] using ih w acc h

theorem dispose_proxy_tracks (obj : Nat) (w : World) (hs : proxy_tracks w) :
    proxy_tracks (g_object_dispose obj w) := by
  unfold proxy_tracks at *
  unfold g_object_dispose
  by_cases hmem : obj ∈ w.weak_refs
  · simp only [hmem, if_true, nbtk_widget_dnd_last_dest_weak_cb]
    exact hs
  · simp only [hmem, if_false]
    exact hs

theorem run_proxy_tracks (env : Env) (inputs : List Input) :
    ∀ w : World, (∀ i ∈ inputs, small_input i = true) → proxy_tracks w →
      proxy_tracks (run env inputs w).1 := by
  induction inputs with
  | nil => intro w _ h; exact h
  | cons i rest ih =>
    intro w hi h
    refine ih _ (fun j hj => hi j (List.mem_cons_of_mem _ hj)) ?_
    have hi1 := hi i (List.mem_cons_self _ _)
    cases i with
    | event actor e => exact emit_handlers_proxy_tracks env e hi1 _ w [] h
    | dispose obj =>
      by_cases hw : obj = w.widget
      · rw [step_dispose_widget env obj w hw]
        obtain ⟨w3, he, _, _, _, _, _, _, _, f8, f9, _, f11⟩ := widget_dispose_frame obj w
        rw [he]
        apply dispose_proxy_tracks
        unfold proxy_tracks at *
        rw [f8, f9, f11]
        exact ⟨h.1, fun _ hc => by simp at hc⟩
      · rw [step_dispose_other env obj w hw]
        exact dispose_proxy_tracks obj w h

theorem world_start_proxy_tracks (widget child threshold : Nat) (icon : Option Nat) :
    proxy_tracks (world_start widget child threshold icon) := by
  unfold proxy_tracks world_start nbtk_widget_setup_child_dnd
  simp [g_signal_connect, world_new, priv_new]

/-- Claim C29 as stated fails: in the example drag (press at (0, 0), motion to
(12, 0)) the widget is disposed of, which takes the proxy off the stage and
clears `dnd_clone` but leaves `dnd_motion` set and the motion handler
connected. The motion to (30, 14) is then handled (TRUE, one dnd-motion, with
no proxy) and recorded in `dnd_x` and `dnd_y`, and there is no proxy at the
pointer: `dnd_clone` is still none, nothing is on the stage, and the actor that
was the proxy is where it was, at (12, 0), without a parent. -/
theorem handled_motion_after_dispose_moves_no_proxy :
    (run empty_scene
        [Input.event 2 (button_press 0 0 1 1), Input.event 2 (motion 12 0), Input.dispose 1]
        (world_start 1 2 10 none)).1.priv.dnd_motion = true
    ∧ (clutter_actor_event empty_scene 2 (motion 30 14)
        (run empty_scene
          [Input.event 2 (button_press 0 0 1 1), Input.event 2 (motion 12 0), Input.dispose 1]
          (world_start 1 2 10 none)).1).handled = true
    ∧ (clutter_actor_event empty_scene 2 (motion 30 14)
        (run empty_scene
          [Input.event 2 (button_press 0 0 1 1), Input.event 2 (motion 12 0), Input.dispose 1]
          (world_start 1 2 10 none)).1).emitted
        = [⟨1, Signal.DND_MOTION, some 2, none, 30, 14⟩]
    ∧ (clutter_actor_event empty_scene 2 (motion 30 14)
        (run empty_scene
          [Input.event 2 (button_press 0 0 1 1), Input.event 2 (motion 12 0), Input.dispose 1]
          (world_start 1 2 10 none)).1).world.priv.dnd_x = 30
    ∧ (clutter_actor_event empty_scene 2 (motion 30 14)
        (run empty_scene
          [Input.event 2 (button_press 0 0 1 1), Input.event 2 (motion 12 0), Input.dispose 1]
          (world_start 1 2 10 none)).1).world.priv.dnd_y = 14
    ∧ (clutter_actor_event empty_scene 2 (motion 30 14)
        (run empty_scene
          [Input.event 2 (button_press 0 0 1 1), Input.event 2 (motion 12 0), Input.dispose 1]
          (world_start 1 2 10 none)).1).world.priv.dnd_clone = none
    ∧ (clutter_actor_event empty_scene 2 (motion 30 14)
        (run empty_scene
          [Input.event 2 (button_press 0 0 1 1), Input.event 2 (motion 12 0), Input.dispose 1]
          (world_start 1 2 10 none)).1).world.stage = []
    ∧ (clutter_actor_event empty_scene 2 (motion 30 14)
        (run empty_scene
          [Input.event 2 (button_press 0 0 1 1), Input.event 2 (motion 12 0), Input.dispose 1]
          (world_start 1 2 10 none)).1).world.proxy = ⟨12, 0, true, false⟩ := by
  decide

/-- Claim C29, amended: in every run of a new widget, with the automatic clone
or with a custom icon, whose events have coordinates below `2 ^ 23` in
magnitude, disposals of any object among the inputs, a motion event that the
motion callback handles (it returns TRUE, beginning the drag or during it,
after any number of ignored motions) leaves `dnd_motion` set and the pointer
position of the event recorded in `dnd_x` and `dnd_y`; if `dnd_clone` points to
a proxy afterwards, the proxy is at that position; and it does point to one
when the motion begins the drag, and when the widget has not been disposed of
during the run. -/
theorem proxy_follows_pointer (env : Env) (widget child threshold : Nat) (icon : Option Nat)
    (history : List Input) (event : ClutterEvent)
    (hh : ∀ i ∈ history, small_input i = true) (he : small_coords event = true)
    (hr : (nbtk_widget_child_dnd_motion_cb env widget child event
            (run env history (world_start widget child threshold icon)).1).handled = true) :
    (nbtk_widget_child_dnd_motion_cb env widget child event
        (run env history (world_start widget child threshold icon)).1).world.priv.dnd_motion = true
    ∧ (nbtk_widget_child_dnd_motion_cb env widget child event
        (run env history (world_start widget child threshold icon)).1).world.priv.dnd_x = event.x
    ∧ (nbtk_widget_child_dnd_motion_cb env widget child event
        (run env history (world_start widget child threshold icon)).1).world.priv.dnd_y = event.y
    ∧ ((nbtk_widget_child_dnd_motion_cb env widget child event
          (run env history (world_start widget child threshold icon)).1).world.priv.dnd_clone.isSome
          = true →
        (nbtk_widget_child_dnd_motion_cb env widget child event
          (run env history (world_start widget child threshold icon)).1).world.proxy.x = event.x
        ∧ (nbtk_widget_child_dnd_motion_cb env widget child event
          (run env history (world_start widget child threshold icon)).1).world.proxy.y = event.y)
    ∧ ((run env history (world_start widget child threshold icon)).1.priv.dnd_motion = false →
        (nbtk_widget_child_dnd_motion_cb env widget child event
          (run env history (world_start widget child threshold icon)).1).world.priv.dnd_clone.isSome
          = true)
    ∧ ((∀ i ∈ history, keeps_widget widget i = true) →
        (nbtk_widget_child_dnd_motion_cb env widget child event
          (run env history (world_start widget child threshold icon)).1).world.priv.dnd_clone.isSome
          = true) := by
  obtain ⟨f1, f2, f3, f4, f5⟩ := motion_cb_handled_point env widget child event _ he
    (run_proxy_tracks env history _ hh (world_start_proxy_tracks widget child threshold icon)) hr
  refine ⟨f1, f2, f3, f4, ?_, ?_⟩
  · intro hm
    exact f5 (fun hc => by rw [hm] at hc; simp at hc)
  · intro hnd
    have hs := run_session_ok env widget child history _
      (world_start_ok widget child threshold icon)
      (world_start_session_ok widget child threshold icon)
      (by
        intro i hi hc
        have hk := hnd i hi
        rw [hc, world_start_widget] at hk
        simp [keeps_widget] at hk)
    exact f5 (fun hm => (hs.2.2 hm).2.2)

/-- Claim C29, amended, with a custom icon: after the press at (0, 0), the
motion to (12, 0) that begins the drag and the ignored motion to (15, 3), the
motion to (30, 14) leaves the proxy at (30, 14). -/
theorem proxy_follows_pointer_witness :
    (nbtk_widget_child_dnd_motion_cb empty_scene 1 2 (motion 30 14)
        (run empty_scene
          [Input.event 2 (button_press 0 0 1 1), Input.event 2 (motion 12 0),
           Input.event 2 (motion 15 3)]
          (world_start 1 2 10 (some example_icon))).1).world.proxy.x = 30
    ∧ (nbtk_widget_child_dnd_motion_cb empty_scene 1 2 (motion 30 14)
        (run empty_scene
          [Input.event 2 (button_press 0 0 1 1), Input.event 2 (motion 12 0),
           Input.event 2 (motion 15 3)]
          (world_start 1 2 10 (some example_icon))).1).world.proxy.y = 14 :=
  (proxy_follows_pointer empty_scene 1 2 10 (some example_icon)
      [Input.event 2 (button_press 0 0 1 1), Input.event 2 (motion 12 0),
       Input.event 2 (motion 15 3)] (motion 30 14) (by decide) (by decide) (by decide)).2.2.2.1
    ((proxy_follows_pointer empty_scene 1 2 10 (some example_icon)
      [Input.event 2 (button_press 0 0 1 1), Input.event 2 (motion 12 0),
       Input.event 2 (motion 15 3)] (motion 30 14) (by decide) (by decide) (by decide)).2.2.2.2.2
      (by decide))

/-- The example with the automatic clone and with the custom icon, evaluated:
the motion to (15, 3) is ignored and the proxy stays at (12, 0); the motion to
(30, 14) moves it to (30, 14). -/
theorem proxy_example_positions :
    (run empty_scene
        [Input.event 2 (button_press 0 0 1 1), Input.event 2 (motion 12 0),
         Input.event 2 (motion 15 3)] (world_start 1 2 10 none)).1.proxy = ⟨12, 0, true, true⟩
    ∧ (run empty_scene
        [Input.event 2 (button_press 0 0 1 1), Input.event 2 (motion 12 0),
         Input.event 2 (motion 15 3), Input.event 2 (motion 30 14)]
        (world_start 1 2 10 none)).1.proxy = ⟨30, 14, true, true⟩
    ∧ (run empty_scene
        [Input.event 2 (button_press 0 0 1 1), Input.event 2 (motion 12 0),
         Input.event 2 (motion 15 3), Input.event 2 (motion 30 14)]
        (world_start 1 2 10 (some example_icon))).1.priv.dnd_clone = some example_icon := by
  decide

end Nbtk

namespace Mx

/-! ## Setting the progress of a slider -/

theorem gdouble_eq_fin (a : GDouble) (q : ℚ) : gdouble_eq a (GDouble.fin q) = true ↔ a = GDouble.fin q := by
  cases a <;> simp [gdouble_eq]

/-- Claim C9: for every slider state and every progress below 0 or above 1
(infinities included), `mx_slider_set_progress` leaves the whole private
structure, so the stored progress, unchanged, and requests no re-layout, no
redraw and no "progress" notification; the value is not clamped and applied. -/
theorem set_progress_rejects_out_of_range (priv : MxSliderPrivate) (progress : GDouble)
    (h : gdouble_lt progress (GDouble.fin 0) = true ∨ gdouble_lt (GDouble.fin 1) progress = true) :
    (mx_slider_set_progress priv progress).1 = priv
    ∧ mx_slider_get_progress (mx_slider_set_progress priv progress).1 = mx_slider_get_progress priv
    ∧ SliderEffect.allocate_fill_handle ∉ (mx_slider_set_progress priv progress).2
    ∧ SliderEffect.queue_redraw ∉ (mx_slider_set_progress priv progress).2
    ∧ SliderEffect.notify_progress ∉ (mx_slider_set_progress priv progress).2 := by
  unfold mx_slider_set_progress
  by_cases he : gdouble_eq priv.progress progress = true
  · simp [he]
  · have hr : (gdouble_lt progress (GDouble.fin 0) || gdouble_lt (GDouble.fin 1) progress) = true := by
      rcases h with h | h <;> simp [h]
    simp [he, hr]

/-- Claim C9 at the values 1.5 and -0.2 on a slider whose progress is 0.5. -/
theorem set_progress_rejects_out_of_range_witness :
    (mx_slider_set_progress { slider_new with progress := GDouble.fin (1 / 2) } (GDouble.fin (3 / 2))).1
      = { slider_new with progress := GDouble.fin (1 / 2) }
    ∧ (mx_slider_set_progress { slider_new with progress := GDouble.fin (1 / 2) } (GDouble.fin (-1 / 5))).1
      = { slider_new with progress := GDouble.fin (1 / 2) } :=
  ⟨(set_progress_rejects_out_of_range { slider_new with progress := GDouble.fin (1 / 2) }
      (GDouble.fin (3 / 2)) (Or.inr (by norm_num [gdouble_lt]))).1,
   (set_progress_rejects_out_of_range { slider_new with progress := GDouble.fin (1 / 2) }
      (GDouble.fin (-1 / 5)) (Or.inl (by norm_num [gdouble_lt]))).1⟩

/-- Claim C10: for every slider state and every v in [0, 1], after
`mx_slider_set_progress (v)` the getter returns v, a second call with v leaves
the state unchanged and makes no call at all, and the two calls together emit
the "progress" notification exactly once when v differed from the initial
progress and not at all when it was equal, so at most once. -/
theorem set_progress_idempotent (priv : MxSliderPrivate) (q : ℚ) (h0 : 0 ≤ q) (h1 : q ≤ 1) :
    mx_slider_get_progress (mx_slider_set_progress priv (GDouble.fin q)).1 = GDouble.fin q
    ∧ mx_slider_set_progress (mx_slider_set_progress priv (GDouble.fin q)).1 (GDouble.fin q)
        = ((mx_slider_set_progress priv (GDouble.fin q)).1, [])
    ∧ List.count SliderEffect.notify_progress
        ((mx_slider_set_progress priv (GDouble.fin q)).2 ++
          (mx_slider_set_progress (mx_slider_set_progress priv (GDouble.fin q)).1 (GDouble.fin q)).2)
        ≤ 1
    ∧ (priv.progress ≠ GDouble.fin q →
        List.count SliderEffect.notify_progress
          ((mx_slider_set_progress priv (GDouble.fin q)).2 ++
            (mx_slider_set_progress (mx_slider_set_progress priv (GDouble.fin q)).1 (GDouble.fin q)).2)
          = 1)
    ∧ (priv.progress = GDouble.fin q →
        List.count SliderEffect.notify_progress
          ((mx_slider_set_progress priv (GDouble.fin q)).2 ++
            (mx_slider_set_progress (mx_slider_set_progress priv (GDouble.fin q)).1 (GDouble.fin q)).2)
          = 0) := by
  have hlo : gdouble_lt (GDouble.fin q) (GDouble.fin 0) = false := by
    simp [gdouble_lt, h0]
  have hhi : gdouble_lt (GDouble.fin 1) (GDouble.fin q) = false := by
    simp [gdouble_lt, h1]
  have hsame : ∀ p : MxSliderPrivate, p.progress = GDouble.fin q →
      mx_slider_set_progress p (GDouble.fin q) = (p, []) := by
    intro p hp
    have : gdouble_eq p.progress (GDouble.fin q) = true := (gdouble_eq_fin _ _).mpr hp
    simp [mx_slider_set_progress, this]
  by_cases he : priv.progress = GDouble.fin q
  · rw [hsame priv he]
    simp only [hsame priv he, mx_slider_get_progress]
    refine ⟨he, trivial, ?_, ?_, ?_⟩
    · simp
    · intro hne; exact absurd he hne
    · intro _; simp
  · have he2 : gdouble_eq priv.progress (GDouble.fin q) = false := by
      cases hb : gdouble_eq priv.progress (GDouble.fin q) with
      | false => rfl
      | true => exact absurd ((gdouble_eq_fin _ _).mp hb) he
    have hfirst : mx_slider_set_progress priv (GDouble.fin q)
        = ({ priv with progress := GDouble.fin q },
           [SliderEffect.allocate_fill_handle, SliderEffect.queue_redraw,
            SliderEffect.notify_progress]) := by
      simp [mx_slider_set_progress, he2, hlo, hhi]
    have hsecond := hsame { priv with progress := GDouble.fin q } rfl
    rw [hfirst]
    simp only [hsecond, mx_slider_get_progress]
    refine ⟨trivial, trivial, ?_, ?_, ?_⟩
    · simp
    · intro _; simp
    · intro heq; exact absurd heq he

/-- Claim C10 on a new slider with v = 0.5: the second call is a no-op. -/
theorem set_progress_idempotent_witness :
    mx_slider_set_progress (mx_slider_set_progress slider_new (GDouble.fin (1 / 2))).1 (GDouble.fin (1 / 2))
      = ((mx_slider_set_progress slider_new (GDouble.fin (1 / 2))).1, []) :=
  (set_progress_idempotent slider_new (1 / 2) (by norm_num) (by norm_num)).2.1

/-! ## Rounding -/

theorem round_half_even_of_near (x : ℚ) (m : ℤ) (h1 : (m : ℚ) - 1 / 2 < x)
    (h2 : x < (m : ℚ) + 1 / 2) : round_half_even x = m := by
  unfold round_half_even
  by_cases hx : (m : ℚ) ≤ x
  · have hf : ⌊x⌋ = m := by
      rw [Int.floor_eq_iff]
      constructor
      · exact hx
      · linarith
    rw [hf]
    have : x - (m : ℚ) < 1 / 2 := by linarith
    rw [if_pos this]
  · have hx2 : x < (m : ℚ) := lt_of_not_le hx
    have hf : ⌊x⌋ = m - 1 := by
      rw [Int.floor_eq_iff]
      push_cast
      constructor
      · linarith
      · linarith
    rw [hf]
    push_cast
    have h3 : ¬ (x - ((m : ℚ) - 1) < 1 / 2) := by
      intro h
      linarith
    have h4 : 1 / 2 < x - ((m : ℚ) - 1) := by linarith
    simp only [h3, h4, if_false, if_true]
    ring

theorem round_half_even_int (m : ℤ) : round_half_even (m : ℚ) = m :=
  round_half_even_of_near _ m (by linarith) (by linarith)

/-- The rounding to an integer gives the floor or, for an argument that is not
an integer, the next integer. -/
theorem round_half_even_cases (x : ℚ) :
    round_half_even x = ⌊x⌋ ∨ (round_half_even x = ⌊x⌋ + 1 ∧ (⌊x⌋ : ℚ) < x) := by
  unfold round_half_even
  by_cases h1 : x - ⌊x⌋ < 1 / 2
  · left; rw [if_pos h1]
  · have hlt : (⌊x⌋ : ℚ) < x := by
      have : (1 : ℚ) / 2 ≤ x - ⌊x⌋ := le_of_not_lt h1
      linarith
    rw [if_neg h1]
    by_cases h2 : 1 / 2 < x - ⌊x⌋
    · right; rw [if_pos h2]; exact ⟨rfl, hlt⟩
    · rw [if_neg h2]
      by_cases h3 : ⌊x⌋ % 2 = 0
      · left; rw [if_pos h3]
      · right; rw [if_neg h3]; exact ⟨rfl, hlt⟩

theorem le_round_half_even (x : ℚ) (m : ℤ) (h : (m : ℚ) ≤ x) : m ≤ round_half_even x := by
  have hf : m ≤ ⌊x⌋ := Int.le_floor.mpr h
  rcases round_half_even_cases x with hc | ⟨hc, _⟩ <;> omega

theorem round_half_even_le (x : ℚ) (m : ℤ) (h : x ≤ (m : ℚ)) : round_half_even x ≤ m := by
  rcases round_half_even_cases x with hc | ⟨hc, hlt⟩
  · rw [hc]
    have : (⌊x⌋ : ℚ) ≤ m := le_trans (Int.floor_le x) h
    exact_mod_cast this
  · rw [hc]
    have : (⌊x⌋ : ℚ) < m := lt_of_lt_of_le hlt h
    have h2 : ⌊x⌋ < m := by exact_mod_cast this
    omega

theorem two_zpow_pos (k : ℤ) : (0 : ℚ) < 2 ^ k := zpow_pos (by norm_num) k

/-- A power of two with an exponent that is not negative is an integer. -/
theorem two_zpow_int (k : ℤ) (hk : 0 ≤ k) : ((2 : ℚ) ^ k) = (((2 : ℤ) ^ k.toNat : ℤ) : ℚ) := by
  have h : k = (k.toNat : ℤ) := (Int.toNat_of_nonneg hk).symm
  conv_lhs => rw [h]
  rw [zpow_natCast]
  push_cast
  rfl

theorem bit_length_aux_eq (fuel : ℕ) :
    ∀ n : ℕ, n ≤ fuel → bit_length_aux fuel n = if n = 0 then 0 else Nat.log 2 n + 1 := by
  induction fuel with
  | zero =>
    intro n hn
    have : n = 0 := by omega
    simp [bit_length_aux, this]
  | succ fuel ih =>
    intro n hn
    unfold bit_length_aux
    by_cases h0 : n = 0
    · simp [h0]
    · simp only [h0, if_false]
      rw [ih (n / 2) (by omega)]
      by_cases h1 : n / 2 = 0
      · have hlt : n < 2 := by omega
        simp [h1, Nat.log_of_lt hlt]
      · have hge : 2 ≤ n := by omega
        simp only [h1, if_false]
        rw [Nat.log_of_one_lt_of_le (by norm_num) hge]

theorem bit_length_eq (n : ℕ) (hn : n ≠ 0) : bit_length n = Nat.log 2 n + 1 := by
  unfold bit_length
  rw [bit_length_aux_eq n n (le_refl n)]
  simp [hn]

/-- The exponent brackets the value: `2 ^ e ≤ |q| < 2 ^ (e + 1)`. -/
theorem fp_exponent_spec (q : ℚ) (hq : q ≠ 0) :
    (2 : ℚ) ^ fp_exponent q ≤ |q| ∧ |q| < (2 : ℚ) ^ (fp_exponent q + 1) := by
  have hn : q.num.natAbs ≠ 0 := by
    intro h
    exact hq (Rat.zero_of_num_zero (Int.natAbs_eq_zero.mp h))
  have hd : q.den ≠ 0 := q.den_nz
  have hdpos : (0 : ℚ) < (q.den : ℚ) := by exact_mod_cast q.den_pos
  have habs : |q| * (q.den : ℚ) = (q.num.natAbs : ℚ) := by
    have h1 : |q| = |(q.num : ℚ)| / (q.den : ℚ) := by
      have h := congrArg abs (Rat.num_div_den q)
      rw [abs_div, abs_of_pos hdpos] at h
      exact h.symm
    rw [h1, Nat.cast_natAbs, Int.cast_abs]
    field_simp
  have hn1 : ((2 : ℚ) ^ (Nat.log 2 q.num.natAbs : ℤ)) ≤ (q.num.natAbs : ℚ) := by
    rw [zpow_natCast]
    exact_mod_cast Nat.pow_log_le_self 2 hn
  have hn2 : (q.num.natAbs : ℚ) < (2 : ℚ) ^ ((Nat.log 2 q.num.natAbs : ℤ) + 1) := by
    have := Nat.lt_pow_succ_log_self (by norm_num : 1 < 2) q.num.natAbs
    have h2 : (q.num.natAbs : ℚ) < (2 : ℚ) ^ (Nat.log 2 q.num.natAbs + 1) := by exact_mod_cast this
    rw [← zpow_natCast] at h2
    exact_mod_cast h2
  have hd1 : ((2 : ℚ) ^ (Nat.log 2 q.den : ℤ)) ≤ (q.den : ℚ) := by
    rw [zpow_natCast]
    exact_mod_cast Nat.pow_log_le_self 2 hd
  have hd2 : (q.den : ℚ) < (2 : ℚ) ^ ((Nat.log 2 q.den : ℤ) + 1) := by
    have := Nat.lt_pow_succ_log_self (by norm_num : 1 < 2) q.den
    have h2 : (q.den : ℚ) < (2 : ℚ) ^ (Nat.log 2 q.den + 1) := by exact_mod_cast this
    rw [← zpow_natCast] at h2
    exact_mod_cast h2
  have he0 : ((bit_length q.num.natAbs : ℤ) - (bit_length q.den : ℤ))
      = (Nat.log 2 q.num.natAbs : ℤ) - (Nat.log 2 q.den : ℤ) := by
    rw [bit_length_eq _ hn, bit_length_eq _ hd]
    push_cast
    ring
  unfold fp_exponent
  simp only [he0]
  generalize (Nat.log 2 q.num.natAbs : ℤ) = a at hn1 hn2
  generalize (Nat.log 2 q.den : ℤ) = b at hd1 hd2
  rw [← habs] at hn1 hn2
  have h2 : (2 : ℚ) ≠ 0 := by norm_num
  have hup : |q| < (2 : ℚ) ^ (a - b + 1) := by
    have e1 : (2 : ℚ) ^ (a - b + 1) * 2 ^ b = 2 ^ (a + 1) := by
      rw [← zpow_add₀ h2]
      congr 1
      ring
    have : |q| * (q.den : ℚ) < (2 : ℚ) ^ (a - b + 1) * (q.den : ℚ) := by
      calc |q| * (q.den : ℚ) < 2 ^ (a + 1) := hn2
        _ = (2 : ℚ) ^ (a - b + 1) * 2 ^ b := e1.symm
        _ ≤ (2 : ℚ) ^ (a - b + 1) * (q.den : ℚ) :=
            mul_le_mul_of_nonneg_left hd1 (le_of_lt (two_zpow_pos _))
    exact lt_of_mul_lt_mul_right this (le_of_lt hdpos)
  have hlow : (2 : ℚ) ^ (a - b - 1) ≤ |q| := by
    have e1 : (2 : ℚ) ^ (a - b - 1) * 2 ^ (b + 1) = 2 ^ a := by
      rw [← zpow_add₀ h2]
      congr 1
      ring
    have : (2 : ℚ) ^ (a - b - 1) * (q.den : ℚ) ≤ |q| * (q.den : ℚ) := by
      calc (2 : ℚ) ^ (a - b - 1) * (q.den : ℚ) ≤ (2 : ℚ) ^ (a - b - 1) * 2 ^ (b + 1) :=
            mul_le_mul_of_nonneg_left (le_of_lt hd2) (le_of_lt (two_zpow_pos _))
        _ = 2 ^ a := e1
        _ ≤ |q| * (q.den : ℚ) := hn1
    exact le_of_mul_le_mul_right this hdpos
  by_cases hc : (2 : ℚ) ^ (a - b) ≤ |q|
  · rw [if_pos hc]
    exact ⟨hc, hup⟩
  · rw [if_neg hc]
    refine ⟨hlow, ?_⟩
    have : a - b - 1 + 1 = a - b := by ring
    rw [this]
    exact lt_of_not_le hc

theorem log_two_eq (q : ℚ) (e : ℤ) (hq : 0 < q) (h1 : (2 : ℚ) ^ e ≤ q)
    (h2 : q < (2 : ℚ) ^ (e + 1)) : Int.log 2 q = e := by
  have hb : 1 < 2 := by norm_num
  have ha : e ≤ Int.log 2 q :=
    (Int.zpow_le_iff_le_log hb hq (x := e)).mp (by exact_mod_cast h1)
  have hc : Int.log 2 q < e + 1 :=
    (Int.lt_zpow_iff_log_lt hb hq (x := e + 1)).mp (by exact_mod_cast h2)
  omega

/-- The exponent is the integer part of the binary logarithm. -/
theorem fp_exponent_eq_log (q : ℚ) (hq : q ≠ 0) : fp_exponent q = Int.log 2 |q| :=
  (log_two_eq |q| _ (abs_pos.mpr hq) (fp_exponent_spec q hq).1 (fp_exponent_spec q hq).2).symm

/-- Evaluation of the rounding: when the exponent of `q` (or the least one)
is `e` and `m` is within one half of `q` counted in units in the last place,
the result is `m` units. -/
theorem fp_round_of_exponent (prec : ℕ) (emin emax : ℤ) (q : ℚ) (e m : ℤ) (h0 : q ≠ 0)
    (he : max (fp_exponent q) emin = e)
    (hm1 : (m : ℚ) - 1 / 2 < q / 2 ^ (e - ((prec : ℤ) - 1)))
    (hm2 : q / 2 ^ (e - ((prec : ℤ) - 1)) < (m : ℚ) + 1 / 2)
    (hmax : |(m : ℚ) * 2 ^ (e - ((prec : ℤ) - 1))| < 2 ^ (emax + 1)) :
    fp_round prec emin emax q = GDouble.fin (m * 2 ^ (e - ((prec : ℤ) - 1))) := by
  unfold fp_round
  simp only [h0, if_false, he]
  rw [round_half_even_of_near _ m hm1 hm2]
  rw [if_neg (not_le.mpr hmax)]

theorem fp_round_of_bracket (prec : ℕ) (emin emax : ℤ) (q : ℚ) (e m : ℤ)
    (hlo : (2 : ℚ) ^ e ≤ |q|) (hhi : |q| < (2 : ℚ) ^ (e + 1)) (hemin : emin ≤ e)
    (hm1 : (m : ℚ) - 1 / 2 < q / 2 ^ (e - ((prec : ℤ) - 1)))
    (hm2 : q / 2 ^ (e - ((prec : ℤ) - 1)) < (m : ℚ) + 1 / 2)
    (hmax : |(m : ℚ) * 2 ^ (e - ((prec : ℤ) - 1))| < 2 ^ (emax + 1)) :
    fp_round prec emin emax q = GDouble.fin (m * 2 ^ (e - ((prec : ℤ) - 1))) := by
  have hpos : 0 < |q| := lt_of_lt_of_le (two_zpow_pos e) hlo
  have h0 : q ≠ 0 := abs_pos.mp hpos
  have hl := log_two_eq |q| e hpos hlo hhi
  exact fp_round_of_exponent prec emin emax q e m h0
    (by rw [fp_exponent_eq_log q h0, hl]; exact max_eq_left hemin)
    hm1 hm2 hmax

/-- A value `m * 2 ^ k` whose significand `m` fits the precision and whose
exponent is not below the one of the subnormal values is left as it is. -/
theorem fp_round_exact (prec : ℕ) (emin emax : ℤ) (q : ℚ) (m k : ℤ)
    (hq : q = (m : ℚ) * 2 ^ k) (hm : |(m : ℚ)| < 2 ^ (prec : ℤ))
    (hk : emin - ((prec : ℤ) - 1) ≤ k) (hov : |q| < 2 ^ (emax + 1)) :
    fp_round prec emin emax q = GDouble.fin q := by
  by_cases h0 : q = 0
  · simp [fp_round, h0]
  · have hpos : 0 < |q| := abs_pos.mpr h0
    have hlog : Int.log 2 |q| < (prec : ℤ) + k := by
      have hb : 1 < 2 := by norm_num
      apply (Int.lt_zpow_iff_log_lt hb hpos).mp
      rw [hq, abs_mul, abs_of_pos (two_zpow_pos k)]
      push_cast
      rw [zpow_add₀ (by norm_num : (2 : ℚ) ≠ 0)]
      exact mul_lt_mul_of_pos_right hm (two_zpow_pos k)
    have hE : max (Int.log 2 |q|) emin - ((prec : ℤ) - 1) ≤ k := by
      rcases max_cases (Int.log 2 |q|) emin with ⟨h, _⟩ | ⟨h, _⟩ <;> rw [h] <;> omega
    unfold fp_round
    simp only [h0, if_false]
    rw [fp_exponent_eq_log q h0]
    generalize max (Int.log 2 |q|) emin - ((prec : ℤ) - 1) = E at hE ⊢
    have hd : 0 ≤ k - E := by omega
    have hquot : q / 2 ^ E = ((m * 2 ^ (k - E).toNat : ℤ) : ℚ) := by
      rw [hq]
      push_cast
      have h2 := two_zpow_int _ hd
      push_cast at h2
      rw [← h2, zpow_sub₀ (by norm_num : (2 : ℚ) ≠ 0)]
      field_simp
    rw [hquot, round_half_even_int, ← hquot]
    have hr : q / 2 ^ E * 2 ^ E = q := by
      field_simp
    rw [hr, if_neg (not_le.mpr hov)]

/-- Rounding keeps a value of the interval [0, 1] in it. -/
theorem fp_round_unit (prec : ℕ) (emin emax : ℤ) (q : ℚ) (hp : 1 ≤ prec)
    (hemin : emin ≤ 0) (hemax : 0 ≤ emax) (h0 : 0 ≤ q) (h1 : q ≤ 1) :
    ∃ r : ℚ, fp_round prec emin emax q = GDouble.fin r ∧ 0 ≤ r ∧ r ≤ 1 := by
  have hone : (1 : ℚ) < 2 ^ (emax + 1) := by
    have : (0 : ℤ) < emax + 1 := by omega
    exact one_lt_zpow₀ (by norm_num) this
  by_cases hq0 : q = 0
  · exact ⟨0, by simp [fp_round, hq0], le_refl _, by norm_num⟩
  by_cases hq1 : q = 1
  · refine ⟨1, ?_, by norm_num, le_refl _⟩
    rw [hq1]
    refine fp_round_exact prec emin emax 1 1 0 (by norm_num) ?_ (by omega) (by simpa using hone)
    have : (1 : ℚ) < 2 ^ (prec : ℤ) := one_lt_zpow₀ (by norm_num) (by omega)
    simpa using this
  have hpos : 0 < q := lt_of_le_of_ne h0 (Ne.symm hq0)
  have hlt : q < 1 := lt_of_le_of_ne h1 hq1
  have habs : |q| = q := abs_of_pos hpos
  have hlog : Int.log 2 q < 0 := by
    have hb : 1 < 2 := by norm_num
    apply (Int.lt_zpow_iff_log_lt hb hpos).mp
    simpa using hlt
  have hE : max (Int.log 2 q) emin - ((prec : ℤ) - 1) ≤ 0 := by
    rcases max_cases (Int.log 2 q) emin with ⟨h, _⟩ | ⟨h, _⟩ <;> rw [h] <;> omega
  generalize hEdef : max (Int.log 2 q) emin - ((prec : ℤ) - 1) = E at hE
  have hN : (2 : ℚ) ^ (-E) = (((2 : ℤ) ^ (-E).toNat : ℤ) : ℚ) := two_zpow_int (-E) (by omega)
  have hx : q / 2 ^ E = q * 2 ^ (-E) := by
    rw [zpow_neg, div_eq_mul_inv]
  have hx0 : ((0 : ℤ) : ℚ) ≤ q / 2 ^ E := by
    push_cast
    exact div_nonneg h0 (le_of_lt (two_zpow_pos E))
  have hxN : q / 2 ^ E ≤ (((2 : ℤ) ^ (-E).toNat : ℤ) : ℚ) := by
    rw [hx, ← hN]
    calc q * 2 ^ (-E) ≤ 1 * 2 ^ (-E) :=
          mul_le_mul_of_nonneg_right h1 (le_of_lt (two_zpow_pos (-E)))
      _ = 2 ^ (-E) := one_mul _
  have hr0 := le_round_half_even _ 0 hx0
  have hrN := round_half_even_le _ _ hxN
  have hr0q : (0 : ℚ) ≤ (round_half_even (q / 2 ^ E) : ℚ) := by exact_mod_cast hr0
  have hrNq : (round_half_even (q / 2 ^ E) : ℚ) ≤ 2 ^ (-E) := by
    rw [hN]
    exact_mod_cast hrN
  have hb0 : 0 ≤ (round_half_even (q / 2 ^ E) : ℚ) * 2 ^ E :=
    mul_nonneg hr0q (le_of_lt (two_zpow_pos E))
  have hb1 : (round_half_even (q / 2 ^ E) : ℚ) * 2 ^ E ≤ 1 := by
    calc (round_half_even (q / 2 ^ E) : ℚ) * 2 ^ E ≤ 2 ^ (-E) * 2 ^ E :=
          mul_le_mul_of_nonneg_right hrNq (le_of_lt (two_zpow_pos E))
      _ = 1 := by
          rw [← zpow_add₀ (by norm_num : (2 : ℚ) ≠ 0)]
          simp
  refine ⟨(round_half_even (q / 2 ^ E) : ℚ) * 2 ^ E, ?_, hb0, hb1⟩
  unfold fp_round
  simp only [hq0, if_false]
  rw [fp_exponent_eq_log q hq0, habs, hEdef]
  rw [if_neg]
  rw [abs_of_nonneg hb0]
  exact not_le.mpr (lt_of_le_of_lt hb1 hone)

/-- Evaluation of the rounding to `gfloat` of a positive value: `r` is `m`
units in the last place at the exponent `e` of `q`, and `q` is less than half a
unit away from it. -/
theorem gfloat_round_eq (q r : ℚ) (e m : ℤ) (hlo : (2 : ℚ) ^ e ≤ q)
    (hhi : q < (2 : ℚ) ^ (e + 1)) (he : -126 ≤ e)
    (hr : r = (m : ℚ) * 2 ^ (e - 23)) (h1 : r - 2 ^ (e - 23) / 2 < q)
    (h2 : q < r + 2 ^ (e - 23) / 2) (hov : |r| < 2 ^ (128 : ℤ)) :
    gfloat_round q = GDouble.fin r := by
  have hp := two_zpow_pos (e - 23)
  have hq : 0 < q := lt_of_lt_of_le (two_zpow_pos e) hlo
  rw [hr] at h1 h2 hov ⊢
  refine fp_round_of_bracket 24 (-126) 127 q e m (by rw [abs_of_pos hq]; exact hlo)
    (by rw [abs_of_pos hq]; exact hhi) he ?_ ?_ ?_
  · show (m : ℚ) - 1 / 2 < q / 2 ^ (e - 23)
    rw [lt_div_iff₀ hp]
    linarith
  · show q / 2 ^ (e - 23) < (m : ℚ) + 1 / 2
    rw [div_lt_iff₀ hp]
    linarith
  · exact hov

/-- A multiple `m / 2 ^ k` of a negative power of two down to `2 ^ (-100)`
with `|m| < 2 ^ 24` is a `gfloat`. -/
theorem gfloat_round_exact (q : ℚ) (m : ℤ) (k : ℕ) (hq : q * 2 ^ k = m)
    (hm1 : -16777216 < m) (hm2 : m < 16777216) (hk : k ≤ 100) :
    gfloat_round q = GDouble.fin q := by
  have h2 : (0 : ℚ) < 2 ^ k := pow_pos (by norm_num) k
  have hqm : q = (m : ℚ) * 2 ^ (-(k : ℤ)) := by
    rw [zpow_neg, zpow_natCast, ← hq]
    field_simp
  have hmq : |(m : ℚ)| < 16777216 := by
    rw [abs_lt]
    constructor
    · exact_mod_cast hm1
    · exact_mod_cast hm2
  refine fp_round_exact 24 (-126) 127 q m (-(k : ℤ)) hqm (by norm_num; exact hmq) (by omega) ?_
  have hle : |q| ≤ |(m : ℚ)| := by
    rw [hqm, abs_mul, abs_of_pos (two_zpow_pos _)]
    have : (2 : ℚ) ^ (-(k : ℤ)) ≤ 1 := by
      rw [zpow_neg, zpow_natCast]
      exact inv_le_one_of_one_le₀ (one_le_pow₀ (by norm_num))
    calc |(m : ℚ)| * 2 ^ (-(k : ℤ)) ≤ |(m : ℚ)| * 1 :=
          mul_le_mul_of_nonneg_left this (abs_nonneg _)
      _ = |(m : ℚ)| := mul_one _
  calc |q| ≤ |(m : ℚ)| := hle
    _ < 16777216 := hmq
    _ < 2 ^ ((127 : ℤ) + 1) := by norm_num

/-- The same for `gdouble`, with `|m| < 2 ^ 53`. -/
theorem gdouble_round_exact (q : ℚ) (m : ℤ) (k : ℕ) (hq : q * 2 ^ k = m)
    (hm1 : -9007199254740992 < m) (hm2 : m < 9007199254740992) (hk : k ≤ 100) :
    gdouble_round q = GDouble.fin q := by
  have h2 : (0 : ℚ) < 2 ^ k := pow_pos (by norm_num) k
  have hqm : q = (m : ℚ) * 2 ^ (-(k : ℤ)) := by
    rw [zpow_neg, zpow_natCast, ← hq]
    field_simp
  have hmq : |(m : ℚ)| < 9007199254740992 := by
    rw [abs_lt]
    constructor
    · exact_mod_cast hm1
    · exact_mod_cast hm2
  refine fp_round_exact 53 (-1022) 1023 q m (-(k : ℤ)) hqm (by norm_num; exact hmq) (by omega) ?_
  have hle : |q| ≤ |(m : ℚ)| := by
    rw [hqm, abs_mul, abs_of_pos (two_zpow_pos _)]
    have : (2 : ℚ) ^ (-(k : ℤ)) ≤ 1 := by
      rw [zpow_neg, zpow_natCast]
      exact inv_le_one_of_one_le₀ (one_le_pow₀ (by norm_num))
    calc |(m : ℚ)| * 2 ^ (-(k : ℤ)) ≤ |(m : ℚ)| * 1 :=
          mul_le_mul_of_nonneg_left this (abs_nonneg _)
      _ = |(m : ℚ)| := mul_one _
  calc |q| ≤ |(m : ℚ)| := hle
    _ < 9007199254740992 := hmq
    _ < 2 ^ ((1023 : ℤ) + 1) := by norm_num

theorem gfloat_round_zero : gfloat_round 0 = GDouble.fin 0 := by
  simp [gfloat_round, fp_round]

theorem gfloat_round_one : gfloat_round 1 = GDouble.fin 1 :=
  gfloat_round_exact 1 1 0 (by norm_num) (by norm_num) (by norm_num) (by norm_num)

/-- The rounding on some values: 1/3 and 1/10 go to the nearest `gfloat`; a
tie goes to the even significand (16777217 down, 16777219 up, 2 ^ (-150) to
zero among the subnormal values); the sign is kept; a value above the largest
`gfloat` by half a unit in the last place or more is an infinity. -/
theorem gfloat_round_examples :
    gfloat_round (1 / 3) = GDouble.fin (11184811 / 33554432)
    ∧ gfloat_round (1 / 10) = GDouble.fin (13421773 / 134217728)
    ∧ gfloat_round 16777217 = GDouble.fin 16777216
    ∧ gfloat_round 16777219 = GDouble.fin 16777220
    ∧ gfloat_round (-16777219) = GDouble.fin (-16777220)
    ∧ gfloat_round (1 / 2 ^ 150) = GDouble.fin 0
    ∧ gfloat_round (3 / 2 ^ 150) = GDouble.fin (1 / 2 ^ 148)
    ∧ gfloat_round (2 ^ 128 - 2 ^ 103) = GDouble.pos_inf
    ∧ gfloat_round (2 ^ 128 - 2 ^ 103 - 1) = GDouble.fin (2 ^ 128 - 2 ^ 104)
    ∧ gdouble_round (1 / 10) = GDouble.fin (3602879701896397 / 36028797018963968) := by
  decide!

/-- Rounding to `gfloat` keeps a value of the interval [0, 1] in it. -/
theorem gfloat_round_unit (q : ℚ) (h0 : 0 ≤ q) (h1 : q ≤ 1) :
    ∃ r : ℚ, gfloat_round q = GDouble.fin r ∧ 0 ≤ r ∧ r ≤ 1 :=
  fp_round_unit 24 (-126) 127 q (by norm_num) (by norm_num) (by norm_num) h0 h1

/-- The operations of `gfloat` are exact on integers of at most 23 bits, the
coordinates of pixels among them. -/
theorem gfloat_ops_exact_on_integers (a b : ℤ) (ha1 : -8388608 < a) (ha2 : a < 8388608)
    (hb1 : -8388608 < b) (hb2 : b < 8388608) :
    gfloat_add (GDouble.fin a) (GDouble.fin b) = GDouble.fin ((a + b : ℤ) : ℚ)
    ∧ gfloat_sub (GDouble.fin a) (GDouble.fin b) = GDouble.fin ((a - b : ℤ) : ℚ)
    ∧ gfloat_div (GDouble.fin ((2 * a : ℤ) : ℚ)) (GDouble.fin 2) = GDouble.fin a := by
  refine ⟨?_, ?_, ?_⟩
  · simp only [gfloat_add, exact_add, to_gfloat]
    rw [← Int.cast_add]
    exact gfloat_round_exact _ (a + b) 0 (by simp) (by omega) (by omega) (by norm_num)
  · simp only [gfloat_sub, exact_sub, exact_neg, exact_add, to_gfloat]
    rw [← Int.cast_neg, ← Int.cast_add]
    have h : a + -b = a - b := by ring
    rw [h]
    exact gfloat_round_exact _ (a - b) 0 (by simp) (by omega) (by omega) (by norm_num)
  · have h2 : ¬ ((2 : ℚ) = 0) := by norm_num
    simp only [gfloat_div, exact_div, h2, if_false, to_gfloat]
    have h : (((2 * a : ℤ) : ℚ)) / 2 = (a : ℚ) := by
      push_cast
      ring
    rw [h]
    exact gfloat_round_exact _ a 0 (by simp) (by omega) (by omega) (by norm_num)

/-! ## Pointer driven updates -/

theorem set_progress_stores (priv : MxSliderPrivate) (q : ℚ) (h0 : 0 ≤ q) (h1 : q ≤ 1) :
    (mx_slider_set_progress priv (GDouble.fin q)).1 = { priv with progress := GDouble.fin q } := by
  by_cases he : priv.progress = GDouble.fin q
  · have he2 : gdouble_eq priv.progress (GDouble.fin q) = true := (gdouble_eq_fin _ _).mpr he
    simp only [mx_slider_set_progress, he2, if_true]
    cases priv
    simp_all
  · have he2 : gdouble_eq priv.progress (GDouble.fin q) = false := by
      cases hb : gdouble_eq priv.progress (GDouble.fin q) with
      | false => rfl
      | true => exact absurd ((gdouble_eq_fin _ _).mp hb) he
    have hlo : gdouble_lt (GDouble.fin q) (GDouble.fin 0) = false := by simp [gdouble_lt, h0]
    have hhi : gdouble_lt (GDouble.fin 1) (GDouble.fin q) = false := by simp [gdouble_lt, h1]
    simp [mx_slider_set_progress, he2, hlo, hhi]

theorem clamp_fin (p f : ℚ) (hf : 0 ≤ f) :
    CLAMP (GDouble.fin p) (GDouble.fin 0) (GDouble.fin f) = GDouble.fin (max 0 (min p f)) := by
  unfold CLAMP
  by_cases h1 : f < p
  · have : min p f = f := min_eq_right (le_of_lt h1)
    simp [gdouble_lt, h1, this, hf]
  · by_cases h2 : p < 0
    · have h3 : min p f = p := min_eq_left (le_of_not_lt h1)
      simp [gdouble_lt, h1, h2, h3, le_of_lt h2]
    · have h3 : min p f = p := min_eq_left (le_of_not_lt h1)
      simp [gdouble_lt, h1, h2, h3, le_of_not_lt h2]

/-- The quotient of the clamped position by a positive fill length, as the
code computes it in `gfloat`: the `gfloat` nearest to the exact quotient, which
is a number of [0, 1]. -/
theorem gfloat_div_clamp (p f : ℚ) (hf : 0 < f) :
    gfloat_div (CLAMP (GDouble.fin p) (GDouble.fin 0) (GDouble.fin f)) (GDouble.fin f)
      = gfloat_round (max 0 (min p f) / f)
    ∧ ∃ r : ℚ, gfloat_round (max 0 (min p f) / f) = GDouble.fin r ∧ 0 ≤ r ∧ r ≤ 1 := by
  have hne : f ≠ 0 := ne_of_gt hf
  constructor
  · rw [clamp_fin p f (le_of_lt hf)]
    simp only [gfloat_div, exact_div, hne, if_false, to_gfloat]
  · apply gfloat_round_unit
    · exact div_nonneg (le_max_left _ _) (le_of_lt hf)
    · rw [div_le_one hf]
      exact max_le (le_of_lt hf) (min_le_right _ _)

/-- A captured motion stores the quotient `clamp (p, 0, f) / f` computed in
`gfloat`, where `f` is the fill length and `p` the position as the code
computes them in `gfloat`, when `f` is positive, and changes no other field. -/
theorem drag_handle_stores (priv : MxSliderPrivate) (ux width : GDouble) (f p : ℚ)
    (hf : gfloat_sub priv.handle_middle_end priv.handle_middle_start = GDouble.fin f)
    (hp : gfloat_add (gfloat_sub ux priv.handle_middle_start)
            (gfloat_sub (gfloat_div width (GDouble.fin 2)) priv.x_origin) = GDouble.fin p)
    (hfill : 0 < f) :
    (drag_handle priv (some ux) width).1
      = { priv with progress := gfloat_round (max 0 (min p f) / f) } := by
  obtain ⟨hdiv, r, hr, hr0, hr1⟩ := gfloat_div_clamp p f hfill
  simp only [drag_handle, hf, hp, hdiv]
  rw [hr]
  exact set_progress_stores priv r hr0 hr1

/-- Claim C12: for every slider and every pointer whose transform succeeds,
when the fill length `handle_middle_end - handle_middle_start`, computed in
`gfloat` as the code does, is a positive number `f` and
`pos = ux - handle_middle_start + (handle width / 2 - x_origin)`, computed in
`gfloat` as the code does, is a number `p`, `drag_handle` stores as progress
the quotient `clamp (p, 0, f) / f` computed in `gfloat`, that is the `gfloat`
nearest to the exact quotient, and changes no other field; a pointer with
`p >= f` gives exactly 1, one with `p <= 0` gives exactly 0, and the stored
progress is always a number of [0, 1]. -/
theorem drag_handle_maps_pointer (priv : MxSliderPrivate) (ux width : GDouble) (f p : ℚ)
    (hf : gfloat_sub priv.handle_middle_end priv.handle_middle_start = GDouble.fin f)
    (hp : gfloat_add (gfloat_sub ux priv.handle_middle_start)
            (gfloat_sub (gfloat_div width (GDouble.fin 2)) priv.x_origin) = GDouble.fin p)
    (hfill : 0 < f) :
    (drag_handle priv (some ux) width).1
      = { priv with progress := gfloat_round (max 0 (min p f) / f) }
    ∧ (f ≤ p → (drag_handle priv (some ux) width).1.progress = GDouble.fin 1)
    ∧ (p ≤ 0 → (drag_handle priv (some ux) width).1.progress = GDouble.fin 0)
    ∧ in_unit_interval (drag_handle priv (some ux) width).1.progress := by
  have hne : f ≠ 0 := ne_of_gt hfill
  obtain ⟨_, r, hr, hr0, hr1⟩ := gfloat_div_clamp p f hfill
  have hval := drag_handle_stores priv ux width f p hf hp hfill
  refine ⟨hval, ?_, ?_, ?_⟩
  · intro hge
    rw [hval]
    simp only
    rw [min_eq_right hge, max_eq_right (le_of_lt hfill), div_self hne]
    exact gfloat_round_one
  · intro hle
    rw [hval]
    simp only
    have : min p f ≤ 0 := le_trans (min_le_left _ _) hle
    rw [max_eq_left this, zero_div]
    exact gfloat_round_zero
  · rw [hval]
    simp only
    rw [hr]
    exact ⟨hr0, hr1⟩

/-- Claim C12 on the slider 200 wide with handle width 20, grabbed at the
handle middle: a captured motion at local x 250 gives progress 1, and one at
local x 90 gives the `gfloat` nearest to 79/178. -/
theorem drag_handle_maps_pointer_witness :
    (drag_handle
        { slider_styled with handle_middle_start := GDouble.fin 11,
                             handle_middle_end := GDouble.fin 189, x_origin := GDouble.fin 10 }
        (some (GDouble.fin 250)) (GDouble.fin 20)).1.progress = GDouble.fin 1
    ∧ (drag_handle
        { slider_styled with handle_middle_start := GDouble.fin 11,
                             handle_middle_end := GDouble.fin 189, x_origin := GDouble.fin 10 }
        (some (GDouble.fin 90)) (GDouble.fin 20)).1
      = { slider_styled with handle_middle_start := GDouble.fin 11,
                             handle_middle_end := GDouble.fin 189, x_origin := GDouble.fin 10,
                             progress := gfloat_round (max 0 (min 79 178) / 178) } :=
  ⟨(drag_handle_maps_pointer
      { slider_styled with handle_middle_start := GDouble.fin 11,
                           handle_middle_end := GDouble.fin 189, x_origin := GDouble.fin 10 }
      (GDouble.fin 250) (GDouble.fin 20) 178 239 (by decide!) (by decide!) (by norm_num)).2.1
      (by norm_num),
   (drag_handle_maps_pointer
      { slider_styled with handle_middle_start := GDouble.fin 11,
                           handle_middle_end := GDouble.fin 189, x_origin := GDouble.fin 10 }
      (GDouble.fin 90) (GDouble.fin 20) 178 79 (by decide!) (by decide!) (by norm_num)).1⟩

/-- On pixel coordinates, integers of at most 22 bits with an even width of the
handle actor, no operation before the quotient rounds: `drag_handle` stores the
`gfloat` nearest to `clamp (pos, 0, fillLength) / fillLength` with the exact
`pos = ux - handle_middle_start + (width / 2 - x_origin)` and the exact
`fillLength = handle_middle_end - handle_middle_start`. -/
theorem drag_handle_on_pixels (priv : MxSliderPrivate) (u s e xo h : ℤ)
    (hs : priv.handle_middle_start = GDouble.fin s) (he : priv.handle_middle_end = GDouble.fin e)
    (hxo : priv.x_origin = GDouble.fin xo)
    (hu : -2097152 < u ∧ u < 2097152) (hsb : -2097152 < s ∧ s < 2097152)
    (heb : -2097152 < e ∧ e < 2097152) (hxb : -2097152 < xo ∧ xo < 2097152)
    (hhb : -2097152 < h ∧ h < 2097152) (hfill : s < e) :
    (drag_handle priv (some (GDouble.fin u)) (GDouble.fin ((2 * h : ℤ) : ℚ))).1
      = { priv with progress :=
            gfloat_round (max 0 (min (((u - s + (h - xo) : ℤ)) : ℚ) ((e - s : ℤ) : ℚ))
              / ((e - s : ℤ) : ℚ)) } := by
  have hf := (gfloat_ops_exact_on_integers e s (by omega) (by omega) (by omega) (by omega)).2.1
  have h1 := (gfloat_ops_exact_on_integers u s (by omega) (by omega) (by omega) (by omega)).2.1
  have h2 := (gfloat_ops_exact_on_integers h xo (by omega) (by omega) (by omega) (by omega)).2.2
  have h3 := (gfloat_ops_exact_on_integers h xo (by omega) (by omega) (by omega) (by omega)).2.1
  have h4 := (gfloat_ops_exact_on_integers (u - s) (h - xo) (by omega) (by omega) (by omega)
    (by omega)).1
  refine drag_handle_stores priv (GDouble.fin u) (GDouble.fin ((2 * h : ℤ) : ℚ))
    ((e - s : ℤ) : ℚ) ((u - s + (h - xo) : ℤ) : ℚ) ?_ ?_ ?_
  · rw [hs, he]
    exact hf
  · rw [hs, hxo, h1, h2, h3]
    exact h4
  · have : 0 < e - s := by omega
    exact_mod_cast this

/-- A trough press stores the quotient `clamp (p, 0, f) / f` computed in
`gfloat`, where `f` is the fill length and `p = ux - handle_middle_start` as
the code computes them in `gfloat`, when `f` is positive; the stored progress
is a number of [0, 1]. -/
theorem move_handle_maps_pointer (priv : MxSliderPrivate) (ux trough_x : GDouble) (f p : ℚ)
    (hf : gfloat_sub priv.handle_middle_end priv.handle_middle_start = GDouble.fin f)
    (hp : gfloat_sub ux priv.handle_middle_start = GDouble.fin p) (hfill : 0 < f) :
    (move_handle priv (some ux) trough_x).1
      = { priv with
            x_origin := gfloat_add (gfloat_of_nat (priv.handle_width / 2)) trough_x,
            progress := gfloat_round (max 0 (min p f) / f) }
    ∧ in_unit_interval (move_handle priv (some ux) trough_x).1.progress := by
  obtain ⟨hdiv, r, hr, hr0, hr1⟩ := gfloat_div_clamp p f hfill
  have hval : (move_handle priv (some ux) trough_x).1
      = { priv with
            x_origin := gfloat_add (gfloat_of_nat (priv.handle_width / 2)) trough_x,
            progress := gfloat_round (max 0 (min p f) / f) } := by
    simp only [move_handle, hf, hp, hdiv]
    rw [hr]
    exact set_progress_stores _ r hr0 hr1
  refine ⟨hval, ?_⟩
  rw [hval]
  simp only
  rw [hr]
  exact ⟨hr0, hr1⟩

/-- Claim C11, at the failing input: a slider with handle width 20 and no
padding is allocated a box 22 wide, which makes `handle_middle_start` and
`handle_middle_end` both 11 and the fill length 0. A trough press whose
transform gives local x 11 then computes 0 / 0 and `mx_slider_set_progress`
stores the not-a-number, as does a captured motion; the stored progress is not
a number of [0, 1]. A direct call with not-a-number is stored as well. -/
theorem zero_fill_length_stores_nan :
    (mx_slider_allocate slider_styled (box_of_size 22 30) padding_zero).1.handle_middle_start
      = GDouble.fin 11
    ∧ (mx_slider_allocate slider_styled (box_of_size 22 30) padding_zero).1.handle_middle_end
      = GDouble.fin 11
    ∧ (mx_slider_allocate slider_styled (box_of_size 22 30) padding_zero).1.progress = GDouble.fin 0
    ∧ (move_handle (mx_slider_allocate slider_styled (box_of_size 22 30) padding_zero).1
        (some (GDouble.fin 11)) (GDouble.fin 0)).1.progress = GDouble.nan
    ∧ (drag_handle (mx_slider_allocate slider_styled (box_of_size 22 30) padding_zero).1
        (some (GDouble.fin 11)) (GDouble.fin 20)).1.progress = GDouble.nan
    ∧ (mx_slider_set_progress slider_new GDouble.nan).1.progress = GDouble.nan
    ∧ ¬ in_unit_interval GDouble.nan := by
  refine ⟨by decide!, by decide!, by decide!, by decide!, by decide!, by decide!, ?_⟩
  simp [in_unit_interval]

theorem clamp_div_in_unit (p f : ℚ) (hf : f ≠ 0) :
    ∃ q : ℚ, gfloat_div (CLAMP (GDouble.fin p) (GDouble.fin 0) (GDouble.fin f)) (GDouble.fin f)
        = GDouble.fin q ∧ 0 ≤ q ∧ q ≤ 1 := by
  unfold CLAMP
  by_cases h1 : f < p
  · refine ⟨1, ?_, by norm_num, by norm_num⟩
    simp [gdouble_lt, h1, gfloat_div, exact_div, hf, to_gfloat, gfloat_round_one]
  · by_cases h2 : p < 0
    · refine ⟨0, ?_, by norm_num, by norm_num⟩
      simp [gdouble_lt, h1, h2, gfloat_div, exact_div, hf, to_gfloat, gfloat_round_zero]
    · have hp0 : 0 ≤ p := le_of_not_lt h2
      have hpf : p ≤ f := le_of_not_lt h1
      have hfpos : 0 < f := lt_of_le_of_ne (le_trans hp0 hpf) (Ne.symm hf)
      obtain ⟨r, hr, hr0, hr1⟩ := gfloat_round_unit (p / f) (div_nonneg hp0 (le_of_lt hfpos))
        (by rw [div_le_one hfpos]; exact hpf)
      refine ⟨r, ?_, hr0, hr1⟩
      simp [gdouble_lt, h1, h2, gfloat_div, exact_div, hf, to_gfloat, hr]

/-- When the fill length and the position, as the code computes them in
`gfloat`, are numbers and the fill length is not zero, a trough press and a
captured motion store a number of [0, 1]. -/
theorem pointer_update_in_unit_interval (priv : MxSliderPrivate) (ux width trough_x : GDouble)
    (f p pm : ℚ)
    (hf : gfloat_sub priv.handle_middle_end priv.handle_middle_start = GDouble.fin f)
    (hp : gfloat_add (gfloat_sub ux priv.handle_middle_start)
            (gfloat_sub (gfloat_div width (GDouble.fin 2)) priv.x_origin) = GDouble.fin p)
    (hpm : gfloat_sub ux priv.handle_middle_start = GDouble.fin pm) (hfill : f ≠ 0) :
    in_unit_interval (drag_handle priv (some ux) width).1.progress
    ∧ in_unit_interval (move_handle priv (some ux) trough_x).1.progress := by
  constructor
  · obtain ⟨q, hq, h0, h1⟩ := clamp_div_in_unit p f hfill
    have hlhs : drag_handle priv (some ux) width = mx_slider_set_progress priv (GDouble.fin q) := by
      simp only [drag_handle, hf, hp, hq]
    rw [hlhs, set_progress_stores priv q h0 h1]
    exact ⟨h0, h1⟩
  · obtain ⟨q, hq, h0, h1⟩ := clamp_div_in_unit pm f hfill
    have hlhs : move_handle priv (some ux) trough_x
        = mx_slider_set_progress
            { priv with x_origin := gfloat_add (gfloat_of_nat (priv.handle_width / 2)) trough_x }
            (GDouble.fin q) := by
      simp only [move_handle, hf, hpm, hq]
    rw [hlhs, set_progress_stores _ q h0 h1]
    exact ⟨h0, h1⟩

/-- An argument below 0 or above 1 leaves the private structure as it was. -/
theorem set_progress_out_of_range_keeps (priv : MxSliderPrivate) (progress : GDouble)
    (h : gdouble_lt progress (GDouble.fin 0) = true ∨ gdouble_lt (GDouble.fin 1) progress = true) :
    (mx_slider_set_progress priv progress).1 = priv := by
  unfold mx_slider_set_progress
  by_cases he : gdouble_eq priv.progress progress = true
  · simp [he]
  · have hr : (gdouble_lt progress (GDouble.fin 0) || gdouble_lt (GDouble.fin 1) progress) = true := by
      rcases h with h | h <;> simp [h]
    simp [he, hr]

/-- A call of `mx_slider_set_progress` with an argument that is not
not-a-number keeps the stored progress a number of [0, 1]. -/
theorem set_progress_keeps_unit_interval (priv : MxSliderPrivate) (progress : GDouble)
    (hp : in_unit_interval priv.progress) (hn : progress ≠ GDouble.nan) :
    in_unit_interval (mx_slider_set_progress priv progress).1.progress := by
  cases progress with
  | nan => exact absurd rfl hn
  | neg_inf =>
    rw [set_progress_out_of_range_keeps priv GDouble.neg_inf (Or.inl rfl)]
    exact hp
  | pos_inf =>
    rw [set_progress_out_of_range_keeps priv GDouble.pos_inf (Or.inr rfl)]
    exact hp
  | fin q =>
    by_cases hr : 0 ≤ q ∧ q ≤ 1
    · rw [set_progress_stores priv q hr.1 hr.2]
      exact hr
    · have hout : gdouble_lt (GDouble.fin q) (GDouble.fin 0) = true
          ∨ gdouble_lt (GDouble.fin 1) (GDouble.fin q) = true := by
        by_cases h0 : 0 ≤ q
        · right
          have : ¬ q ≤ 1 := fun h => hr ⟨h0, h⟩
          simpa [gdouble_lt] using this
        · left
          simpa [gdouble_lt] using h0
      rw [set_progress_out_of_range_keeps priv (GDouble.fin q) hout]
      exact hp

/-! ## Geometry of the track -/

/-- Claim C24, at the failing input, the scenario of the claim: the slider 200
wide with handle width 20 and no padding. `mx_slider_allocate` stores 11 and
189 as the extremes of the handle middle, so the fill length that `move_handle`
and `drag_handle` divide by is 178, while `mx_slider_allocate_fill_handle`
lays the handle out over a track of 180 that starts at 10. A trough press at
local x 90 stores the `gfloat` nearest to 79/178, which is 1861517/4194304
(0.44382024), not 90/180 or 80/180, and the layout then puts the handle from
x 79 to x 99, its middle one pixel left of the pointer. -/
theorem fill_length_differs_from_layout_track :
    (laid_out slider_styled 200 padding_zero).1.handle_middle_start = GDouble.fin 11
    ∧ (laid_out slider_styled 200 padding_zero).1.handle_middle_end = GDouble.fin 189
    ∧ gfloat_sub (laid_out slider_styled 200 padding_zero).1.handle_middle_end
        (laid_out slider_styled 200 padding_zero).1.handle_middle_start = GDouble.fin 178
    ∧ fill_handle_track (laid_out slider_styled 200 padding_zero).1 (box_of_size 200 30)
        padding_zero = GDouble.fin 180
    ∧ (trough_press_at slider_styled 200 padding_zero 90).world.priv.progress
        = gfloat_round (79 / 178)
    ∧ gfloat_round (79 / 178) = GDouble.fin (1861517 / 4194304)
    ∧ (mx_slider_allocate_fill_handle (trough_press_at slider_styled 200 padding_zero 90).world.priv
        (box_of_size 200 30) padding_zero).2
        = ⟨GDouble.fin 79, GDouble.fin 7, GDouble.fin 99, GDouble.fin 23⟩ := by
  decide!

/-! ## Vertical layout of the handle -/

/-- For a trough height that is not negative the comparison of the handle
height with it is the one of the integers. -/
theorem handle_higher_of_nonneg (handle_height : Nat) (trough_height : Int)
    (h0 : 0 ≤ trough_height) (h1 : trough_height < 4294967296) :
    handle_higher_than_trough handle_height trough_height
      = decide (trough_height < (handle_height : Int)) := by
  unfold handle_higher_than_trough
  rw [Int.emod_eq_of_lt h0 h1]
  congr 1
  apply propext
  omega

/-- For a negative trough height, -1 when unspecified, the comparison is false
for every handle height below `2 ^ 32 + trough_height`. -/
theorem handle_higher_of_unspecified (handle_height : Nat)
    (h : handle_height ≤ 4294967295) :
    handle_higher_than_trough handle_height (-1) = false := by
  unfold handle_higher_than_trough
  simp
  omega

/-- The vertical extent of the handle box as the code computes it: all the
available space when the handle height is 0 or exceeds the trough height read
as `guint`, centred with the handle height otherwise; each bound is then
truncated. -/
theorem handle_box_vertical (priv : MxSliderPrivate) (box : ClutterActorBox)
    (padding : MxPadding) :
    ((priv.handle_height = 0
        ∨ handle_higher_than_trough priv.handle_height priv.trough_height = true) →
      (mx_slider_allocate_fill_handle priv box padding).2.y1 = gfloat_to_int padding.top
      ∧ (mx_slider_allocate_fill_handle priv box padding).2.y2
          = gfloat_to_int (gfloat_sub (gfloat_sub box.y2 box.y1) padding.bottom))
    ∧ ((priv.handle_height ≠ 0
        ∧ handle_higher_than_trough priv.handle_height priv.trough_height = false) →
      (mx_slider_allocate_fill_handle priv box padding).2.y1
          = gfloat_to_int (gfloat_div
              (gfloat_sub (gfloat_sub box.y2 box.y1) (gfloat_of_nat priv.handle_height))
              (GDouble.fin 2))
      ∧ (mx_slider_allocate_fill_handle priv box padding).2.y2
          = gfloat_to_int (gfloat_add
              (gfloat_div
                (gfloat_sub (gfloat_sub box.y2 box.y1) (gfloat_of_nat priv.handle_height))
                (GDouble.fin 2))
              (gfloat_of_nat priv.handle_height))) := by
  constructor
  · intro h
    have hc : (priv.handle_height == 0
        || handle_higher_than_trough priv.handle_height priv.trough_height) = true := by
      rcases h with h | h <;> simp [h]
    simp [mx_slider_allocate_fill_handle, hc]
  · rintro ⟨h1, h2⟩
    have hc : (priv.handle_height == 0
        || handle_higher_than_trough priv.handle_height priv.trough_height) = false := by
      simp [h1, h2]
    simp [mx_slider_allocate_fill_handle, hc]

/-- Claim C28, at the failing input: trough height -1 (unspecified), handle
height 16, box height 30, no padding. As integers 16 is greater than -1, but
the code compares them as `guint`, finds the handle not higher than the trough
and centres it: the handle box spans y from 7 to 23, not from 0 to 30. With
handle height 40 in the same box the handle is centred too, from -5 to 35. -/
theorem handle_is_centred_when_trough_unspecified :
    slider_styled.trough_height = -1
    ∧ slider_styled.handle_height = 16
    ∧ handle_higher_than_trough slider_styled.handle_height slider_styled.trough_height = false
    ∧ (laid_out slider_styled 200 padding_zero).2.handle_box
        = ⟨GDouble.fin 1, GDouble.fin 7, GDouble.fin 21, GDouble.fin 23⟩
    ∧ (laid_out { slider_styled with handle_height := 40 } 200 padding_zero).2.handle_box
        = ⟨GDouble.fin 1, GDouble.fin (-5), GDouble.fin 21, GDouble.fin 35⟩ := by
  decide!

/-- A centred handle in a box lower than the handle: with trough height 20,
handle height 15 and box height 10 the two bounds -2.5 and 12.5 are truncated
to -2 and 12, so the handle box is 14 high, not 15. -/
theorem centred_handle_in_low_box :
    (mx_slider_allocate { slider_styled with trough_height := 20, handle_height := 15 }
        (box_of_size 200 10) padding_zero).2.handle_box
      = ⟨GDouble.fin 1, GDouble.fin (-2), GDouble.fin 21, GDouble.fin 12⟩ := by
  decide!

/-! ## Preferred height -/

/-- For a trough height that is not negative the macro gives the maximum of the
two integers. -/
theorem MAX_of_nonneg (handle_height : Nat) (trough_height : Int)
    (h0 : 0 ≤ trough_height) (h1 : trough_height < 4294967296) :
    (MAX_guint_gint handle_height trough_height : Int) = max (handle_height : Int) trough_height := by
  unfold MAX_guint_gint
  rw [Int.emod_eq_of_lt h0 h1]
  by_cases h : trough_height.toNat < handle_height
  · simp only [h, if_true]
    omega
  · simp only [h, if_false]
    omega

/-- With a trough height that is not negative the preferred height is the
maximum of the two heights, converted to `gfloat`, plus the vertical padding,
each sum done in `gfloat`. -/
theorem preferred_height_of_nonneg (priv : MxSliderPrivate) (padding : MxPadding)
    (h0 : 0 ≤ priv.trough_height) (h1 : priv.trough_height < 4294967296) :
    mx_slider_get_preferred_height priv padding
      = (gfloat_add (gfloat_add (gfloat_of_int (max (priv.handle_height : Int) priv.trough_height))
            padding.top) padding.bottom,
         gfloat_add (gfloat_add (gfloat_of_int (max (priv.handle_height : Int) priv.trough_height))
            padding.top) padding.bottom) := by
  have h := MAX_of_nonneg priv.handle_height priv.trough_height h0 h1
  have hq : gfloat_of_nat (MAX_guint_gint priv.handle_height priv.trough_height)
      = gfloat_of_int (max (priv.handle_height : Int) priv.trough_height) := by
    unfold gfloat_of_nat gfloat_of_int
    rw [← h]
    simp
  simp only [mx_slider_get_preferred_height, hq]

/-- Claim C30, at the failing input: handle height 16, trough height -1
(unspecified), no padding. The macro converts -1 to `guint` and gives
4294967295; the conversion of that `guint` to `gfloat` rounds it to
4294967296, which is the preferred height reported, not 16. With paddings 2
and 3 the two sums are absorbed by the rounding and the result is 4294967296
again, not 21. -/
theorem preferred_height_when_trough_unspecified :
    slider_styled.handle_height = 16
    ∧ slider_styled.trough_height = -1
    ∧ MAX_guint_gint 16 (-1) = 4294967295
    ∧ gfloat_of_nat 4294967295 = GDouble.fin 4294967296
    ∧ mx_slider_get_preferred_height slider_styled padding_zero
        = (GDouble.fin 4294967296, GDouble.fin 4294967296)
    ∧ mx_slider_get_preferred_height slider_styled
          ⟨GDouble.fin 2, GDouble.fin 0, GDouble.fin 3, GDouble.fin 0⟩
        = (GDouble.fin 4294967296, GDouble.fin 4294967296) := by
  decide!

/-! ## A captured motion after a press on the trough -/

/-- Claim C25, at two failing inputs. With the default handle width 25, no
padding and a box 200 wide, a press on the trough at local x 100 sets the
progress to 1/2 and a captured motion at the same position changes it to the
`gfloat` nearest to 175/348, which is 4218409/8388608 (0.50287354): the offset
is 25 / 2 - 12 = 1/2. With handle width 20, left padding 5 and a box 205 wide,
a press at local x 105 sets the progress to 1/2 and a captured motion at the
same position changes it to the `gfloat` nearest to 42/89, which is
3958669/8388608 (0.47191012): the offset is minus the x of the trough, -5. -/
theorem motion_at_press_point_changes_progress :
    (trough_press_at slider_default_width 200 padding_zero 100).world.priv.progress
        = GDouble.fin (1 / 2)
    ∧ box_width (mx_slider_allocate_fill_handle
          (trough_press_at slider_default_width 200 padding_zero 100).world.priv
          (box_of_size 200 30) padding_zero).2 = GDouble.fin 25
    ∧ (captured_motion_at (trough_press_at slider_default_width 200 padding_zero 100).world
          200 padding_zero 100).world.priv.progress = gfloat_round (175 / 348)
    ∧ gfloat_round (175 / 348) = GDouble.fin (4218409 / 8388608)
    ∧ (laid_out slider_styled 205 (padding_left 5)).2.trough_box.x1 = GDouble.fin 5
    ∧ (trough_press_at slider_styled 205 (padding_left 5) 105).world.priv.progress
        = GDouble.fin (1 / 2)
    ∧ (captured_motion_at (trough_press_at slider_styled 205 (padding_left 5) 105).world
          205 (padding_left 5) 105).world.priv.progress = gfloat_round (42 / 89)
    ∧ gfloat_round (42 / 89) = GDouble.fin (3958669 / 8388608) := by
  decide!

/-! ## A captured motion after a press on the handle -/

/-- A press on the handle never changes the progress. -/
theorem handle_press_keeps_progress (button : Nat) (hx : Option GDouble) (trough_x : GDouble)
    (w : SliderWorld) :
    (on_handle_button_press_event button hx trough_x w).world.priv.progress = w.priv.progress := by
  unfold on_handle_button_press_event
  by_cases hb : (button != 1) = true
  · simp [hb]
  · cases hx <;> simp [hb, begin_capture]

/-- Claim C26, at the failing input: the slider 200 wide with handle width 20 and
no padding, laid out at progress 1/4, has its handle from x 45 to x 65. A
primary press on the handle at x 50 leaves the progress at 1/4, and the
captured motion at the same position changes it to the `gfloat` nearest to
22/89, which is 4147177/16777216 (0.24719101); so does a press at x 60
followed by a motion at x 60. -/
theorem motion_at_grab_point_changes_progress :
    (laid_out slider_quarter 200 padding_zero).1.progress = GDouble.fin (1 / 4)
    ∧ (laid_out slider_quarter 200 padding_zero).2.handle_box
        = ⟨GDouble.fin 45, GDouble.fin 7, GDouble.fin 65, GDouble.fin 23⟩
    ∧ (handle_press_at slider_quarter 200 padding_zero 50).handled = true
    ∧ (handle_press_at slider_quarter 200 padding_zero 50).world.priv.progress
        = GDouble.fin (1 / 4)
    ∧ (handle_press_at slider_quarter 200 padding_zero 50).world.priv.x_origin = GDouble.fin 5
    ∧ (captured_motion_at (handle_press_at slider_quarter 200 padding_zero 50).world
          200 padding_zero 50).world.priv.progress = gfloat_round (22 / 89)
    ∧ (captured_motion_at (handle_press_at slider_quarter 200 padding_zero 60).world
          200 padding_zero 60).world.priv.progress = gfloat_round (22 / 89)
    ∧ gfloat_round (22 / 89) = GDouble.fin (4147177 / 16777216) := by
  decide!

/-- In the same slider the grab point is stable at progress 1/2: the captured
motion at the press point leaves the progress at 1/2. -/
theorem motion_at_grab_point_at_half :
    (captured_motion_at
        (handle_press_at { slider_styled with progress := GDouble.fin (1 / 2) } 200
          padding_zero 95).world
        200 padding_zero 95).world.priv.progress = GDouble.fin (1 / 2) := by
  decide!

/-! ## Events whose coordinate transform fails -/

/-- A press on the handle and a captured motion whose coordinate transform
fails leave the slider as it was. -/
theorem failed_transform_is_ignored (button : Nat) (trough_x handle_actor_width : GDouble)
    (w : SliderWorld) :
    (on_handle_button_press_event button none trough_x w).world = w
    ∧ (on_handle_button_press_event button none trough_x w).handled = false
    ∧ (on_handle_button_press_event button none trough_x w).effects = []
    ∧ on_handle_capture_event (CapturedEvent.motion none handle_actor_width) w = ⟨w, true, []⟩ := by
  unfold on_handle_button_press_event on_handle_capture_event
  by_cases hb : (button != 1) = true
  · simp [hb, drag_handle]
  · simp [hb, drag_handle]

/-- Claim C27, at the failing input: a primary press on the trough background
whose coordinate transform fails. `move_handle` returns early and the progress
is unchanged, but the handler goes on: it disables the picking for motion
events, connects the capture handler, stores its id and returns TRUE. On the
styled slider with no capture going on the state after the press differs from
the state before it. -/
theorem trough_press_begins_capture_on_failed_transform (trough_x : GDouble) (w : SliderWorld) :
    (on_trough_bg_button_press_event 1 none trough_x w).handled = true
    ∧ (on_trough_bg_button_press_event 1 none trough_x w).world.priv.progress = w.priv.progress
    ∧ (on_trough_bg_button_press_event 1 none trough_x w).world.motion_events_enabled = false
    ∧ (on_trough_bg_button_press_event 1 none trough_x w).world.priv.capture_handler
        = w.next_handler_id
    ∧ (on_trough_bg_button_press_event 1 none trough_x w).world.capture_handlers
        = w.capture_handlers ++ [w.next_handler_id]
    ∧ (slider_world slider_styled).motion_events_enabled = true
    ∧ (slider_world slider_styled).priv.capture_handler = 0
    ∧ (on_trough_bg_button_press_event 1 none (GDouble.fin 0)
        (slider_world slider_styled)).world.priv.capture_handler = 1
    ∧ (on_trough_bg_button_press_event 1 none (GDouble.fin 0)
        (slider_world slider_styled)).world ≠ slider_world slider_styled := by
  refine ⟨?_, ?_, ?_, ?_, ?_, rfl, rfl, ?_, ?_⟩
  · simp [on_trough_bg_button_press_event]
  · simp [on_trough_bg_button_press_event, move_handle, begin_capture]
  · simp [on_trough_bg_button_press_event, begin_capture]
  · simp [on_trough_bg_button_press_event, move_handle, begin_capture]
  · simp [on_trough_bg_button_press_event, begin_capture]
  · simp [on_trough_bg_button_press_event, move_handle, begin_capture, slider_world]
  · intro h
    have h2 := congrArg SliderWorld.motion_events_enabled h
    simp [on_trough_bg_button_press_event, begin_capture, slider_world] at h2

end Mx
